import Mathlib

/-!
# Vendor-Backend: the cart-to-order checkout

A shallow embedding of the checkout path of the marketplace backend
(`internal/data/*.go`, `cmd/api/order_controller.go`, `cmd/api/errors.go`)
and theorems about it.

Conventions of the embedding

* `uuid.UUID` values are natural numbers, `uuid.Nil` is `0`; `time.Time` values
  are natural numbers.
* `float64` is an abstract carrier `F`: the code only adds, subtracts,
  multiplies, converts from `int` and compares with zero, so the definitions
  take exactly these operations as type-class arguments.  Nothing is assumed
  about them unless a theorem says so.
* Go `int` columns (`quantity`, `stock_quantity`) are integers; the rows come
  from SQL integer columns, far from the 64-bit boundary, so no wrap-around is
  modelled.
* The database is a record of tables, each table a list of rows in storage
  order.  A connection holds the committed tables and, while a transaction is
  open, the transaction's working copy.  Every repository method takes the
  handle it is bound to (`Handle.db` or `Handle.tx`), as the Go receivers do.
* Everything the outside world decides during one request (whether a storage
  call fails, which identifier `uuid.New()` returns, what `time.Now()` reads)
  is supplied by an `Env` record, one entry per call site and loop iteration.
-/

set_option autoImplicit false

namespace Vendor

/-! ## Identifiers, errors -/

abbrev UUID := Nat

abbrev Time := Nat

/-- The zero UUID, `uuid.Nil`. -/
def uuid.Nil : UUID := 0

/-- The package-level error values of `internal/data/model.go`. -/
inductive Sentinel
  | ErrDuplicateEntry
  | ErrInvalidInput
  | ErrStoreNotFound
  | ErrStoreTypeNotFound
  | ErrProductNotFound
  | ErrProductUnavailable
  | ErrCartNotFound
  | ErrCartItemNotFound
  | ErrOrderNotFound
  | ErrOrderItemNotFound
  | ErrAdNotFound
  | ErrRecordNotFound
  | ErrDuplicatedKey
  | ErrDuplicatedRole
  | ErrHasRole
  | ErrHasNoRoles
  | ErrForeignKeyViolation
  | ErrUserNotFound
  | ErrUserAlreadyhaveatable
  | ErrUserHasNoTable
  | ErrEmailAlreadyInserted
  | ErrInvalidQuantity
  | ErrRecordNotFoundOrders
  | ErrDescriptionMissing
  | ErrDuplicatedPhone
  | ErrInvalidAddressOrCoordinates
  | ErrInvalidDiscount
  | ErrSubscriptionNotFound
  | ErrPhoneAlreadyInserted
  deriving DecidableEq, Repr

/-- Go `error` values.  `sentinel` is one of the package-level values, the only
errors `errors.Is` recognises; `driver` is an error raised by the SQL driver
other than `sql.ErrNoRows`; `noRows` is `sql.ErrNoRows` where a method passes
it on as it is; the `errorf…` constructors are applications of `fmt.Errorf`
kept symbolic (format string and arguments), with `%s` a UUID and `%v` the
cause.  The one format with `%w`, that of `StoreDB.GetStore`, wraps an error of
the SQL driver, which is no package-level value; so for `errors.Is` with a
package-level target an `errorf…` value wraps nothing. -/
inductive Error
  | sentinel (s : Sentinel)
  | driver
  | noRows
  | errorf (format : String)
  | errorfS (format : String) (id : UUID)
  | errorfV (format : String) (cause : Error)
  | errorfSV (format : String) (id : UUID) (cause : Error)
  deriving DecidableEq, Repr

/-- Results of fallible calls can be compared when their parts can. -/
instance instDecidableEqExcept {ε α : Type} [DecidableEq ε] [DecidableEq α] :
    DecidableEq (Except ε α)
  | .ok a, .ok b => if h : a = b then isTrue (by rw [h]) else isFalse (by simpa using h)
  | .error a, .error b => if h : a = b then isTrue (by rw [h]) else isFalse (by simpa using h)
  | .ok _, .error _ => isFalse (by simp)
  | .error _, .ok _ => isFalse (by simp)

/-- Go `errors.Is(err, target)` for a package-level target. -/
def errors.Is (err : Error) (target : Sentinel) : Bool :=
  match err with
  | .sentinel s => s == target
  | _ => false

/-! ## Rows and tables -/

/-- A row of `products` (`data.Product`). -/
structure Product (F : Type) where
  ID : UUID
  StoreID : UUID
  Name : String
  Description : Option String
  Price : F
  Discount : F
  Image : Option String
  StockQuantity : Int
  IsAvailable : Bool
  CreatedAt : Time
  UpdatedAt : Time
  deriving DecidableEq, Repr

/-- A row of `carts` (`data.Cart`). -/
structure Cart where
  ID : UUID
  UserID : UUID
  StoreID : Option UUID
  CreatedAt : Time
  UpdatedAt : Time
  deriving DecidableEq, Repr

/-- A row of `cart_items` (`data.CartItem`). -/
structure CartItem where
  ID : UUID
  CartID : UUID
  ProductID : UUID
  Quantity : Int
  CreatedAt : Time
  UpdatedAt : Time
  deriving DecidableEq, Repr

/-- A row of `orders` (`data.Order`). -/
structure Order (F : Type) where
  ID : UUID
  UserID : UUID
  StoreID : UUID
  TotalPrice : F
  Status : String
  DeliveryAddress : String
  DeliveryLatitude : Option F
  DeliveryLongitude : Option F
  DeliveryNotes : Option String
  CreatedAt : Time
  UpdatedAt : Time
  deriving DecidableEq, Repr

/-- A row of `order_items` (`data.OrderItem`). -/
structure OrderItem (F : Type) where
  ID : UUID
  OrderID : UUID
  ProductID : UUID
  Quantity : Int
  PriceAtOrder : F
  CreatedAt : Time
  deriving DecidableEq, Repr

/-- A row of `users`, restricted to the columns the checkout reads
(`data.User`: `id`, `address_text`, `latitude`, `longitude`). -/
structure User (F : Type) where
  ID : UUID
  AddressText : Option String
  Latitude : Option F
  Longitude : Option F
  deriving DecidableEq, Repr

/-- A row of `stores`, restricted to the columns the middleware reads
(`data.Store`: `id`, `owner_id`). -/
structure Store where
  ID : UUID
  OwnerID : UUID
  deriving DecidableEq, Repr

/-- The stored tables.  `stores` is only read by the parts embedded here. -/
structure Tables (F : Type) where
  users : List (User F)
  products : List (Product F)
  carts : List Cart
  cart_items : List CartItem
  orders : List (Order F)
  order_items : List (OrderItem F)
  stores : List Store := []
  deriving DecidableEq, Repr

/-- What a repository is bound to: the pool (`*sqlx.DB`, every statement
commits on its own) or the open transaction (`*sqlx.Tx`). -/
inductive Handle
  | db
  | tx
  deriving DecidableEq, Repr

/-- A database connection: the committed tables and the working copy of the
open transaction, if any. -/
structure Conn (F : Type) where
  committed : Tables F
  tx : Option (Tables F)
  deriving DecidableEq, Repr

variable {F : Type}

/-- The tables a statement issued through handle `h` sees; `none` when `h` is a
transaction that is no longer open. -/
def Conn.rows (c : Conn F) : Handle → Option (Tables F)
  | .db => some c.committed
  | .tx => c.tx

/-- The effect of a writing statement issued through handle `h`; `none` when
`h` is a transaction that is no longer open. -/
def Conn.exec (c : Conn F) (h : Handle) (f : Tables F → Tables F) : Option (Conn F) :=
  match h with
  | .db => some { c with committed := f c.committed }
  | .tx =>
    match c.tx with
    | some t => some { c with tx := some (f t) }
    | none => none

/-- Go `(*sqlx.DB).Beginx`: opens a transaction on a snapshot of the committed
tables. -/
def Conn.Beginx (fail : Bool) (c : Conn F) : Except Error (Conn F) :=
  if fail then .error .driver else .ok { c with tx := some c.committed }

/-- Go `(*sqlx.Tx).Commit`: publishes the working copy; a commit that fails
publishes nothing. -/
def Conn.Commit (fail : Bool) (c : Conn F) : Except Error (Conn F) :=
  if fail then .error .driver
  else
    match c.tx with
    | some t => .ok { committed := t, tx := none }
    | none => .error .driver

/-- Go `(*sqlx.Tx).Rollback`: discards the working copy; a no-op after a
commit. -/
def Conn.Rollback (c : Conn F) : Conn F :=
  { c with tx := none }

/-! ## Repository methods -/

/-- The API origin, `data.Domain`. -/
def Domain : String := "http://localhost:8080"

/-- The `image` entry of `products_columns`:
`CASE WHEN NULLIF(image, '') IS NOT NULL THEN FORMAT('<Domain>/%s', image) ELSE NULL END`. -/
def productImageColumn (image : Option String) : Option String :=
  match image with
  | some s => if s = "" then none else some (Domain ++ "/" ++ s)
  | none => none

/-- Go `ProductDB.Get`: the first row of `products` with the given id, read
through `products_columns`. -/
def ProductDB.Get (h : Handle) (fail : Bool) (c : Conn F) (id : UUID) :
    Except Error (Product F) :=
  match (if fail then none else c.rows h) with
  | none => .error (.errorfV "error getting product: %v" .driver)
  | some t =>
    match t.products.find? (fun p => p.ID == id) with
    | none => .error (.sentinel .ErrProductNotFound)
    | some p => .ok { p with Image := productImageColumn p.Image }

/-- Go `ProductDB.Update`: `UPDATE products SET name, description, image, price,
discount, stock_quantity, is_available, updated_at WHERE id = product.ID`. -/
def ProductDB.Update (h : Handle) (fail : Bool) (now : Time) (c : Conn F)
    (product : Product F) : Except Error (Conn F) :=
  let product := { product with UpdatedAt := now }
  let stmt : Tables F → Tables F := fun t =>
    { t with products := t.products.map fun row =>
        if row.ID == product.ID then
          { row with
            Name := product.Name
            Description := product.Description
            Image := product.Image
            Price := product.Price
            Discount := product.Discount
            StockQuantity := product.StockQuantity
            IsAvailable := product.IsAvailable
            UpdatedAt := product.UpdatedAt }
        else row }
  match (if fail then none else c.exec h stmt) with
  | none => .error (.errorfV "error updating product: %v" .driver)
  | some c1 => .ok c1

/-- Go `OrderDB.Insert`: assigns a fresh id and the timestamps to the caller's
order, then appends the row to `orders`.  Returns the order as the caller's
pointer sees it afterwards, whether or not the statement succeeded, and the
outcome of the statement. -/
def OrderDB.Insert (h : Handle) (fail : Bool) (newID : UUID) (createdAt updatedAt : Time)
    (c : Conn F) (order : Order F) : Order F × Except Error (Conn F) :=
  let order := { order with ID := newID, CreatedAt := createdAt, UpdatedAt := updatedAt }
  (order,
    match (if fail then none
           else c.exec h fun t => { t with orders := t.orders ++ [order] }) with
    | none => .error .driver
    | some c1 => .ok c1)

/-- Go `OrderItemDB.Insert`: assigns a fresh id and the creation time to the
caller's item, then appends the row to `order_items`.  Returns the item as the
caller's pointer sees it afterwards and the outcome of the statement. -/
def OrderItemDB.Insert (h : Handle) (fail : Bool) (newID : UUID) (createdAt : Time)
    (c : Conn F) (item : OrderItem F) : OrderItem F × Except Error (Conn F) :=
  let item := { item with ID := newID, CreatedAt := createdAt }
  (item,
    match (if fail then none
           else c.exec h fun t => { t with order_items := t.order_items ++ [item] }) with
    | none => .error .driver
    | some c1 => .ok c1)

/-- Go `CartItemDB.Delete`: `DELETE FROM cart_items WHERE id = ?`; the number of
affected rows is not inspected. -/
def CartItemDB.Delete (h : Handle) (fail : Bool) (c : Conn F) (id : UUID) :
    Except Error (Conn F) :=
  match (if fail then none
         else c.exec h fun t =>
           { t with cart_items := t.cart_items.filter fun row => !(row.ID == id) }) with
  | none => .error (.errorfV "error deleting cart item: %v" .driver)
  | some c1 => .ok c1

/-- Go `CartItemDB.ListByCart`: `SELECT … FROM cart_items WHERE cart_id = ?`. -/
def CartItemDB.ListByCart (h : Handle) (fail : Bool) (c : Conn F) (cartID : UUID) :
    Except Error (List CartItem) :=
  match (if fail then none else c.rows h) with
  | none => .error (.errorfV "error getting cart items: %v" .driver)
  | some t => .ok (t.cart_items.filter fun row => row.CartID == cartID)

/-- Go `CartDB.Get`: the first row of `carts` with the given id. -/
def CartDB.Get (h : Handle) (fail : Bool) (c : Conn F) (id : UUID) : Except Error Cart :=
  match (if fail then none else c.rows h) with
  | none => .error (.errorfV "error getting cart: %v" .driver)
  | some t =>
    match t.carts.find? (fun row => row.ID == id) with
    | none => .error (.sentinel .ErrCartNotFound)
    | some cart => .ok cart

/-- Go `CartDB.Delete`: `DELETE FROM carts WHERE id = ?`; the number of affected
rows is not inspected. -/
def CartDB.Delete (h : Handle) (fail : Bool) (c : Conn F) (id : UUID) :
    Except Error (Conn F) :=
  match (if fail then none
         else c.exec h fun t => { t with carts := t.carts.filter fun row => !(row.ID == id) }) with
  | none => .error (.errorfV "error deleting cart: %v" .driver)
  | some c1 => .ok c1

/-- Go `UserDB.GetUser`, restricted to the columns of `User`. -/
def UserDB.GetUser (h : Handle) (fail : Bool) (c : Conn F) (userID : UUID) :
    Except Error (User F) :=
  match (if fail then none else c.rows h) with
  | none => .error (.errorfV "خطأ في جلب بيانات المستخدم: %v" .driver)
  | some t =>
    match t.users.find? (fun row => row.ID == userID) with
    | none => .error (.sentinel .ErrUserNotFound)
    | some user => .ok user

/-! ## The environment of one checkout request -/

/-- What the outside world decides during one checkout request.  The `fail…`
fields say whether the storage call at that site (and loop iteration) returns a
driver error; the remaining fields are the values `uuid.New()` and
`time.Now()` return at each site. -/
structure Env where
  failCartGet : Bool
  failListByCart : Bool
  failGetUser : Bool
  failValidateGet : Nat → Bool
  failBegin : Bool
  failInsertOrder : Bool
  failItemGet : Nat → Bool
  failInsertItem : Nat → Bool
  failUpdateProduct : Nat → Bool
  failDeleteItem : Nat → Bool
  failDeleteCart : Bool
  failCommit : Bool
  orderID : UUID
  orderCreatedAt : Time
  orderUpdatedAt : Time
  itemDraftID : Nat → UUID
  itemDraftCreatedAt : Nat → Time
  itemID : Nat → UUID
  itemCreatedAt : Nat → Time
  productUpdatedAt : Nat → Time

/-- An environment in which no storage call fails. -/
def Env.calm (orderID : UUID) (itemID : Nat → UUID) (now : Time) : Env where
  failCartGet := false
  failListByCart := false
  failGetUser := false
  failValidateGet := fun _ => false
  failBegin := false
  failInsertOrder := false
  failItemGet := fun _ => false
  failInsertItem := fun _ => false
  failUpdateProduct := fun _ => false
  failDeleteItem := fun _ => false
  failDeleteCart := false
  failCommit := false
  orderID := orderID
  orderCreatedAt := now
  orderUpdatedAt := now
  itemDraftID := fun _ => 0
  itemDraftCreatedAt := fun _ => now
  itemID := itemID
  itemCreatedAt := fun _ => now
  productUpdatedAt := fun _ => now

/-! ## `OrderDB.CreateFromCart` -/

/-- First loop of `CreateFromCart` (lines 242–251): re-reads every product
through the pool, rejects an unavailable or under-stocked one, accumulates the
total.  `i` is the index of the head item, `totalPrice` the accumulator. -/
def OrderDB.CreateFromCart.validate [Add F] [Sub F] [Mul F] [IntCast F]
    (env : Env) (c : Conn F) : List CartItem → Nat → F → Except Error F
  | [], _, totalPrice => .ok totalPrice
  | item :: rest, i, totalPrice =>
    match ProductDB.Get .db (env.failValidateGet i) c item.ProductID with
    | .error err => .error (.errorfSV "error getting product %s: %v" item.ProductID err)
    | .ok product =>
      if !product.IsAvailable || decide (product.StockQuantity < item.Quantity) then
        .error (.errorfS "product %s is not available or insufficient stock" item.ProductID)
      else
        validate env c rest (i + 1)
          (totalPrice + (product.Price - product.Discount) * (item.Quantity : F))

/-- Second loop of `CreateFromCart` (lines 275–299): per item, reads the product
through the pool, inserts the order item and writes the decremented product
back, both through the transaction.  Returns the error, if any, and the
connection as it stands when the loop is left. -/
def OrderDB.CreateFromCart.createItems [Sub F] (env : Env) (orderID : UUID) :
    List CartItem → Nat → Conn F → Option Error × Conn F
  | [], _, c => (none, c)
  | item :: rest, i, c =>
    match ProductDB.Get .db (env.failItemGet i) c item.ProductID with
    | .error err => (some (.errorfSV "error getting product %s: %v" item.ProductID err), c)
    | .ok product =>
      let orderItem : OrderItem F :=
        { ID := env.itemDraftID i
          OrderID := orderID
          ProductID := item.ProductID
          Quantity := item.Quantity
          PriceAtOrder := product.Price - product.Discount
          CreatedAt := env.itemDraftCreatedAt i }
      match OrderItemDB.Insert .tx (env.failInsertItem i) (env.itemID i) (env.itemCreatedAt i)
          c orderItem with
      | (_, .error err) => (some (.errorfV "error inserting order item: %v" err), c)
      | (_, .ok c1) =>
        let product := { product with StockQuantity := product.StockQuantity - item.Quantity }
        match ProductDB.Update .tx (env.failUpdateProduct i) (env.productUpdatedAt i)
            c1 product with
        | .error err => (some (.errorfV "error updating product stock: %v" err), c1)
        | .ok c2 => createItems env orderID rest (i + 1) c2

/-- Third loop of `CreateFromCart` (lines 302–307): deletes every cart item of
the argument list through the transaction. -/
def OrderDB.CreateFromCart.clearItems (env : Env) :
    List CartItem → Nat → Conn F → Option Error × Conn F
  | [], _, c => (none, c)
  | item :: rest, i, c =>
    match CartItemDB.Delete .tx (env.failDeleteItem i) c item.ID with
    | .error err => (some (.errorfSV "error deleting cart item %s: %v" item.ID err), c)
    | .ok c1 => clearItems env rest (i + 1) c1

/-- What a call of `CreateFromCart` leaves behind: the returned error (`none`
for `nil`), the order as the caller's pointer sees it, and the connection after
the deferred `tx.Rollback()` has run. -/
structure CreateFromCartResult (F : Type) where
  err : Option Error
  order : Order F
  conn : Conn F

/-- Go `OrderDB.CreateFromCart`, for a receiver bound to the pool. -/
def OrderDB.CreateFromCart [Zero F] [Add F] [Sub F] [Mul F] [IntCast F]
    (env : Env) (c : Conn F) (order : Order F) (cartID : UUID) (cartItems : List CartItem) :
    CreateFromCartResult F :=
  match OrderDB.CreateFromCart.validate env c cartItems 0 (0 : F) with
  | .error err => { err := some err, order := order, conn := c }
  | .ok totalPrice =>
    let order := { order with TotalPrice := totalPrice }
    match c.Beginx env.failBegin with
    | .error err =>
      { err := some (.errorfV "error starting transaction: %v" err), order := order, conn := c }
    | .ok c0 =>
      match OrderDB.Insert .tx env.failInsertOrder env.orderID env.orderCreatedAt
          env.orderUpdatedAt c0 order with
      | (order, .error err) =>
        { err := some (.errorfV "error inserting order: %v" err), order := order
          conn := c0.Rollback }
      | (order, .ok c1) =>
        match OrderDB.CreateFromCart.createItems env order.ID cartItems 0 c1 with
        | (some err, c2) => { err := some err, order := order, conn := c2.Rollback }
        | (none, c2) =>
          match OrderDB.CreateFromCart.clearItems env cartItems 0 c2 with
          | (some err, c3) => { err := some err, order := order, conn := c3.Rollback }
          | (none, c3) =>
            match CartDB.Delete .tx env.failDeleteCart c3 cartID with
            | .error err =>
              { err := some (.errorfSV "error deleting cart %s: %v" cartID err), order := order
                conn := c3.Rollback }
            | .ok c4 =>
              match c4.Commit env.failCommit with
              | .error err =>
                { err := some (.errorfV "error committing transaction: %v" err), order := order
                  conn := c4.Rollback }
              | .ok c5 => { err := none, order := order, conn := c5.Rollback }

/-! ## Validation -/

/-- Modelled from the spec: package `project/utils/validator` is not among the
sources; only its call sites are (`validator.New`, `Check`, `Valid`, `Errors`,
`validator.In`).  Validation failures are "surfaced with the specific field and
reason": a validator collects, per field, the first reason recorded for it, and
is valid when it has collected none. -/
structure validator.Validator where
  Errors : List (String × String)
  deriving DecidableEq, Repr

/-- Modelled from the spec: see `validator.Validator`; a fresh validator, without errors. -/
def validator.New : validator.Validator :=
  { Errors := [] }

/-- Modelled from the spec: see `validator.Validator`; records `message` for `key`
unless the key already has one. -/
def validator.Validator.AddError (v : validator.Validator) (key message : String) :
    validator.Validator :=
  if v.Errors.any (fun e => e.1 == key) then v else { Errors := v.Errors ++ [(key, message)] }

/-- Modelled from the spec: see `validator.Validator`; records `message` for `key` when
the condition `ok` does not hold. -/
def validator.Validator.Check (v : validator.Validator) (ok : Bool) (key message : String) :
    validator.Validator :=
  if ok then v else v.AddError key message

/-- Modelled from the spec: see `validator.Validator`; no error was recorded. -/
def validator.Validator.Valid (v : validator.Validator) : Bool :=
  v.Errors.length == 0

/-- Modelled from the spec: see `validator.Validator`; membership of `value` in the
listed values. -/
def validator.In (value : String) (list : List String) : Bool :=
  list.contains value

/-- Go `data.ValidateOrder`. -/
def ValidateOrder [Zero F] [LE F] [∀ a b : F, Decidable (a ≤ b)]
    (v : validator.Validator) (order : Order F) : validator.Validator :=
  let v := v.Check (order.UserID != uuid.Nil) "user_id" "يجب إدخال معرف المستخدم"
  let v := v.Check (order.StoreID != uuid.Nil) "store_id" "يجب إدخال معرف المتجر"
  let v := v.Check (decide (order.TotalPrice ≥ 0)) "total_price"
    "يجب أن يكون السعر الإجمالي إيجابيًا"
  let v := v.Check (order.Status != "") "status" "يجب إدخال حالة الطلب"
  let v := v.Check
    (validator.In order.Status ["pending", "processing", "shipped", "delivered", "cancelled"])
    "status" "حالة الطلب غير صالحة"
  v.Check (order.DeliveryAddress != "") "delivery_address" "يجب إدخال عنوان التوصيل"

/-! ## HTTP layer -/

/-- The `cart_id` form field as `uuid.Parse` sees it. -/
inductive FormUUID
  | invalid
  | valid (id : UUID)
  deriving DecidableEq, Repr

/-- A numeric form field as the handler sees it: the empty string, a text that
`strconv.ParseFloat` rejects, or a text it parses to `val`. -/
inductive FormFloat (F : Type)
  | empty
  | malformed
  | number (val : F)
  deriving DecidableEq, Repr

/-- The form of a `POST orders` request. -/
structure CheckoutForm (F : Type) where
  cart_id : FormUUID
  delivery_address : String
  delivery_latitude : FormFloat F
  delivery_longitude : FormFloat F
  delivery_notes : String
  deriving DecidableEq, Repr

/-- The JSON envelopes the handlers send: an error text, the field errors of a
failed validation, and the bodies of the successful replies of the checkout,
order, cart, cart-item and product handlers. -/
inductive Payload (F : Type)
  | error (message : String)
  | fieldErrors (errors : List (String × String))
  | orderCreated (message : String) (order : Order F) (items : List CartItem)
  | orderWithItems (order : Order F) (items : List (OrderItem F))
  | cartCreated (message : String) (cart : Cart)
  | cartItemAdded (message : String) (cart_item : CartItem) (cart_id : UUID)
  | cartItemUpdated (message : String) (cart_item : CartItem)
  | message (message : String)
  | orderUpdated (message : String) (order : Order F)
  | productUpdated (message : String) (product : Product F)
  deriving DecidableEq, Repr

/-- What the client of a handler observes: a JSON response with its status, or
the handler panicking (a nil pointer dereference). -/
inductive Reply (F : Type)
  | json (status : Nat) (body : Payload F)
  | panic
  deriving DecidableEq, Repr

/-- Go `app.errorResponse` with a text message. -/
def errorResponse (status : Nat) (message : String) : Reply F :=
  .json status (.error message)

/-- Go `app.serverErrorResponse`: the error is logged, the client gets a fixed
message. -/
def serverErrorResponse (_err : Error) : Reply F :=
  errorResponse 500 "the server encountered a problem and could not process your request"

/-- Go `app.badRequestResponse`, given the text of the error. -/
def badRequestResponse (message : String) : Reply F :=
  errorResponse 400 message

/-- Go `app.failedValidationResponse`. -/
def failedValidationResponse (errors : List (String × String)) : Reply F :=
  .json 422 (.fieldErrors errors)

/-- The cases of the `switch` in `handleRetrievalError`, in source order: the
error value tested, the status and the message sent. -/
def handleRetrievalError.cases : List (Sentinel × Nat × String) :=
  [ (.ErrRecordNotFound, 404, "السجل غير موجود"),
    (.ErrUserNotFound, 404, "المستخدم غير موجود"),
    (.ErrEmailAlreadyInserted, 409, "البريد الإلكتروني موجود بالفعل"),
    (.ErrHasRole, 409, "المستخدم لديه دور بالفعل"),
    (.ErrProductNotFound, 404, "المنتج غير موجود"),
    (.ErrCartNotFound, 404, "السلة غير موجود"),
    (.ErrDuplicateEntry, 409, "إدخال مكرر"),
    (.ErrInvalidInput, 400, "إدخال غير صالح"),
    (.ErrStoreNotFound, 404, "المتجر غير موجود"),
    (.ErrStoreTypeNotFound, 404, "نوع المتجر غير موجود"),
    (.ErrProductUnavailable, 400, "المنتج غير متاح"),
    (.ErrCartItemNotFound, 404, "عنصر السلة غير موجود"),
    (.ErrOrderNotFound, 404, "الطلب غير موجود"),
    (.ErrOrderItemNotFound, 404, "عنصر الطلب غير موجود"),
    (.ErrAdNotFound, 404, "الإعلان غير موجود"),
    (.ErrDuplicatedKey, 409, "المفتاح مكرر"),
    (.ErrDuplicatedRole, 409, "الدور مكرر"),
    (.ErrHasNoRoles, 400, "المستخدم ليس لديه أدوار"),
    (.ErrForeignKeyViolation, 400, "انتهاك قيد المفتاح الخارجي"),
    (.ErrUserAlreadyhaveatable, 409, "المستخدم لديه جدول بالفعل"),
    (.ErrUserHasNoTable, 400, "المستخدم ليس لديه جدول"),
    (.ErrInvalidQuantity, 400, "الكمية غير صالحة"),
    (.ErrRecordNotFoundOrders, 404, "لا توجد طلبات متاحة"),
    (.ErrDescriptionMissing, 400, "الوصف مفقود"),
    (.ErrDuplicatedPhone, 409, "رقم الهاتف مكرر"),
    (.ErrInvalidAddressOrCoordinates, 400, "العنوان أو الإحداثيات غير صالحة"),
    (.ErrInvalidDiscount, 400, "الخصم غير صالح"),
    (.ErrSubscriptionNotFound, 404, "نوع الاشتراك غير موجود"),
    (.ErrPhoneAlreadyInserted, 409, "رقم الهاتف مسجل مسبقاً") ]

/-- Go `app.handleRetrievalError`: the first case whose value `errors.Is`
recognises in `err` answers; otherwise the error is a server error. -/
def handleRetrievalError (err : Error) : Reply F :=
  match handleRetrievalError.cases.find? (fun k => errors.Is err k.1) with
  | some (_, status, message) => errorResponse status message
  | none => serverErrorResponse err

/-- The field is a text that `strconv.ParseFloat` rejects. -/
def FormFloat.isMalformed : FormFloat F → Bool
  | .malformed => true
  | _ => false

/-- The value the handler keeps of a numeric field: the parsed number, `nil` for
an empty field. -/
def FormFloat.value : FormFloat F → Option F
  | .number val => some val
  | _ => none

/-- The value the handler keeps of the `delivery_notes` field: `nil` for an empty
field. -/
def CheckoutForm.notes (r : CheckoutForm F) : Option String :=
  if r.delivery_notes != "" then some r.delivery_notes else none

/-- Lines 16–99 of `app.CreateOrderFromCartHandler`: parsing the form, loading
the cart and its items, the fallback to the user's stored delivery data and the
validation of the order header.  These lines only read; they end either in a
reply or in the cart id, header and items handed to `CreateFromCart`. -/
def CreateOrderFromCartHandler.prepare [Zero F] [LE F] [∀ a b : F, Decidable (a ≤ b)]
    (env : Env) (c : Conn F) (r : CheckoutForm F) :
    Except (Reply F) (UUID × Order F × List CartItem) :=
  match r.cart_id with
  | .invalid => .error (badRequestResponse "معرف السلة غير صالح")
  | .valid cartID =>
    -- Get request values
    let deliveryAddress := r.delivery_address
    match r.delivery_latitude with
    | .malformed => .error (badRequestResponse "خطأ في تنسيق خط العرض")
    | lat =>
      let deliveryLatitude : Option F := lat.value
      match r.delivery_longitude with
      | .malformed => .error (badRequestResponse "خطأ في تنسيق خط الطول")
      | lon =>
        let deliveryLongitude : Option F := lon.value
        let deliveryNotes : Option String := r.notes
        -- Get cart and items
        match CartDB.Get .db env.failCartGet c cartID with
        | .error err => .error (handleRetrievalError err)
        | .ok cart =>
          match CartItemDB.ListByCart .db env.failListByCart c cartID with
          | .error err => .error (serverErrorResponse err)
          | .ok items =>
            if items.length == 0 then .error (badRequestResponse "السلة فارغة")
            else
              -- If no delivery details provided, fetch from user
              let fallback : Except Error (String × Option F × Option F) :=
                if deliveryAddress == "" && deliveryLatitude.isNone && deliveryLongitude.isNone
                then
                  match UserDB.GetUser .db env.failGetUser c cart.UserID with
                  | .error err => .error (.errorfV "خطأ في جلب بيانات المستخدم: %v" err)
                  | .ok user =>
                    .ok ((match user.AddressText with
                          | some a => a
                          | none => ""), user.Latitude, user.Longitude)
                else .ok (deliveryAddress, deliveryLatitude, deliveryLongitude)
              match fallback with
              | .error err => .error (serverErrorResponse err)
              | .ok (deliveryAddress, deliveryLatitude, deliveryLongitude) =>
                -- Create order; `*cart.StoreID` panics on a cart without store
                match cart.StoreID with
                | none => .error .panic
                | some storeID =>
                  let order : Order F :=
                    { ID := uuid.Nil
                      UserID := cart.UserID
                      StoreID := storeID
                      TotalPrice := 0
                      Status := "pending"
                      DeliveryAddress := deliveryAddress
                      DeliveryLatitude := deliveryLatitude
                      DeliveryLongitude := deliveryLongitude
                      DeliveryNotes := deliveryNotes
                      CreatedAt := 0
                      UpdatedAt := 0 }
                  -- Validate order, including address or coordinates constraint
                  let v := validator.New
                  let v := ValidateOrder v order
                  -- Add custom validation for address or coordinates
                  let v := v.Check
                    (order.DeliveryAddress != "" ||
                      (order.DeliveryLatitude.isSome && order.DeliveryLongitude.isSome))
                    "delivery_info" "يجب توفير عنوان التوصيل أو كلا من خط العرض وخط الطول"
                  if !v.Valid then .error (failedValidationResponse v.Errors)
                  else .ok (cartID, order, items)

/-- Lines 101–112 of `app.CreateOrderFromCartHandler`: the call of
`CreateFromCart` and the reply, which carries the order and the cart items that
were handed in. -/
def CreateOrderFromCartHandler.finish [Zero F] [Add F] [Sub F] [Mul F] [IntCast F]
    (env : Env) (c : Conn F) (cartID : UUID) (order : Order F) (items : List CartItem) :
    Reply F × Conn F :=
  -- Create order from cart via model
  let res := OrderDB.CreateFromCart env c order cartID items
  match res.err with
  | some err => (serverErrorResponse err, res.conn)
  | none => (.json 201 (.orderCreated "تم إنشاء الطلب بنجاح" res.order items), res.conn)

/-- Go `app.CreateOrderFromCartHandler`: the reply and the connection the
request leaves behind.  Lines 16–99 are `prepare`, lines 101–112 `finish`. -/
def CreateOrderFromCartHandler [Zero F] [Add F] [Sub F] [Mul F] [IntCast F] [LE F]
    [∀ a b : F, Decidable (a ≤ b)] (env : Env) (c : Conn F) (r : CheckoutForm F) :
    Reply F × Conn F :=
  match CreateOrderFromCartHandler.prepare env c r with
  | .error reply => (reply, c)
  | .ok (cartID, order, items) => CreateOrderFromCartHandler.finish env c cartID order items

/-- Requests served one after the other, each handler running to its end before
the next one starts: the replies, in order, and the connection left behind. -/
def CreateOrderFromCartHandler.serve [Zero F] [Add F] [Sub F] [Mul F] [IntCast F] [LE F]
    [∀ a b : F, Decidable (a ≤ b)] :
    List (Env × CheckoutForm F) → Conn F → List (Reply F) × Conn F
  | [], c => ([], c)
  | (env, r) :: rest, c =>
    let out := CreateOrderFromCartHandler env c r
    let outs := serve rest out.2
    (out.1 :: outs.1, outs.2)

/-- Two requests served by two goroutines of the HTTP server in the schedule
where both handlers run their read-only lines 16–99 against the same tables
before either reaches line 102; then the first handler runs `CreateFromCart`
to its end, then the second one does.  No two transactions are open at the same
time in this schedule. -/
def CreateOrderFromCartHandler.overlapped [Zero F] [Add F] [Sub F] [Mul F] [IntCast F] [LE F]
    [∀ a b : F, Decidable (a ≤ b)] (env1 env2 : Env) (c : Conn F) (r1 r2 : CheckoutForm F) :
    Reply F × Reply F × Conn F :=
  let loaded1 := CreateOrderFromCartHandler.prepare env1 c r1
  let loaded2 := CreateOrderFromCartHandler.prepare env2 c r2
  let out1 : Reply F × Conn F :=
    match loaded1 with
    | .error reply => (reply, c)
    | .ok (cartID, order, items) => CreateOrderFromCartHandler.finish env1 c cartID order items
  let out2 : Reply F × Conn F :=
    match loaded2 with
    | .error reply => (reply, out1.2)
    | .ok (cartID, order, items) =>
      CreateOrderFromCartHandler.finish env2 out1.2 cartID order items
  (out1.1, out2.1, out2.2)

/-- The reply is a 201. -/
def Reply.isCreated : Reply F → Bool
  | .json 201 _ => true
  | _ => false

/-! ## Observations used in the statements -/

/-- The stored row of product `id`: the first row with that id, as a point read
finds it. -/
def Tables.product? (t : Tables F) (id : UUID) : Option (Product F) :=
  t.products.find? fun p => p.ID == id

/-- The amount of one cart line against the stored products: `line` is
`(price - discount) * quantity` of the item's product, which is stored. -/
def Tables.LineAmount [Sub F] [Mul F] [IntCast F] (t : Tables F) (item : CartItem) (line : F) :
    Prop :=
  ∃ p, t.product? item.ProductID = some p ∧ line = (p.Price - p.Discount) * (item.Quantity : F)

/-- The header `OrderDB.Insert` stores for `order` once the total is known. -/
def Env.stamped (env : Env) (order : Order F) (totalPrice : F) : Order F :=
  { order with
    TotalPrice := totalPrice
    ID := env.orderID
    CreatedAt := env.orderCreatedAt
    UpdatedAt := env.orderUpdatedAt }

/-- The order line of one cart item: `line` belongs to order `orderID`, repeats
the item's product and quantity, and its price is `price - discount` of the
item's product, which is stored. -/
def Tables.OrderLine [Sub F] (t : Tables F) (orderID : UUID) (item : CartItem)
    (line : OrderItem F) : Prop :=
  line.OrderID = orderID ∧ line.ProductID = item.ProductID ∧ line.Quantity = item.Quantity ∧
    ∃ p, t.product? item.ProductID = some p ∧ line.PriceAtOrder = p.Price - p.Discount

/-- The stock check of `CreateFromCart` fails for `item`: its product is stored
and is unavailable or holds fewer units than the item asks for. -/
def Tables.understocked (t : Tables F) (item : CartItem) : Bool :=
  match t.product? item.ProductID with
  | some p => !p.IsAvailable || decide (p.StockQuantity < item.Quantity)
  | none => false

/-- No storage call of `CreateFromCart` fails in this environment. -/
def Env.Steady (env : Env) : Prop :=
  (∀ i, env.failValidateGet i = false) ∧ env.failBegin = false ∧ env.failInsertOrder = false ∧
  (∀ i, env.failItemGet i = false) ∧ (∀ i, env.failInsertItem i = false) ∧
  (∀ i, env.failUpdateProduct i = false) ∧ (∀ i, env.failDeleteItem i = false) ∧
  env.failDeleteCart = false ∧ env.failCommit = false

/-- The stock check of `CreateFromCart` passes for `item`: its product is stored,
available and holds at least the quantity asked for. -/
def Tables.InStock (t : Tables F) (item : CartItem) : Prop :=
  ∃ p, t.product? item.ProductID = some p ∧ p.IsAvailable = true ∧
    item.Quantity ≤ p.StockQuantity

/-! ## Sample data -/

/-- Two products of store 9, ten units of each in stock: price 100 with discount
10, and price 50 without discount. -/
def Sample.products : List (Product Int) :=
  [ { ID := 1, StoreID := 9, Name := "tea", Description := none, Price := 100, Discount := 10
      Image := some "tea.png", StockQuantity := 10, IsAvailable := true
      CreatedAt := 0, UpdatedAt := 0 },
    { ID := 2, StoreID := 9, Name := "cup", Description := none, Price := 50, Discount := 0
      Image := none, StockQuantity := 10, IsAvailable := true, CreatedAt := 0, UpdatedAt := 0 } ]

/-- The items of cart 7: two units of product 1, three of product 2. -/
def Sample.items : List CartItem :=
  [ { ID := 11, CartID := 7, ProductID := 1, Quantity := 2, CreatedAt := 0, UpdatedAt := 0 },
    { ID := 12, CartID := 7, ProductID := 2, Quantity := 3, CreatedAt := 0, UpdatedAt := 0 } ]

/-- A store with user 3, the two sample products and cart 7 of user 3 bound to
store 9, holding the sample items. -/
def Sample.tables : Tables Int :=
  { users := [{ ID := 3, AddressText := some "12 Nile St", Latitude := none, Longitude := none }]
    products := Sample.products
    carts := [{ ID := 7, UserID := 3, StoreID := some 9, CreatedAt := 0, UpdatedAt := 0 }]
    cart_items := Sample.items
    orders := []
    order_items := [] }

/-- A connection on the sample store, no transaction open. -/
def Sample.conn : Conn Int :=
  { committed := Sample.tables, tx := none }

/-- The order header the handler builds for cart 7 with address "home". -/
def Sample.order : Order Int :=
  { ID := 0, UserID := 3, StoreID := 9, TotalPrice := 0, Status := "pending"
    DeliveryAddress := "home", DeliveryLatitude := none, DeliveryLongitude := none
    DeliveryNotes := none, CreatedAt := 0, UpdatedAt := 0 }

/-- An environment without failures: order id 100, order item ids 200, 201, …,
clock reading 5. -/
def Sample.env : Env :=
  Env.calm 100 (fun i => 200 + i) 5

/-- The sample environment, except that the product update of the second item
fails. -/
def Sample.envUpdateFails : Env :=
  { Sample.env with failUpdateProduct := fun i => i == 1 }

/-- The sample cart with a third item asking for 11 units of product 2 (10 in
stock), after the two items that can be served. -/
def Sample.greedyItems : List CartItem :=
  Sample.items ++
    [{ ID := 13, CartID := 7, ProductID := 2, Quantity := 11, CreatedAt := 0, UpdatedAt := 0 }]

/-- The sample store with one more cart, cart 8 of user 3, which has no items. -/
def Sample.idleConn : Conn Int :=
  { committed := { Sample.tables with
      carts := Sample.tables.carts ++
        [{ ID := 8, UserID := 3, StoreID := none, CreatedAt := 0, UpdatedAt := 0 }] }
    tx := none }

/-- A checkout form for cart `cartID` with an address and a latitude that is not
a number. -/
def Sample.malformedForm (cartID : UUID) : CheckoutForm Int :=
  { cart_id := .valid cartID, delivery_address := "home", delivery_latitude := .malformed
    delivery_longitude := .empty, delivery_notes := "" }

/-- A checkout form for cart `cartID` with coordinates and no address. -/
def Sample.coordinatesForm (cartID : UUID) : CheckoutForm Int :=
  { cart_id := .valid cartID, delivery_address := "", delivery_latitude := .number 32
    delivery_longitude := .number 13, delivery_notes := "" }

/-- A checkout form for cart `cartID` with an address only. -/
def Sample.addressForm (cartID : UUID) : CheckoutForm Int :=
  { cart_id := .valid cartID, delivery_address := "home", delivery_latitude := .empty
    delivery_longitude := .empty, delivery_notes := "" }

/-- A second environment without failures: order id 101, order item ids 300,
301, …, clock reading 6. -/
def Sample.env2 : Env :=
  Env.calm 101 (fun i => 300 + i) 6

/-- A checkout form for cart `cartID` without any delivery field. -/
def Sample.bareForm (cartID : UUID) : CheckoutForm Int :=
  { cart_id := .valid cartID, delivery_address := "", delivery_latitude := .empty
    delivery_longitude := .empty, delivery_notes := "" }

/-- The sample store with a third item in cart 7 that asks for 11 units of
product 2, of which 10 are in stock. -/
def Sample.greedyConn : Conn Int :=
  { committed := { Sample.tables with cart_items := Sample.greedyItems }, tx := none }

/-- What the checkout leaves of a product row `p` whose item asks for `quantity`
units, in `p2`: identity, store, name, description, price, discount,
availability and creation time are kept, the stock is decremented, and the
image is the stored image as `ProductDB.Get` reads it, that is passed through
the `image` expression of `products_columns`. -/
def Product.CheckedOut (p p2 : Product F) (quantity : Int) : Prop :=
  p2.ID = p.ID ∧ p2.StoreID = p.StoreID ∧ p2.Name = p.Name ∧ p2.Description = p.Description ∧
  p2.Price = p.Price ∧ p2.Discount = p.Discount ∧ p2.IsAvailable = p.IsAvailable ∧
  p2.CreatedAt = p.CreatedAt ∧ p2.StockQuantity = p.StockQuantity - quantity ∧
  p2.Image = productImageColumn p.Image

/-! ## Orders read back, carts and cart items -/

/-- Go `OrderDB.Get`: the first row of `orders` with the given id.  A missing
row is reported with a fresh `fmt.Errorf("order not found")`, not with
`ErrOrderNotFound`. -/
def OrderDB.Get (h : Handle) (fail : Bool) (c : Conn F) (id : UUID) : Except Error (Order F) :=
  match (if fail then none else c.rows h) with
  | none => .error (.errorfV "error getting order: %v" .driver)
  | some t =>
    match t.orders.find? (fun row => row.ID == id) with
    | none => .error (.errorf "order not found")
    | some order => .ok order

/-- Go `OrderItemDB.ListByOrder`: `SELECT … FROM order_items WHERE order_id = ?`. -/
def OrderItemDB.ListByOrder (h : Handle) (fail : Bool) (c : Conn F) (orderID : UUID) :
    Except Error (List (OrderItem F)) :=
  match (if fail then none else c.rows h) with
  | none => .error (.errorfV "error getting order items: %v" .driver)
  | some t => .ok (t.order_items.filter fun row => row.OrderID == orderID)

/-- Go `CartDB.GetByUser`: the first row of `carts` of the given user, `nil`
without error when there is none. -/
def CartDB.GetByUser (h : Handle) (fail : Bool) (c : Conn F) (userID : UUID) :
    Except Error (Option Cart) :=
  match (if fail then none else c.rows h) with
  | none => .error (.errorfV "error getting cart: %v" .driver)
  | some t => .ok (t.carts.find? fun row => row.UserID == userID)

/-- Go `CartDB.Insert`: assigns a fresh id and the timestamps to the caller's
cart, then appends the row to `carts`.  Returns the cart as the caller's pointer
sees it afterwards and the outcome of the statement. -/
def CartDB.Insert (h : Handle) (fail : Bool) (newID : UUID) (createdAt updatedAt : Time)
    (c : Conn F) (cart : Cart) : Cart × Except Error (Conn F) :=
  let cart := { cart with ID := newID, CreatedAt := createdAt, UpdatedAt := updatedAt }
  (cart,
    match (if fail then none else c.exec h fun t => { t with carts := t.carts ++ [cart] }) with
    | none => .error .driver
    | some c1 => .ok c1)

/-- Go `CartDB.Update`: `UPDATE carts SET store_id, updated_at WHERE id = cart.ID
RETURNING store_id, updated_at`, scanned as one row: when no row has the id the
scan reports `sql.ErrNoRows`. -/
def CartDB.Update (h : Handle) (fail : Bool) (now : Time) (c : Conn F) (cart : Cart) :
    Cart × Except Error (Conn F) :=
  let cart := { cart with UpdatedAt := now }
  (cart,
    match (if fail then none else c.rows h) with
    | none => .error .driver
    | some t =>
      if t.carts.any (fun row => row.ID == cart.ID) then
        match c.exec h fun t =>
          { t with carts := t.carts.map fun row =>
              if row.ID == cart.ID then
                { row with StoreID := cart.StoreID, UpdatedAt := cart.UpdatedAt }
              else row } with
        | none => .error .driver
        | some c1 => .ok c1
      else .error .noRows)

/-- Go `CartItemDB.Insert`: assigns a fresh id and the timestamps to the caller's
item, then appends the row to `cart_items`. -/
def CartItemDB.Insert (h : Handle) (fail : Bool) (newID : UUID) (createdAt updatedAt : Time)
    (c : Conn F) (item : CartItem) : CartItem × Except Error (Conn F) :=
  let item := { item with ID := newID, CreatedAt := createdAt, UpdatedAt := updatedAt }
  (item,
    match (if fail then none
           else c.exec h fun t => { t with cart_items := t.cart_items ++ [item] }) with
    | none => .error .driver
    | some c1 => .ok c1)

/-- Go `CartItemDB.Get`: the first row of `cart_items` with the given id.  A
missing row is reported with a fresh `fmt.Errorf("cart item not found")`. -/
def CartItemDB.Get (h : Handle) (fail : Bool) (c : Conn F) (id : UUID) :
    Except Error CartItem :=
  match (if fail then none else c.rows h) with
  | none => .error (.errorfV "error getting cart item: %v" .driver)
  | some t =>
    match t.cart_items.find? (fun row => row.ID == id) with
    | none => .error (.errorf "cart item not found")
    | some item => .ok item

/-- Go `CartItemDB.Update`: `UPDATE cart_items SET quantity, updated_at WHERE
id = item.ID`.  Returns the item as the caller's pointer sees it afterwards and
the outcome of the statement. -/
def CartItemDB.Update (h : Handle) (fail : Bool) (now : Time) (c : Conn F) (item : CartItem) :
    CartItem × Except Error (Conn F) :=
  let item := { item with UpdatedAt := now }
  (item,
    match (if fail then none
           else c.exec h fun t =>
             { t with cart_items := t.cart_items.map fun row =>
                 if row.ID == item.ID then
                   { row with Quantity := item.Quantity, UpdatedAt := item.UpdatedAt }
                 else row }) with
    | none => .error (.errorfV "error updating cart item: %v" .driver)
    | some c1 => .ok c1)

/-- Go `data.ValidateCartItem`. -/
def ValidateCartItem (v : validator.Validator) (item : CartItem) : validator.Validator :=
  let v := v.Check (item.CartID != uuid.Nil) "cart_id" "يجب إدخال معرف السلة"
  let v := v.Check (item.ProductID != uuid.Nil) "product_id" "يجب إدخال معرف المنتج"
  v.Check (decide (item.Quantity > 0)) "quantity" "يجب أن تكون الكمية أكبر من 0"

/-- The user id the authentication middleware left in the request context, as
the handlers see it: absent (or not a string), a text `uuid.Parse` rejects, or
an id. -/
inductive ContextUser
  | missing
  | invalid
  | valid (id : UUID)
  deriving DecidableEq, Repr

/-- An optional UUID form field: the empty string, a text `uuid.Parse` rejects,
or an id. -/
inductive OptFormUUID
  | empty
  | invalid
  | valid (id : UUID)
  deriving DecidableEq, Repr

/-- An integer form field as `strconv.Atoi` sees it: the empty string, another
text it rejects, or a text it parses to `val`. -/
inductive FormInt
  | empty
  | malformed
  | number (val : Int)
  deriving DecidableEq, Repr

/-- What the outside world decides during one cart or cart-item request:
whether each storage call fails, and the ids and clock readings handed out. -/
structure CartEnv where
  failProductGet : Bool
  failCartGet : Bool
  failCartGetByUser : Bool
  failCartUpdate : Bool
  failCartInsert : Bool
  failCartDelete : Bool
  failListByCart : Bool
  failItemGet : Bool
  failItemInsert : Bool
  failItemUpdate : Bool
  failItemDelete : Bool
  cartID : UUID
  cartCreatedAt : Time
  cartUpdatedAt : Time
  cartBoundAt : Time
  itemID : UUID
  itemCreatedAt : Time
  itemUpdatedAt : Time
  itemChangedAt : Time

/-- A cart environment in which no storage call fails. -/
def CartEnv.calm (cartID itemID : UUID) (now : Time) : CartEnv where
  failProductGet := false
  failCartGet := false
  failCartGetByUser := false
  failCartUpdate := false
  failCartInsert := false
  failCartDelete := false
  failListByCart := false
  failItemGet := false
  failItemInsert := false
  failItemUpdate := false
  failItemDelete := false
  cartID := cartID
  cartCreatedAt := now
  cartUpdatedAt := now
  cartBoundAt := now
  itemID := itemID
  itemCreatedAt := now
  itemUpdatedAt := now
  itemChangedAt := now

/-- Go `app.forbiddenResponse`. -/
def forbiddenResponse : Reply F :=
  errorResponse 403 "you do not have permission to access this resource"

/-- Go `app.GetOrderHandler`, given the path value `id` as `uuid.Parse` sees it
and whether the two reads fail. -/
def GetOrderHandler (failGet failList : Bool) (c : Conn F) (id : FormUUID) : Reply F :=
  match id with
  | .invalid => badRequestResponse "معرف الطلب غير صالح"
  | .valid id =>
    match OrderDB.Get .db failGet c id with
    | .error err => handleRetrievalError err
    | .ok order =>
      match OrderItemDB.ListByOrder .db failList c order.ID with
      | .error err => serverErrorResponse err
      | .ok items => .json 200 (.orderWithItems order items)

/-- The zero value of `data.Cart` with the two fields a handler sets before
handing the cart to `CartDB.Insert`. -/
def Cart.draft (userID : UUID) (storeID : Option UUID) : Cart :=
  { ID := uuid.Nil, UserID := userID, StoreID := storeID, CreatedAt := 0, UpdatedAt := 0 }

/-- The form of a create-cart request. -/
structure CreateCartForm where
  user : ContextUser
  store_id : OptFormUUID
  deriving DecidableEq, Repr

/-- Go `app.CreateCartHandler`: the reply and the connection afterwards. -/
def CreateCartHandler (env : CartEnv) (c : Conn F) (r : CreateCartForm) : Reply F × Conn F :=
  match r.user with
  | .missing => (badRequestResponse "unauthorized: معرف المستخدم غير متوفر", c)
  | .invalid => (badRequestResponse "معرف المستخدم غير صالح", c)
  | .valid userID =>
    -- Parse optional store_id from form
    match r.store_id with
    | .invalid => (badRequestResponse "معرف المتجر غير صالح", c)
    | field =>
      let storeID : Option UUID :=
        match field with
        | .valid id => some id
        | _ => none
      let cart := Cart.draft userID storeID
      -- Check if user already has a cart (optionally with the same store_id)
      match CartDB.GetByUser .db env.failCartGetByUser c userID with
      | .error err => (serverErrorResponse err, c)
      | .ok existingCart =>
        if (match existingCart with
            | some existing => storeID == none || (existing.StoreID != none && existing.StoreID == storeID)
            | none => false) then
          (badRequestResponse "لدى المستخدم سلة بالفعل", c)
        else
          match CartDB.Insert .db env.failCartInsert env.cartID env.cartCreatedAt
              env.cartUpdatedAt c cart with
          | (_, .error err) => (serverErrorResponse err, c)
          | (cart, .ok c1) => (.json 201 (.cartCreated "تم إنشاء السلة بنجاح" cart), c1)

/-- The form of a delete-cart request: the user of the context and the path
value `id`. -/
structure DeleteCartForm where
  user : ContextUser
  id : FormUUID
  deriving DecidableEq, Repr

/-- Go `app.DeleteCartHandler`: the reply and the connection afterwards. -/
def DeleteCartHandler (env : CartEnv) (c : Conn F) (r : DeleteCartForm) : Reply F × Conn F :=
  match r.user with
  | .missing => (badRequestResponse "unauthorized: معرف المستخدم غير متوفر", c)
  | .invalid => (badRequestResponse "معرف المستخدم غير صالح", c)
  | .valid userID =>
    match r.id with
    | .invalid => (badRequestResponse "معرف السلة غير صالح", c)
    | .valid id =>
      -- Get cart to validate ownership
      match CartDB.Get .db env.failCartGet c id with
      | .error err => (handleRetrievalError err, c)
      | .ok cart =>
        if cart.UserID != userID then (forbiddenResponse, c)
        else
          match CartDB.Delete .db env.failCartDelete c id with
          | .error err => (serverErrorResponse err, c)
          | .ok c1 => (.json 200 (.message "تم حذف السلة بنجاح"), c1)

/-- The form of an add-item request. -/
structure AddCartItemForm where
  user : ContextUser
  product_id : FormUUID
  quantity : FormInt
  cart_id : OptFormUUID
  deriving DecidableEq, Repr

/-- Lines 16–52 of `app.AddCartItemHandler`: the user, the product id, the
quantity, and the product with its availability, stock and store checks.  These
lines only read; they end in a reply or in the user id, product id, quantity and
product. -/
def AddCartItemHandler.parse (env : CartEnv) (c : Conn F) (r : AddCartItemForm) :
    Except (Reply F) (UUID × UUID × Int × Product F) :=
  match r.user with
  | .missing => .error (badRequestResponse "معرف المستخدم غير متوفر في السياق")
  | .invalid => .error (badRequestResponse "معرف المستخدم غير صالح")
  | .valid userID =>
    match r.product_id with
    | .invalid => .error (badRequestResponse "معرف المنتج غير صالح")
    | .valid productID =>
      match r.quantity with
      | .number quantity =>
        match ProductDB.Get .db env.failProductGet c productID with
        | .error err => .error (handleRetrievalError err)
        | .ok product =>
          if !product.IsAvailable || decide (product.StockQuantity < quantity) then
            .error (badRequestResponse "المنتج غير متوفر أو الكمية غير كافية")
          else if product.StoreID == uuid.Nil then
            .error (badRequestResponse "معرف المتجر للمنتج غير صالح")
          else .ok (userID, productID, quantity, product)
      | _ => .error (badRequestResponse "الكمية غير صالحة")

/-- Lines 72–83 of `app.AddCartItemHandler`, repeated as lines 102–113: a cart
bound to another store than the product's is refused, a cart without store is
bound to the product's store with `CartDB.Update`. -/
def AddCartItemHandler.bind (env : CartEnv) (c : Conn F) (cart : Cart) (product : Product F) :
    Except (Reply F) (Conn F) :=
  match cart.StoreID with
  | some storeID =>
    if storeID != product.StoreID then
      .error (badRequestResponse "لا يمكن إضافة منتج من متجر مختلف إلى السلة")
    else .ok c
  | none =>
    match (CartDB.Update .db env.failCartUpdate env.cartBoundAt c
        { cart with StoreID := some product.StoreID }).2 with
    | .error err =>
      .error (serverErrorResponse (.errorfV "فشل في تحديث معرف المتجر للسلة: %v" err))
    | .ok c1 => .ok c1

/-- Lines 54–116 of `app.AddCartItemHandler`: the cart the item goes to, which is
the cart named by `cart_id`, else the user's cart, else a new cart bound to the
product's store.  Ends in a reply, or in the cart id and the connection after
the binding or creation. -/
def AddCartItemHandler.resolveCart (env : CartEnv) (c : Conn F) (userID : UUID)
    (product : Product F) (cart_id : OptFormUUID) : Except (Reply F) (UUID × Conn F) :=
  match cart_id with
  | .invalid => .error (badRequestResponse "معرف السلة غير صالح")
  | .valid cartID =>
    match CartDB.Get .db env.failCartGet c cartID with
    | .error err => .error (handleRetrievalError err)
    | .ok cart =>
      if cart.UserID != userID then .error (badRequestResponse "السلة لا تخص المستخدم")
      else
        match AddCartItemHandler.bind env c cart product with
        | .error reply => .error reply
        | .ok c1 => .ok (cartID, c1)
  | .empty =>
    match CartDB.GetByUser .db env.failCartGetByUser c userID with
    | .error err => .error (serverErrorResponse err)
    | .ok none =>
      match CartDB.Insert .db env.failCartInsert env.cartID env.cartCreatedAt env.cartUpdatedAt c
          (Cart.draft userID (some product.StoreID)) with
      | (_, .error err) => .error (serverErrorResponse (.errorfV "فشل في إنشاء السلة: %v" err))
      | (cart, .ok c1) => .ok (cart.ID, c1)
    | .ok (some cart) =>
      match AddCartItemHandler.bind env c cart product with
      | .error reply => .error reply
      | .ok c1 => .ok (cart.ID, c1)

/-- The zero value of `data.CartItem` with the three fields the handler sets
before validation. -/
def CartItem.draft (cartID productID : UUID) (quantity : Int) : CartItem :=
  { ID := uuid.Nil, CartID := cartID, ProductID := productID, Quantity := quantity,
    CreatedAt := 0, UpdatedAt := 0 }

/-- Lines 118–153 of `app.AddCartItemHandler`: the duplicate check against the
items of the cart, the validation and the insertion of the item. -/
def AddCartItemHandler.addItem (env : CartEnv) (c : Conn F) (cartID productID : UUID)
    (quantity : Int) : Reply F × Conn F :=
  match CartItemDB.ListByCart .db env.failListByCart c cartID with
  | .error err => (serverErrorResponse err, c)
  | .ok existingItems =>
    if existingItems.any (fun item => item.ProductID == productID) then
      (badRequestResponse "المنتج موجود بالفعل في السلة", c)
    else
      let item := CartItem.draft cartID productID quantity
      let v := ValidateCartItem validator.New item
      if !v.Valid then (failedValidationResponse v.Errors, c)
      else
        match CartItemDB.Insert .db env.failItemInsert env.itemID env.itemCreatedAt
            env.itemUpdatedAt c item with
        | (_, .error err) => (serverErrorResponse err, c)
        | (item, .ok c1) =>
          (.json 201 (.cartItemAdded "تم إضافة العنصر إلى السلة بنجاح" item cartID), c1)

/-- Go `app.AddCartItemHandler`: the reply and the connection afterwards.  A
request refused after line 116 keeps the cart created or bound before. -/
def AddCartItemHandler (env : CartEnv) (c : Conn F) (r : AddCartItemForm) : Reply F × Conn F :=
  match AddCartItemHandler.parse env c r with
  | .error reply => (reply, c)
  | .ok (userID, productID, quantity, product) =>
    match AddCartItemHandler.resolveCart env c userID product r.cart_id with
    | .error reply => (reply, c)
    | .ok (cartID, c1) => AddCartItemHandler.addItem env c1 cartID productID quantity

/-- The form of an update-quantity request: the path value `id` and the
`quantity` field. -/
structure UpdateCartItemForm where
  id : FormUUID
  quantity : FormInt
  deriving DecidableEq, Repr

/-- Lines 170–177 of `app.UpdateCartItemHandler`: the `quantity` field applied to
the loaded item.  An empty field leaves the item as loaded, a number replaces
its quantity, any other text ends the request (none). -/
def UpdateCartItemForm.applied (r : UpdateCartItemForm) (item : CartItem) : Option CartItem :=
  match r.quantity with
  | .empty => some item
  | .number val => some { item with Quantity := val }
  | .malformed => none

/-- Go `app.UpdateCartItemHandler`: the reply and the connection afterwards. -/
def UpdateCartItemHandler (env : CartEnv) (c : Conn F) (r : UpdateCartItemForm) :
    Reply F × Conn F :=
  match r.id with
  | .invalid => (badRequestResponse "معرف عنصر السلة غير صالح", c)
  | .valid id =>
    match CartItemDB.Get .db env.failItemGet c id with
    | .error err => (handleRetrievalError err, c)
    | .ok item =>
      match r.applied item with
      | none => (badRequestResponse "الكمية غير صالحة", c)
      | some item =>
        let v := ValidateCartItem validator.New item
        if !v.Valid then (failedValidationResponse v.Errors, c)
        else
          -- Verify product stock
          match ProductDB.Get .db env.failProductGet c item.ProductID with
          | .error err => (handleRetrievalError err, c)
          | .ok product =>
            if !product.IsAvailable || decide (product.StockQuantity < item.Quantity) then
              (badRequestResponse "المنتج غير متوفر أو الكمية غير كافية", c)
            else
              match CartItemDB.Update .db env.failItemUpdate env.itemChangedAt c item with
              | (_, .error err) => (serverErrorResponse err, c)
              | (item, .ok c1) =>
                (.json 200 (.cartItemUpdated "تم تحديث عنصر السلة بنجاح" item), c1)

/-- Go `app.DeleteCartItemHandler`, given the path value `id`: the reply and the
connection afterwards. -/
def DeleteCartItemHandler (env : CartEnv) (c : Conn F) (id : FormUUID) : Reply F × Conn F :=
  match id with
  | .invalid => (badRequestResponse "معرف عنصر السلة غير صالح", c)
  | .valid id =>
    match CartItemDB.Delete .db env.failItemDelete c id with
    | .error err => (handleRetrievalError err, c)
    | .ok c1 => (.json 200 (.message "تم حذف عنصر السلة بنجاح"), c1)

/-! ## States reachable through cart requests -/

/-- No cart row carries the id and no cart item refers to it: what is assumed of
an id handed out by `uuid.New()` for a new cart. -/
def Tables.FreshCart (t : Tables F) (id : UUID) : Prop :=
  (∀ cart ∈ t.carts, cart.ID ≠ id) ∧ (∀ item ∈ t.cart_items, item.CartID ≠ id)

/-- One cart request served on the connection from its first statement to its
last, no other request served in between: create-cart, add-item,
update-quantity, remove-item or delete-cart, with any form, any storage faults
and any clock readings; the id a request takes for a new cart is fresh. -/
inductive CartStep : Conn F → Conn F → Prop
  | createCart (env : CartEnv) (c : Conn F) (r : CreateCartForm)
      (fresh : c.committed.FreshCart env.cartID) : CartStep c (CreateCartHandler env c r).2
  | addItem (env : CartEnv) (c : Conn F) (r : AddCartItemForm)
      (fresh : c.committed.FreshCart env.cartID) : CartStep c (AddCartItemHandler env c r).2
  | updateQuantity (env : CartEnv) (c : Conn F) (r : UpdateCartItemForm) :
      CartStep c (UpdateCartItemHandler env c r).2
  | removeItem (env : CartEnv) (c : Conn F) (id : FormUUID) :
      CartStep c (DeleteCartItemHandler env c id).2
  | deleteCart (env : CartEnv) (c : Conn F) (r : DeleteCartForm) :
      CartStep c (DeleteCartHandler env c r).2

/-- The states reached by serving cart requests one after the other, starting
without carts and cart items; users, products and orders are arbitrary.
Schedules in which the statements of two requests alternate are not steps of
this relation; `CreateOrderFromCartHandler.across` and
`AddCartItemHandler.overlapped` describe those. -/
inductive CartReachable : Conn F → Prop
  | init (c : Conn F) (carts : c.committed.carts = []) (items : c.committed.cart_items = []) :
      CartReachable c
  | step {c c2 : Conn F} (reached : CartReachable c) (next : CartStep c c2) : CartReachable c2

/-- No two rows of `carts` share an id. -/
def Tables.UniqueCarts (t : Tables F) : Prop :=
  t.carts.Pairwise fun a b => a.ID ≠ b.ID

/-- No two rows of `cart_items` share both the cart and the product. -/
def Tables.NoDuplicateLines (t : Tables F) : Prop :=
  t.cart_items.Pairwise fun a b => ¬(a.CartID = b.CartID ∧ a.ProductID = b.ProductID)

/-- Every item of every cart references a stored product of the store the cart
is bound to. -/
def Tables.SingleStore (t : Tables F) : Prop :=
  ∀ cart ∈ t.carts, ∀ item ∈ t.cart_items, item.CartID = cart.ID →
    ∃ p, t.product? item.ProductID = some p ∧ cart.StoreID = some p.StoreID

/-- Every cart that has at least one item has a store. -/
def Tables.StoreBound (t : Tables F) : Prop :=
  ∀ cart ∈ t.carts, (∃ item ∈ t.cart_items, item.CartID = cart.ID) → cart.StoreID ≠ none

/-- The cart an add-item request targets: the row `CartDB.Get` finds for the
`cart_id` field, or, the field being empty, the row `CartDB.GetByUser` finds for
the user of the request. -/
def AddCartItemForm.Targets (r : AddCartItemForm) (t : Tables F) (cart : Cart) : Prop :=
  (∃ cartID, r.cart_id = .valid cartID ∧
    t.carts.find? (fun row => row.ID == cartID) = some cart) ∨
  (r.cart_id = .empty ∧ ∃ userID, r.user = .valid userID ∧
    t.carts.find? (fun row => row.UserID == userID) = some cart)

/-- The quantity an update-quantity request asks for, the item holding `stored`:
the number in the `quantity` field, `stored` itself when the field is empty,
none when the field is not a number. -/
def UpdateCartItemForm.newQuantity (r : UpdateCartItemForm) (stored : Int) : Option Int :=
  match r.quantity with
  | .empty => some stored
  | .number val => some val
  | .malformed => none

/-- The reply is the success reply of `UpdateCartItemHandler`. -/
def Reply.isUpdated : Reply F → Bool
  | .json 200 (.cartItemUpdated _ _) => true
  | _ => false

/-- Sample tables without carts and cart items, with a third product, which
belongs to store 8. -/
def Sample.cartlessConn : Conn Int :=
  { committed := { Sample.tables with
      products := Sample.products ++
        [{ ID := 3, StoreID := 8, Name := "pen", Description := none, Price := 5, Discount := 0
           Image := none, StockQuantity := 10, IsAvailable := true
           CreatedAt := 0, UpdatedAt := 0 }]
      carts := []
      cart_items := [] }
    tx := none }

/-- A calm cart environment handing out cart 7 and item 11 at time 5. -/
def Sample.cartEnv : CartEnv := CartEnv.calm 7 11 5

/-- User 3 adds two units of product 1 without naming a cart. -/
def Sample.addForm : AddCartItemForm :=
  { user := .valid 3, product_id := .valid 1, quantity := .number 2, cart_id := .empty }

/-- The connection after `Sample.addForm` was served on `Sample.cartlessConn`. -/
def Sample.oneItemConn : Conn Int :=
  (AddCartItemHandler Sample.cartEnv Sample.cartlessConn Sample.addForm).2

/-- The connection after user 3 created a cart without store on
`Sample.cartlessConn`. -/
def Sample.unboundConn : Conn Int :=
  (CreateCartHandler Sample.cartEnv Sample.cartlessConn
    { user := .valid 3, store_id := .empty }).2

/-- User 3 adds one unit of product 3, of store 8, without naming a cart. -/
def Sample.otherStoreForm : AddCartItemForm :=
  { user := .valid 3, product_id := .valid 3, quantity := .number 1, cart_id := .empty }

/-! ## Order updates -/

/-- Go `OrderDB.Update`: `UPDATE orders SET status, delivery_address,
delivery_latitude, delivery_longitude, delivery_notes, updated_at WHERE
id = order.ID`.  Returns the order as the caller's pointer sees it afterwards
and the outcome of the statement. -/
def OrderDB.Update (h : Handle) (fail : Bool) (now : Time) (c : Conn F) (order : Order F) :
    Order F × Except Error (Conn F) :=
  let order := { order with UpdatedAt := now }
  (order,
    match (if fail then none
           else c.exec h fun t =>
             { t with orders := t.orders.map fun row =>
                 if row.ID == order.ID then
                   { row with
                     Status := order.Status
                     DeliveryAddress := order.DeliveryAddress
                     DeliveryLatitude := order.DeliveryLatitude
                     DeliveryLongitude := order.DeliveryLongitude
                     DeliveryNotes := order.DeliveryNotes
                     UpdatedAt := order.UpdatedAt }
                 else row }) with
    | none => .error (.errorfV "error updating order: %v" .driver)
    | some c1 => .ok c1)

/-- The form of a `PUT orders/{id}` request, with the path value `id`. -/
structure UpdateOrderForm (F : Type) where
  id : FormUUID
  status : String
  delivery_address : String
  delivery_latitude : FormFloat F
  delivery_longitude : FormFloat F
  delivery_notes : String
  deriving DecidableEq, Repr

/-- Lines 156–174 of `app.UpdateOrderHandler`: every non-empty field of the form
replaces the field of the loaded order; a coordinate that is not a number is
passed over. -/
def UpdateOrderForm.applied (r : UpdateOrderForm F) (order : Order F) : Order F :=
  let order := if r.status != "" then { order with Status := r.status } else order
  let order :=
    if r.delivery_address != "" then { order with DeliveryAddress := r.delivery_address }
    else order
  let order :=
    match r.delivery_latitude with
    | .number val => { order with DeliveryLatitude := some val }
    | _ => order
  let order :=
    match r.delivery_longitude with
    | .number val => { order with DeliveryLongitude := some val }
    | _ => order
  if r.delivery_notes != "" then { order with DeliveryNotes := some r.delivery_notes }
  else order

/-- Go `app.UpdateOrderHandler`, given whether the read and the write fail and
the clock reading of the write: the reply and the connection afterwards. -/
def UpdateOrderHandler [Zero F] [LE F] [∀ a b : F, Decidable (a ≤ b)]
    (failGet failUpdate : Bool) (now : Time) (c : Conn F) (r : UpdateOrderForm F) :
    Reply F × Conn F :=
  match r.id with
  | .invalid => (badRequestResponse "معرف الطلب غير صالح", c)
  | .valid id =>
    match OrderDB.Get .db failGet c id with
    | .error err => (handleRetrievalError err, c)
    | .ok order =>
      let order := r.applied order
      let v := ValidateOrder validator.New order
      if !v.Valid then (failedValidationResponse v.Errors, c)
      else
        match OrderDB.Update .db failUpdate now c order with
        | (_, .error err) => (serverErrorResponse err, c)
        | (order, .ok c1) => (.json 200 (.orderUpdated "تم تحديث الطلب بنجاح" order), c1)

/-! ## Middleware and routes -/

/-- Go `StoreDB.GetStore`: the first row of `stores` with the given id, read
through the pool; any failure, a missing row included, is wrapped. -/
def StoreDB.GetStore (fail : Bool) (c : Conn F) (id : UUID) : Except Error Store :=
  if fail then .error (.errorfV "store not found: %w" .driver)
  else
    match c.committed.stores.find? (fun row => row.ID == id) with
    | none => .error (.errorfV "store not found: %w" .noRows)
    | some store => .ok store

/-- What `AuthMiddleware` makes of the token of a request: there is none, it
does not validate, its claims are unusable, it has expired, or it carries the
claims `id` (a string, as `uuid.Parse` sees it) and `user_role` (its string
entries); `websocket` is a valid token on a websocket upgrade, of which only the
`id` claim is read. -/
inductive Credentials
  | missing
  | invalid
  | invalidClaims
  | expired
  | websocket (id : FormUUID)
  | claims (id : FormUUID) (user_role : List String)
  deriving DecidableEq, Repr

/-- The values of the request context the handlers read: the string under
`UserIDKey`, as `uuid.Parse` sees it, and the `[]string` under `UserRoleKey`, if
there is one. -/
structure Context where
  userID : ContextUser
  userRole : Option (List String)
  deriving DecidableEq, Repr

/-- A string that is present, as `uuid.Parse` sees it. -/
def FormUUID.inContext : FormUUID → ContextUser
  | .invalid => .invalid
  | .valid id => .valid id

/-- A path value, which is not empty, as `uuid.Parse` sees it. -/
def FormUUID.inPath : FormUUID → OptFormUUID
  | .invalid => .invalid
  | .valid id => .valid id

/-- The errors of package `utils` that `AuthMiddleware` reports. -/
inductive JwtError
  | ErrInvalidToken
  | ErrExpiredToken
  | ErrMissingToken
  | ErrInvalidClaims
  deriving DecidableEq, Repr

/-- Go `app.jwtErrorResponse`, for the errors `AuthMiddleware` passes. -/
def jwtErrorResponse (err : JwtError) : Reply F :=
  errorResponse 401
    (match err with
     | .ErrInvalidToken => "invalid token"
     | .ErrExpiredToken => "token has expired"
     | .ErrMissingToken => "missing authorization token"
     | .ErrInvalidClaims => "invalid token claims")

/-- Go `app.unauthorizedResponse`. -/
def unauthorizedResponse : Reply F :=
  errorResponse 401 "unauthorized"

/-- Go `app.AuthMiddleware`: the reply that ends the request, or the context
handed to the next handler.  The roles put in the context are the entries of
the `user_role` claim other than "NULL" and the empty string. -/
def AuthMiddleware (cred : Credentials) : Except (Reply F) Context :=
  match cred with
  | .missing => .error (jwtErrorResponse .ErrMissingToken)
  | .invalid => .error (jwtErrorResponse .ErrInvalidToken)
  | .invalidClaims => .error (jwtErrorResponse .ErrInvalidClaims)
  | .expired => .error (jwtErrorResponse .ErrExpiredToken)
  | .websocket id => .ok { userID := id.inContext, userRole := none }
  | .claims id user_role =>
    .ok { userID := id.inContext
          userRole := some (user_role.filter fun roleStr => roleStr != "NULL" && roleStr != "") }

/-- The loop `for _, role := range userRoles` of the role middlewares: one of
the roles is "admin". -/
def isAdmin (userRoles : List String) : Bool :=
  userRoles.any fun role => role == "admin"

/-- Go `app.AdminOrSelfMiddleware`, given the context and the path value `id`:
the reply that ends the request, or none when the next handler is called. -/
def AdminOrSelfMiddleware (ctx : Context) (vars : OptFormUUID) : Option (Reply F) :=
  -- Extract user roles from context
  match ctx.userRole with
  | none => some unauthorizedResponse
  | some userRoles =>
    -- Extract current user ID from context
    match ctx.userID with
    | .missing => some unauthorizedResponse
    | .invalid => some (badRequestResponse "معرف المستخدم في السياق غير صالح")
    | .valid currentUserID =>
      -- Get requested user ID from path, if provided
      match vars with
      | .empty => none
      | .invalid => some (badRequestResponse "معرف المستخدم في المسار غير صالح")
      | .valid requestedUserID =>
        -- Check if user is admin or self
        if !isAdmin userRoles && currentUserID != requestedUserID then some forbiddenResponse
        else none

/-- The request methods of the routes. -/
inductive Method
  | GET
  | POST
  | PUT
  | DELETE
  deriving DecidableEq, Repr

/-- Go `app.StoreOwnerOnlyMiddleware`, given the context, the method and the
`store_id` form field: the reply that ends the request, or none when the next
handler is called.  The store is looked up only for a `POST`. -/
def StoreOwnerOnlyMiddleware (failGetStore : Bool) (c : Conn F) (ctx : Context)
    (method : Method) (store_id : OptFormUUID) : Option (Reply F) :=
  -- Get user ID from context
  match ctx.userID with
  | .valid userID =>
    if method == .POST then
      match store_id with
      | .empty => some (badRequestResponse "معرف المتجر مفقود")
      | .invalid => some (badRequestResponse "معرف المتجر غير صالح")
      | .valid storeID =>
        match StoreDB.GetStore failGetStore c storeID with
        | .error err => some (handleRetrievalError err)
        | .ok store => if store.OwnerID != userID then some forbiddenResponse else none
    else none
  | _ => some unauthorizedResponse

/-- The handler chain of `DELETE carts/{id}` (router.go line 81):
`AuthMiddleware`, `AdminOrSelfMiddleware`, `DeleteCartHandler`.  The middleware
and the handler read the same path value.  The router-wide middlewares
(logging, panic recovery, headers, rate limit) are left out. -/
def Router.deleteCarts (cred : Credentials) (env : CartEnv) (c : Conn F) (id : FormUUID) :
    Reply F × Conn F :=
  match AuthMiddleware cred with
  | .error reply => (reply, c)
  | .ok ctx =>
    match AdminOrSelfMiddleware ctx id.inPath with
    | some reply => (reply, c)
    | none => DeleteCartHandler env c { user := ctx.userID, id := id }

/-- The handler chain of `PUT orders/{id}` (router.go line 91):
`AuthMiddleware`, `StoreOwnerOnlyMiddleware`, `UpdateOrderHandler`.  The
router-wide middlewares are left out. -/
def Router.putOrders [Zero F] [LE F] [∀ a b : F, Decidable (a ≤ b)] (cred : Credentials)
    (failGetStore failGet failUpdate : Bool) (now : Time) (c : Conn F)
    (store_id : OptFormUUID) (r : UpdateOrderForm F) : Reply F × Conn F :=
  match AuthMiddleware cred with
  | .error reply => (reply, c)
  | .ok ctx =>
    match StoreOwnerOnlyMiddleware failGetStore c ctx .PUT store_id with
    | some reply => (reply, c)
    | none => UpdateOrderHandler failGet failUpdate now c r

/-- The handler chain of `POST orders` (router.go line 89): `AuthMiddleware`,
`CreateOrderFromCartHandler`.  The handler reads nothing of the context.  The
router-wide middlewares are left out. -/
def Router.postOrders [Zero F] [Add F] [Sub F] [Mul F] [IntCast F] [LE F]
    [∀ a b : F, Decidable (a ≤ b)] (cred : Credentials) (env : Env) (c : Conn F)
    (r : CheckoutForm F) : Reply F × Conn F :=
  match AuthMiddleware cred with
  | .error reply => (reply, c)
  | .ok _ => CreateOrderFromCartHandler env c r

/-! ## Product updates -/

/-- Go `data.ValidateProduct`.  `len` counts the bytes of the name. -/
def ValidateProduct [Zero F] [LE F] [∀ a b : F, Decidable (a ≤ b)]
    (v : validator.Validator) (product : Product F) : validator.Validator :=
  let v := v.Check (product.Name != "") "name" "يجب ادخال الاسم"
  let v := v.Check (decide (product.Name.utf8ByteSize ≤ 150)) "name" "يجب ألا يزيد عن 150 حرف"
  let v := v.Check (product.StoreID != uuid.Nil) "store_id" "يجب ادخال رقم المتجر"
  let v := v.Check (decide (product.Price ≥ 0)) "price" "يجب أن تكون قيمة إيجابية"
  let v := v.Check (decide (product.Discount ≥ 0)) "discount" "يجب أن تكون الخصم قيمة إيجابية"
  let v := v.Check (decide (product.Discount ≤ product.Price)) "discount"
    "يجب ألا يتجاوز الخصم السعر"
  v.Check (decide (product.StockQuantity ≥ 0)) "stock_quantity" "الكمية يجب أن تكون رقم غير سالب"

/-- Go `strings.TrimPrefix`. -/
def strings.TrimPrefix (s pre : String) : String :=
  if pre.isPrefixOf s then s.drop pre.length else s

/-- The `image` file of a multipart form as `UpdateProductHandler` meets it:
`r.FormFile` reports `http.ErrMissingFile`, or another error, or hands over a
file, which `utils.SaveFile` stores under the name `saved` or fails to store
(none). -/
inductive ImageUpload
  | missing
  | unreadable
  | file (saved : Option String)
  deriving DecidableEq, Repr

/-- The form of a `PUT products/{id}` request, with the path value `id`. -/
structure UpdateProductForm (F : Type) where
  id : FormUUID
  name : String
  description : String
  price : FormFloat F
  discount : FormFloat F
  stock_quantity : FormInt
  is_available : String
  remove_image : String
  image : ImageUpload
  deriving DecidableEq, Repr

/-- Lines 159–170 of `app.UpdateProductHandler`: the `price` field. -/
def UpdateProductForm.setPrice [Zero F] [LT F] [∀ a b : F, Decidable (a < b)]
    (r : UpdateProductForm F) (product : Product F) : Except (Reply F) (Product F) :=
  match r.price with
  | .empty => .ok product
  | .malformed =>
    .error (badRequestResponse "السعر يجب أن يكون رقمًا صالحًا (مثال: 30 أو 40.50)")
  | .number val =>
    if val < 0 then .error (badRequestResponse "السعر يجب أن يكون غير سالب")
    else .ok { product with Price := val }

/-- Lines 171–182 of `app.UpdateProductHandler`: the `discount` field. -/
def UpdateProductForm.setDiscount [Zero F] [LT F] [∀ a b : F, Decidable (a < b)]
    (r : UpdateProductForm F) (product : Product F) : Except (Reply F) (Product F) :=
  match r.discount with
  | .empty => .ok product
  | .malformed =>
    .error (badRequestResponse "الخصم يجب أن يكون رقمًا صالحًا (مثال: 0 أو 5.50)")
  | .number val =>
    if val < 0 then .error (badRequestResponse "الخصم يجب أن يكون غير سالب")
    else .ok { product with Discount := val }

/-- Lines 183–194 of `app.UpdateProductHandler`: the `stock_quantity` field. -/
def UpdateProductForm.setStock (r : UpdateProductForm F) (product : Product F) :
    Except (Reply F) (Product F) :=
  match r.stock_quantity with
  | .empty => .ok product
  | .malformed =>
    .error (badRequestResponse
      "كمية المخزون يجب أن تكون عددًا صحيحًا صالحًا (مثال: 0 أو 100)")
  | .number val =>
    if val < 0 then .error (badRequestResponse "كمية المخزون يجب أن تكون غير سالبة")
    else .ok { product with StockQuantity := val }

/-- Lines 195–199 of `app.UpdateProductHandler`: the `is_available` field; an
empty field makes the product available. -/
def UpdateProductForm.setAvailable (r : UpdateProductForm F) (product : Product F) :
    Product F :=
  if r.is_available != "" then { product with IsAvailable := r.is_available == "true" }
  else { product with IsAvailable := true }

/-- Lines 201–227 of `app.UpdateProductHandler`: the image is removed, replaced
by the uploaded file, or kept.  The files themselves are not modelled; the
cause in the two error texts is kept as `%v`. -/
def UpdateProductForm.setImage (r : UpdateProductForm F) (product : Product F) :
    Except (Reply F) (Product F) :=
  if r.remove_image == "true" then .ok { product with Image := none }
  else
    match r.image with
    | .file (some newImageName) => .ok { product with Image := some newImageName }
    | .file none => .error (errorResponse 400 "فشل في حفظ الصورة: %v")
    | .unreadable => .error (errorResponse 400 "خطأ في معالجة ملف الصورة: %v")
    | .missing => .ok product

/-- Lines 153–227 of `app.UpdateProductHandler`: the fields of the form applied
to the loaded product, in source order; ends in the reply of the first field
that is refused, or in the product to validate. -/
def UpdateProductForm.applied [Zero F] [LT F] [∀ a b : F, Decidable (a < b)]
    (r : UpdateProductForm F) (product : Product F) : Except (Reply F) (Product F) :=
  let product := if r.name != "" then { product with Name := r.name } else product
  let product :=
    if r.description != "" then { product with Description := some r.description }
    else product
  match r.setPrice product with
  | .error reply => .error reply
  | .ok product =>
    match r.setDiscount product with
    | .error reply => .error reply
    | .ok product =>
      match r.setStock product with
      | .error reply => .error reply
      | .ok product => r.setImage (r.setAvailable product)

/-- Go `app.UpdateProductHandler`, given whether the read and the write fail and
the clock reading of the write: the reply and the connection afterwards. -/
def UpdateProductHandler [Zero F] [LE F] [LT F] [∀ a b : F, Decidable (a ≤ b)]
    [∀ a b : F, Decidable (a < b)] (failGet failUpdate : Bool) (now : Time) (c : Conn F)
    (r : UpdateProductForm F) : Reply F × Conn F :=
  match r.id with
  | .invalid => (badRequestResponse "معرف المنتج غير صالح", c)
  | .valid id =>
    match ProductDB.Get .db failGet c id with
    | .error err => (handleRetrievalError err, c)
    | .ok product =>
      -- Store the old image path and trim domain prefix if present
      let product :=
        { product with Image := product.Image.map fun s => strings.TrimPrefix s (Domain ++ "/") }
      match r.applied product with
      | .error reply => (reply, c)
      | .ok product =>
        let v := ValidateProduct validator.New product
        if !v.Valid then (failedValidationResponse v.Errors, c)
        else
          match ProductDB.Update .db failUpdate now c product with
          | .error err => (serverErrorResponse err, c)
          | .ok c1 =>
            (.json 200 (.productUpdated "تم تحديث المنتج بنجاح" { product with UpdatedAt := now }),
              c1)

/-- The HTTP status of a reply; none for a panic. -/
def Reply.status? : Reply F → Option Nat
  | .json status _ => some status
  | .panic => none

/-- The sample store after the checkout of cart 7, which left order 100 of
user 3 at store 9; store 9 is owned by user 1. -/
def Sample.orderedConn : Conn Int :=
  { committed :=
      { (CreateOrderFromCartHandler Sample.env Sample.conn
          (Sample.addressForm 7)).2.committed with
        stores := [{ ID := 9, OwnerID := 1 }] }
    tx := none }

/-- A form that sets the status of order 100 to "cancelled". -/
def Sample.cancelForm : UpdateOrderForm Int :=
  { id := .valid 100, status := "cancelled", delivery_address := ""
    delivery_latitude := .empty, delivery_longitude := .empty, delivery_notes := "" }

/-- The sample store with every product marked unavailable. -/
def Sample.pausedConn : Conn Int :=
  { committed := { Sample.tables with
      products := Sample.products.map fun p => { p with IsAvailable := false } }
    tx := none }

/-- A form that renames product 2 and carries no other field, `is_available`
included. -/
def Sample.renameForm : UpdateProductForm Int :=
  { id := .valid 2, name := "mug", description := "", price := .empty, discount := .empty
    stock_quantity := .empty, is_available := "", remove_image := "", image := .missing }

/-- No two rows of `carts` share the user. -/
def Tables.OneCartPerUser (t : Tables F) : Prop :=
  t.carts.Pairwise fun a b => a.UserID ≠ b.UserID

/-- One add-item request or one create-cart request served on the connection
from its first statement to its last, no other request served in between, with
any form, faults and clock readings.  The one request left out is a create-cart
request of a user who has a cart that names a store the cart found for the user
is not bound to: `same` says that a `store_id` in the form is the store of that
cart. -/
inductive OneCartStep : Conn F → Conn F → Prop
  | createCart (env : CartEnv) (c : Conn F) (r : CreateCartForm)
      (same : ∀ userID storeID cart, r.user = .valid userID → r.store_id = .valid storeID →
        c.committed.carts.find? (fun row => row.UserID == userID) = some cart →
        cart.StoreID = some storeID) :
      OneCartStep c (CreateCartHandler env c r).2
  | addItem (env : CartEnv) (c : Conn F) (r : AddCartItemForm) :
      OneCartStep c (AddCartItemHandler env c r).2

/-- The states reached from a state without carts by the requests of
`OneCartStep`, served one after the other. -/
inductive OneCartReachable : Conn F → Prop
  | init (c : Conn F) (carts : c.committed.carts = []) : OneCartReachable c
  | step {c c2 : Conn F} (reached : OneCartReachable c) (next : OneCartStep c c2) :
      OneCartReachable c2

/-- User 3 asks for a cart bound to store 8. -/
def Sample.secondCartForm : CreateCartForm :=
  { user := .valid 3, store_id := .valid 8 }

/-- The sample add-item form, asking for no unit. -/
def Sample.zeroForm : AddCartItemForm :=
  { Sample.addForm with quantity := .number 0 }

/-- A list whose first item references product 999, which is not stored, and
whose second item asks for 11 units of product 2 (10 in stock). -/
def Sample.strayItems : List CartItem :=
  [{ ID := 14, CartID := 7, ProductID := 999, Quantity := 1, CreatedAt := 0, UpdatedAt := 0 },
   { ID := 13, CartID := 7, ProductID := 2, Quantity := 11, CreatedAt := 0, UpdatedAt := 0 }]

/-! ## Requests served while a handler runs

The handlers hold no lock and, outside `CreateFromCart`, no transaction: each
repository call is a statement of its own on the pool, and the statements of
other requests may be served between two of them.  The definitions below are
the handlers with one connection per read or write; with all connections equal
they are the handlers above. -/

/-- Lines 16–99 of `app.CreateOrderFromCartHandler` when other requests are
served between its reads: `cCart`, `cItems` and `cUser` are the tables as
`CartDB.Get` (line 47), `ListByCart` (line 52) and `GetUser` (line 65) find
them. -/
def CreateOrderFromCartHandler.prepareAcross [Zero F] [LE F] [∀ a b : F, Decidable (a ≤ b)]
    (env : Env) (cCart cItems cUser : Conn F) (r : CheckoutForm F) :
    Except (Reply F) (UUID × Order F × List CartItem) :=
  match r.cart_id with
  | .invalid => .error (badRequestResponse "معرف السلة غير صالح")
  | .valid cartID =>
    -- Get request values
    let deliveryAddress := r.delivery_address
    match r.delivery_latitude with
    | .malformed => .error (badRequestResponse "خطأ في تنسيق خط العرض")
    | lat =>
      let deliveryLatitude : Option F := lat.value
      match r.delivery_longitude with
      | .malformed => .error (badRequestResponse "خطأ في تنسيق خط الطول")
      | lon =>
        let deliveryLongitude : Option F := lon.value
        let deliveryNotes : Option String := r.notes
        -- Get cart and items
        match CartDB.Get .db env.failCartGet cCart cartID with
        | .error err => .error (handleRetrievalError err)
        | .ok cart =>
          match CartItemDB.ListByCart .db env.failListByCart cItems cartID with
          | .error err => .error (serverErrorResponse err)
          | .ok items =>
            if items.length == 0 then .error (badRequestResponse "السلة فارغة")
            else
              -- If no delivery details provided, fetch from user
              let fallback : Except Error (String × Option F × Option F) :=
                if deliveryAddress == "" && deliveryLatitude.isNone && deliveryLongitude.isNone
                then
                  match UserDB.GetUser .db env.failGetUser cUser cart.UserID with
                  | .error err => .error (.errorfV "خطأ في جلب بيانات المستخدم: %v" err)
                  | .ok user =>
                    .ok ((match user.AddressText with
                          | some a => a
                          | none => ""), user.Latitude, user.Longitude)
                else .ok (deliveryAddress, deliveryLatitude, deliveryLongitude)
              match fallback with
              | .error err => .error (serverErrorResponse err)
              | .ok (deliveryAddress, deliveryLatitude, deliveryLongitude) =>
                -- Create order; `*cart.StoreID` panics on a cart without store
                match cart.StoreID with
                | none => .error .panic
                | some storeID =>
                  let order : Order F :=
                    { ID := uuid.Nil
                      UserID := cart.UserID
                      StoreID := storeID
                      TotalPrice := 0
                      Status := "pending"
                      DeliveryAddress := deliveryAddress
                      DeliveryLatitude := deliveryLatitude
                      DeliveryLongitude := deliveryLongitude
                      DeliveryNotes := deliveryNotes
                      CreatedAt := 0
                      UpdatedAt := 0 }
                  -- Validate order, including address or coordinates constraint
                  let v := validator.New
                  let v := ValidateOrder v order
                  -- Add custom validation for address or coordinates
                  let v := v.Check
                    (order.DeliveryAddress != "" ||
                      (order.DeliveryLatitude.isSome && order.DeliveryLongitude.isSome))
                    "delivery_info" "يجب توفير عنوان التوصيل أو كلا من خط العرض وخط الطول"
                  if !v.Valid then .error (failedValidationResponse v.Errors)
                  else .ok (cartID, order, items)

/-- Go `app.CreateOrderFromCartHandler` when other requests are served between
its statements: the three reads of lines 16–99 find `cCart`, `cItems` and
`cUser`, and `CreateFromCart` (line 102) starts on `cWrite`.  A handler that
replies before line 102 writes nothing, so the tables stay as the other
requests left them. -/
def CreateOrderFromCartHandler.across [Zero F] [Add F] [Sub F] [Mul F] [IntCast F] [LE F]
    [∀ a b : F, Decidable (a ≤ b)] (env : Env) (cCart cItems cUser cWrite : Conn F)
    (r : CheckoutForm F) : Reply F × Conn F :=
  match CreateOrderFromCartHandler.prepareAcross env cCart cItems cUser r with
  | .error reply => (reply, cWrite)
  | .ok (cartID, order, items) => CreateOrderFromCartHandler.finish env cWrite cartID order items

/-- Lines 54–116 of `app.AddCartItemHandler` when other requests are served
between the lookup of the cart and the write that follows it: `CartDB.Get`
(line 63) or `GetByUser` (line 85) finds `cRead`; `CartDB.Update` (lines 78,
108) or `CartDB.Insert` (line 96) is applied to `cWrite`. -/
def AddCartItemHandler.resolveCartAcross (env : CartEnv) (cRead cWrite : Conn F)
    (userID : UUID) (product : Product F) (cart_id : OptFormUUID) :
    Except (Reply F) (UUID × Conn F) :=
  match cart_id with
  | .invalid => .error (badRequestResponse "معرف السلة غير صالح")
  | .valid cartID =>
    match CartDB.Get .db env.failCartGet cRead cartID with
    | .error err => .error (handleRetrievalError err)
    | .ok cart =>
      if cart.UserID != userID then .error (badRequestResponse "السلة لا تخص المستخدم")
      else
        match AddCartItemHandler.bind env cWrite cart product with
        | .error reply => .error reply
        | .ok c1 => .ok (cartID, c1)
  | .empty =>
    match CartDB.GetByUser .db env.failCartGetByUser cRead userID with
    | .error err => .error (serverErrorResponse err)
    | .ok none =>
      match CartDB.Insert .db env.failCartInsert env.cartID env.cartCreatedAt env.cartUpdatedAt
          cWrite (Cart.draft userID (some product.StoreID)) with
      | (_, .error err) => .error (serverErrorResponse (.errorfV "فشل في إنشاء السلة: %v" err))
      | (cart, .ok c1) => .ok (cart.ID, c1)
    | .ok (some cart) =>
      match AddCartItemHandler.bind env cWrite cart product with
      | .error reply => .error reply
      | .ok c1 => .ok (cart.ID, c1)

/-- Lines 118–153 of `app.AddCartItemHandler` when other requests are served
between the listing of the cart's items (line 118), which finds `cList`, and
the insertion of the item (line 143), which is applied to `cWrite`. -/
def AddCartItemHandler.addItemAcross (env : CartEnv) (cList cWrite : Conn F)
    (cartID productID : UUID) (quantity : Int) : Reply F × Conn F :=
  match CartItemDB.ListByCart .db env.failListByCart cList cartID with
  | .error err => (serverErrorResponse err, cWrite)
  | .ok existingItems =>
    if existingItems.any (fun item => item.ProductID == productID) then
      (badRequestResponse "المنتج موجود بالفعل في السلة", cWrite)
    else
      let item := CartItem.draft cartID productID quantity
      let v := ValidateCartItem validator.New item
      if !v.Valid then (failedValidationResponse v.Errors, cWrite)
      else
        match CartItemDB.Insert .db env.failItemInsert env.itemID env.itemCreatedAt
            env.itemUpdatedAt cWrite item with
        | (_, .error err) => (serverErrorResponse err, cWrite)
        | (item, .ok c1) =>
          (.json 201 (.cartItemAdded "تم إضافة العنصر إلى السلة بنجاح" item cartID), c1)

/-- Lines 16–116 of `app.AddCartItemHandler` with the cart looked up on `cRead`
and the cart written on `cWrite`: a reply, or the cart id, the product id and
the quantity of the item to add and the connection after the cart write. -/
def AddCartItemHandler.resolveAcross (env : CartEnv) (cRead cWrite : Conn F)
    (r : AddCartItemForm) : Except (Reply F) (UUID × UUID × Int × Conn F) :=
  match AddCartItemHandler.parse env cRead r with
  | .error reply => .error reply
  | .ok (userID, productID, quantity, product) =>
    match AddCartItemHandler.resolveCartAcross env cRead cWrite userID product r.cart_id with
    | .error reply => .error reply
    | .ok (cartID, c1) => .ok (cartID, productID, quantity, c1)

/-- Two add-item requests served by two goroutines in this order of their
statements: both handlers read the product and look up the cart on the same
tables `c`; the first writes its cart (binds or creates it), then the second;
both list the items of their cart; the first inserts its item, then the
second.  A handler that has replied takes no further step.  The result is the
two replies and the connection afterwards. -/
def AddCartItemHandler.overlapped (env1 env2 : CartEnv) (c : Conn F)
    (r1 r2 : AddCartItemForm) : Reply F × Reply F × Conn F :=
  let resolved1 := AddCartItemHandler.resolveAcross env1 c c r1
  let c1 : Conn F :=
    match resolved1 with
    | .error _ => c
    | .ok (_, _, _, c1) => c1
  let resolved2 := AddCartItemHandler.resolveAcross env2 c c1 r2
  let c2 : Conn F :=
    match resolved2 with
    | .error _ => c1
    | .ok (_, _, _, c2) => c2
  let out1 : Reply F × Conn F :=
    match resolved1 with
    | .error reply => (reply, c2)
    | .ok (cartID, productID, quantity, _) =>
      AddCartItemHandler.addItemAcross env1 c2 c2 cartID productID quantity
  let out2 : Reply F × Conn F :=
    match resolved2 with
    | .error reply => (reply, out1.2)
    | .ok (cartID, productID, quantity, _) =>
      AddCartItemHandler.addItemAcross env2 c2 out1.2 cartID productID quantity
  (out1.1, out2.1, out2.2)

/-- Go `app.AddCartItemHandler` with the cart looked up on `cRead` and written
on `cWrite`, and no request served after the cart write. -/
def AddCartItemHandler.across (env : CartEnv) (cRead cWrite : Conn F) (r : AddCartItemForm) :
    Reply F × Conn F :=
  match AddCartItemHandler.resolveAcross env cRead cWrite r with
  | .error reply => (reply, cWrite)
  | .ok (cartID, productID, quantity, c1) =>
    AddCartItemHandler.addItemAcross env c1 c1 cartID productID quantity

/-- A request of user 3 to add one unit of product 2, without `cart_id`. -/
def Sample.cupForm : AddCartItemForm :=
  { user := .valid 3, product_id := .valid 2, quantity := .number 1, cart_id := .empty }

/-- The connection after user 3 created a cart for store 9 on
`Sample.cartlessConn`, stored as cart 7, and then added product 1 to it. -/
def Sample.storeCartConn : Conn Int :=
  (AddCartItemHandler (CartEnv.calm 8 11 6)
    (CreateCartHandler Sample.cartEnv Sample.cartlessConn
      { user := .valid 3, store_id := .valid 9 }).2 Sample.addForm).2

/-! ## The special values of `float64` -/

/-- The values of a Go `float64` as far as the infinities and NaN go: a finite
number, `+Inf`, `-Inf` or NaN.  Finite numbers are kept as integers and their
arithmetic is exact, which is the arithmetic of `float64` on integers below
2^53 in magnitude; fractions, rounding, overflow and the sign of zero are left
out. -/
inductive Float64 where
  | finite (val : Int)
  | posInf
  | negInf
  | NaN
  deriving DecidableEq, Repr

/-- Go `-x` on `float64`. -/
def Float64.neg : Float64 → Float64
  | .finite val => .finite (-val)
  | .posInf => .negInf
  | .negInf => .posInf
  | .NaN => .NaN

/-- Go `x + y` on `float64`: NaN when an operand is NaN or the operands are
infinities of opposite sign. -/
def Float64.add : Float64 → Float64 → Float64
  | .NaN, _ => .NaN
  | _, .NaN => .NaN
  | .finite a, .finite b => .finite (a + b)
  | .posInf, .negInf => .NaN
  | .negInf, .posInf => .NaN
  | .posInf, _ => .posInf
  | _, .posInf => .posInf
  | .negInf, _ => .negInf
  | _, .negInf => .negInf

/-- Go `x - y` on `float64`: `+Inf - +Inf` is NaN. -/
def Float64.sub (a b : Float64) : Float64 :=
  a.add b.neg

/-- The product of an infinity with a finite number: NaN for zero, else the
infinity with the sign of the product. -/
def Float64.scaleInf (positive : Bool) (val : Int) : Float64 :=
  if val = 0 then .NaN
  else if (decide (0 < val)) == positive then .posInf
  else .negInf

/-- Go `x * y` on `float64`: NaN when an operand is NaN or the operands are
zero and an infinity. -/
def Float64.mul : Float64 → Float64 → Float64
  | .NaN, _ => .NaN
  | _, .NaN => .NaN
  | .finite a, .finite b => .finite (a * b)
  | .finite a, .posInf => Float64.scaleInf true a
  | .finite a, .negInf => Float64.scaleInf false a
  | .posInf, .finite b => Float64.scaleInf true b
  | .negInf, .finite b => Float64.scaleInf false b
  | .posInf, .posInf => .posInf
  | .negInf, .negInf => .posInf
  | .posInf, .negInf => .negInf
  | .negInf, .posInf => .negInf

/-- Go `x <= y` on `float64`: false when an operand is NaN. -/
def Float64.le : Float64 → Float64 → Bool
  | .NaN, _ => false
  | _, .NaN => false
  | .negInf, _ => true
  | _, .posInf => true
  | .finite a, .finite b => decide (a ≤ b)
  | _, _ => false

instance : Zero Float64 := ⟨.finite 0⟩
instance : Add Float64 := ⟨Float64.add⟩
instance : Sub Float64 := ⟨Float64.sub⟩
instance : Mul Float64 := ⟨Float64.mul⟩
instance : IntCast Float64 := ⟨.finite⟩
instance : LE Float64 := ⟨fun a b => Float64.le a b = true⟩
instance (a b : Float64) : Decidable (a ≤ b) :=
  inferInstanceAs (Decidable (Float64.le a b = true))

/-- A store over `Float64` with user 3, product 1 of store 9 at the given price
and discount, ten units in stock, and cart 7 of user 3 bound to store 9 holding
two units of product 1. -/
def Sample.floatConn (price discount : Float64) : Conn Float64 :=
  { committed :=
      { users := [{ ID := 3, AddressText := some "12 Nile St", Latitude := none
                    Longitude := none }]
        products :=
          [{ ID := 1, StoreID := 9, Name := "tea", Description := none, Price := price
             Discount := discount, Image := none, StockQuantity := 10, IsAvailable := true
             CreatedAt := 0, UpdatedAt := 0 }]
        carts := [{ ID := 7, UserID := 3, StoreID := some 9, CreatedAt := 0, UpdatedAt := 0 }]
        cart_items :=
          [{ ID := 11, CartID := 7, ProductID := 1, Quantity := 2, CreatedAt := 0
             UpdatedAt := 0 }]
        orders := []
        order_items := [] }
    tx := none }

/-- A checkout form over `Float64` for cart 7 with an address only. -/
def Sample.floatForm : CheckoutForm Float64 :=
  { cart_id := .valid 7, delivery_address := "home", delivery_latitude := .empty
    delivery_longitude := .empty, delivery_notes := "" }

/-! ## Theorems -/

/-! ### Statements sent through the transaction handle -/

/-- A statement sent through the transaction handle needs the transaction to be
open, rewrites its working copy and leaves the committed tables alone. -/
theorem Conn.exec_tx {c c1 : Conn F} {f : Tables F → Tables F}
    (h : c.exec .tx f = some c1) :
    ∃ t, c.tx = some t ∧ c1 = { committed := c.committed, tx := some (f t) } := by
  unfold Conn.exec at h
  cases hx : c.tx with
  | none => simp [hx] at h
  | some t =>
    simp [hx] at h
    exact ⟨t, rfl, h.symm⟩

/-- A product update sent through the transaction rewrites the rows with the
product's id in the working copy and nothing else. -/
theorem ProductDB.Update_tx {fail : Bool} {now : Time} {c c1 : Conn F}
    {product : Product F} (h : ProductDB.Update .tx fail now c product = .ok c1) :
    ∃ t, c.tx = some t ∧ c1.committed = c.committed ∧
      c1.tx = some { t with products := t.products.map fun row =>
        if row.ID == product.ID then
          { row with
            Name := product.Name
            Description := product.Description
            Image := product.Image
            Price := product.Price
            Discount := product.Discount
            StockQuantity := product.StockQuantity
            IsAvailable := product.IsAvailable
            UpdatedAt := now }
        else row } := by
  unfold ProductDB.Update at h
  cases fail with
  | true => simp at h
  | false =>
    simp only [Bool.false_eq_true, if_false] at h
    split at h
    · simp at h
    · rename_i c2 hc2
      obtain ⟨t, ht, hc⟩ := Conn.exec_tx hc2
      simp at h
      subst h
      subst hc
      exact ⟨t, ht, rfl, rfl⟩

/-- An order insert sent through the transaction appends the stamped order to the
working copy and nothing else. -/
theorem OrderDB.Insert_order_tx {fail : Bool} {newID : UUID} {createdAt updatedAt : Time}
    {c c1 : Conn F} {order order1 : Order F}
    (h : OrderDB.Insert .tx fail newID createdAt updatedAt c order = (order1, .ok c1)) :
    order1 = { order with ID := newID, CreatedAt := createdAt, UpdatedAt := updatedAt } ∧
    ∃ t, c.tx = some t ∧ c1.committed = c.committed ∧
      c1.tx = some { t with orders := t.orders ++ [order1] } := by
  unfold OrderDB.Insert at h
  simp only [Prod.mk.injEq] at h
  obtain ⟨h1, h2⟩ := h
  subst h1
  cases fail with
  | true => simp at h2
  | false =>
    simp only [Bool.false_eq_true, if_false] at h2
    split at h2
    · simp at h2
    · rename_i c2 hc2
      obtain ⟨t, ht, hc⟩ := Conn.exec_tx hc2
      simp at h2
      subst h2
      subst hc
      exact ⟨rfl, t, ht, rfl, rfl⟩

/-- An order-item insert sent through the transaction appends the stamped item
to the working copy and nothing else. -/
theorem OrderItemDB.Insert_item_tx {fail : Bool} {newID : UUID} {createdAt : Time}
    {c c1 : Conn F} {item item1 : OrderItem F}
    (h : OrderItemDB.Insert .tx fail newID createdAt c item = (item1, .ok c1)) :
    item1 = { item with ID := newID, CreatedAt := createdAt } ∧
    ∃ t, c.tx = some t ∧ c1.committed = c.committed ∧
      c1.tx = some { t with order_items := t.order_items ++ [item1] } := by
  unfold OrderItemDB.Insert at h
  simp only [Prod.mk.injEq] at h
  obtain ⟨h1, h2⟩ := h
  subst h1
  cases fail with
  | true => simp at h2
  | false =>
    simp only [Bool.false_eq_true, if_false] at h2
    split at h2
    · simp at h2
    · rename_i c2 hc2
      obtain ⟨t, ht, hc⟩ := Conn.exec_tx hc2
      simp at h2
      subst h2
      subst hc
      exact ⟨rfl, t, ht, rfl, rfl⟩

/-- A cart-item delete sent through the transaction removes the rows with that
id from the working copy and nothing else. -/
theorem CartItemDB.Delete_item_tx {fail : Bool} {c c1 : Conn F} {id : UUID}
    (h : CartItemDB.Delete .tx fail c id = .ok c1) :
    ∃ t, c.tx = some t ∧ c1.committed = c.committed ∧
      c1.tx = some { t with cart_items := t.cart_items.filter fun row => !(row.ID == id) } := by
  unfold CartItemDB.Delete at h
  cases fail with
  | true => simp at h
  | false =>
    simp only [Bool.false_eq_true, if_false] at h
    split at h
    · simp at h
    · rename_i c2 hc2
      obtain ⟨t, ht, hc⟩ := Conn.exec_tx hc2
      simp at h
      subst h
      subst hc
      exact ⟨t, ht, rfl, rfl⟩

/-- A cart delete sent through the transaction removes the rows with that id
from the working copy and nothing else. -/
theorem CartDB.Delete_cart_tx {fail : Bool} {c c1 : Conn F} {id : UUID}
    (h : CartDB.Delete .tx fail c id = .ok c1) :
    ∃ t, c.tx = some t ∧ c1.committed = c.committed ∧
      c1.tx = some { t with carts := t.carts.filter fun row => !(row.ID == id) } := by
  unfold CartDB.Delete at h
  cases fail with
  | true => simp at h
  | false =>
    simp only [Bool.false_eq_true, if_false] at h
    split at h
    · simp at h
    · rename_i c2 hc2
      obtain ⟨t, ht, hc⟩ := Conn.exec_tx hc2
      simp at h
      subst h
      subst hc
      exact ⟨t, ht, rfl, rfl⟩

/-! ### C1: atomicity -/

/-- The loop creating the order items never touches the committed tables,
however it ends. -/
theorem OrderDB.CreateFromCart.createItems_committed [Sub F] (env : Env) (orderID : UUID)
    (items : List CartItem) (i : Nat) (c : Conn F) :
    (OrderDB.CreateFromCart.createItems env orderID items i c).2.committed = c.committed := by
  induction items generalizing i c with
  | nil => rfl
  | cons item rest ih =>
    unfold OrderDB.CreateFromCart.createItems
    split
    · rfl
    · dsimp only
      split
      · rfl
      · rename_i _ c1 hins
        have h1 := (OrderItemDB.Insert_item_tx hins).2
        obtain ⟨t, _, h1, _⟩ := h1
        split
        · exact h1
        · rename_i c2 hupd
          obtain ⟨t2, _, h2, _⟩ := ProductDB.Update_tx hupd
          rw [ih, h2, h1]

/-- The loop clearing the cart items never touches the committed tables,
however it ends. -/
theorem OrderDB.CreateFromCart.clearItems_committed (env : Env)
    (items : List CartItem) (i : Nat) (c : Conn F) :
    (OrderDB.CreateFromCart.clearItems env items i c).2.committed = c.committed := by
  induction items generalizing i c with
  | nil => rfl
  | cons item rest ih =>
    unfold OrderDB.CreateFromCart.clearItems
    split
    · rfl
    · rename_i c1 hdel
      obtain ⟨t, _, h1, _⟩ := CartItemDB.Delete_item_tx hdel
      rw [ih, h1]

/-- Either `CreateFromCart` reports no error, or it leaves the committed tables
as it found them. -/
theorem OrderDB.CreateFromCart_ok_or_unchanged [Zero F] [Add F] [Sub F] [Mul F] [IntCast F]
    (env : Env) (c : Conn F) (order : Order F) (cartID : UUID) (cartItems : List CartItem) :
    (OrderDB.CreateFromCart env c order cartID cartItems).err = none ∨
    (OrderDB.CreateFromCart env c order cartID cartItems).conn.committed = c.committed := by
  unfold OrderDB.CreateFromCart
  split
  · exact Or.inr rfl
  · dsimp only
    split
    · exact Or.inr rfl
    · rename_i c0 hbegin
      have h0 : c0.committed = c.committed := by
        unfold Conn.Beginx at hbegin
        split at hbegin
        · simp at hbegin
        · simp at hbegin
          subst hbegin
          rfl
      split
      · exact Or.inr h0
      · rename_i order1 c1 hins
        obtain ⟨_, t, _, h1, _⟩ := OrderDB.Insert_order_tx hins
        have h2 := OrderDB.CreateFromCart.createItems_committed env order1.ID cartItems 0 c1
        split
        · rename_i err c2 hloop
          rw [hloop] at h2
          refine Or.inr ?_
          simp only [Conn.Rollback]
          rw [h2, h1, h0]
        · rename_i c2 hloop
          rw [hloop] at h2
          have h3 := OrderDB.CreateFromCart.clearItems_committed env cartItems 0 c2
          split
          · rename_i err c3 hclear
            rw [hclear] at h3
            refine Or.inr ?_
            simp only [Conn.Rollback]
            rw [h3, h2, h1, h0]
          · rename_i c3 hclear
            rw [hclear] at h3
            split
            · refine Or.inr ?_
              simp only [Conn.Rollback]
              rw [h3, h2, h1, h0]
            · rename_i c4 hdel
              obtain ⟨t4, _, h4, _⟩ := CartDB.Delete_cart_tx hdel
              split
              · refine Or.inr ?_
                simp only [Conn.Rollback]
                rw [h4, h3, h2, h1, h0]
              · exact Or.inl rfl

/-- C1 (atomicity of checkout).  Whenever `CreateFromCart` returns an error,
at whatever step (validation, opening the transaction, the order insert, a
product read, order-item insert or product update inside the loop, a cart-item
delete, the cart delete, the commit), the committed tables, and with them the
carts, cart items, products with their stock, orders and order items, are those
the call started from. -/
theorem OrderDB.CreateFromCart_atomic [Zero F] [Add F] [Sub F] [Mul F] [IntCast F]
    (env : Env) (c : Conn F) (order : Order F) (cartID : UUID) (cartItems : List CartItem)
    (e : Error) (h : (OrderDB.CreateFromCart env c order cartID cartItems).err = some e) :
    (OrderDB.CreateFromCart env c order cartID cartItems).conn.committed = c.committed := by
  rcases OrderDB.CreateFromCart_ok_or_unchanged env c order cartID cartItems with h1 | h1
  · rw [h1] at h
    cases h
  · exact h1

/-- C1, at a concrete failure: on the sample store the product update of the
second item fails, after the order, both order items and the first stock
update were written inside the transaction; the call reports the error and the
store is the sample store. -/
theorem OrderDB.CreateFromCart_atomic_witness :
    (OrderDB.CreateFromCart Sample.envUpdateFails Sample.conn Sample.order 7 Sample.items).err
      = some (.errorfV "error updating product stock: %v"
          (.errorfV "error updating product: %v" .driver)) ∧
    (OrderDB.CreateFromCart Sample.envUpdateFails Sample.conn Sample.order 7
      Sample.items).conn.committed = Sample.tables :=
  ⟨by decide,
    OrderDB.CreateFromCart_atomic Sample.envUpdateFails Sample.conn Sample.order 7 Sample.items
      (.errorfV "error updating product stock: %v" (.errorfV "error updating product: %v" .driver))
      (by decide)⟩

/-! ### The successful run -/

/-- A point read through the pool returns the stored row, with the image column
rewritten. -/
theorem ProductDB.Get_db {fail : Bool} {c : Conn F} {id : UUID} {p : Product F}
    (h : ProductDB.Get .db fail c id = .ok p) :
    ∃ row, c.committed.product? id = some row ∧
      p = { row with Image := productImageColumn row.Image } := by
  unfold ProductDB.Get at h
  cases fail with
  | true => simp at h
  | false =>
    simp only [Bool.false_eq_true, if_false, Conn.rows] at h
    split at h
    · simp at h
    · rename_i row hrow
      simp at h
      exact ⟨row, hrow, h.symm⟩

/-- The validation loop, when it passes: every item's product is stored,
available and sufficiently stocked, and the result is the accumulator plus the
line amounts, added from left to right. -/
theorem OrderDB.CreateFromCart.validate_ok [Add F] [Sub F] [Mul F] [IntCast F]
    (env : Env) (c : Conn F) (items : List CartItem) (i : Nat) (acc total : F)
    (h : OrderDB.CreateFromCart.validate env c items i acc = .ok total) :
    ∃ lines : List F, List.Forall₂ (fun item line => c.committed.LineAmount item line) items lines ∧
      total = lines.foldl (fun a b => a + b) acc := by
  induction items generalizing i acc with
  | nil =>
    simp [OrderDB.CreateFromCart.validate] at h
    exact ⟨[], List.Forall₂.nil, by simp [h]⟩
  | cons item rest ih =>
    unfold OrderDB.CreateFromCart.validate at h
    split at h
    · simp at h
    · rename_i product hget
      obtain ⟨row, hrow, hp⟩ := ProductDB.Get_db hget
      split at h
      · simp at h
      · obtain ⟨lines, hl, ht⟩ := ih _ _ h
        refine ⟨(product.Price - product.Discount) * (item.Quantity : F) :: lines,
          List.Forall₂.cons ⟨row, hrow, ?_⟩ hl, ?_⟩
        · subst hp
          rfl
        · simpa using ht

/-- The steps of a call of `CreateFromCart` that reports no error: validation
passed with some total, the header was stamped and appended in a transaction
opened on the committed tables, both loops ran to their end, and what is
committed is the working copy the second loop left, minus the cart. -/
theorem OrderDB.CreateFromCart_ok [Zero F] [Add F] [Sub F] [Mul F] [IntCast F]
    (env : Env) (c : Conn F) (order : Order F) (cartID : UUID) (cartItems : List CartItem)
    (h : (OrderDB.CreateFromCart env c order cartID cartItems).err = none) :
    ∃ total c2 c3 t3,
      OrderDB.CreateFromCart.validate env c cartItems 0 (0 : F) = .ok total ∧
      OrderDB.CreateFromCart.createItems env env.orderID cartItems 0
        { committed := c.committed
          tx := some { c.committed with
            orders := c.committed.orders ++ [env.stamped order total] } } = (none, c2) ∧
      OrderDB.CreateFromCart.clearItems env cartItems 0 c2 = (none, c3) ∧
      c3.tx = some t3 ∧
      (OrderDB.CreateFromCart env c order cartID cartItems).order = env.stamped order total ∧
      (OrderDB.CreateFromCart env c order cartID cartItems).conn =
        { committed := { t3 with carts := t3.carts.filter fun row => !(row.ID == cartID) }
          tx := none } := by
  revert h
  unfold OrderDB.CreateFromCart
  split
  · intro h
    simp at h
  · rename_i total hval
    dsimp only
    split
    · intro h
      simp at h
    · rename_i c0 hbegin
      have h0 : c0 = { committed := c.committed, tx := some c.committed } := by
        unfold Conn.Beginx at hbegin
        split at hbegin
        · simp at hbegin
        · simp at hbegin
          exact hbegin.symm
      subst h0
      split
      · intro h
        simp at h
      · rename_i order1 c1 hins
        obtain ⟨ho, t, ht, h1, h1x⟩ := OrderDB.Insert_order_tx hins
        simp only [Option.some.injEq] at ht
        subst ht
        have hc1 : c1 = { committed := c.committed
                          tx := some { c.committed with
                            orders := c.committed.orders ++ [order1] } } := by
          cases c1
          simp_all
        have ho1 : order1 = env.stamped order total := by
          rw [ho]
          rfl
        subst hc1
        split
        · intro h
          simp at h
        · rename_i c2 hloop
          split
          · intro h
            simp at h
          · rename_i c3 hclear
            split
            · intro h
              simp at h
            · rename_i c4 hdel
              obtain ⟨t3, ht3, h4, h4x⟩ := CartDB.Delete_cart_tx hdel
              split
              · intro h
                simp at h
              · rename_i c5 hcommit
                intro _
                have hid : order1.ID = env.orderID := by
                  rw [ho1]
                  rfl
                rw [hid] at hloop
                rw [ho1] at hloop
                refine ⟨total, c2, c3, t3, hval, hloop, hclear, ht3, ho1, ?_⟩
                unfold Conn.Commit at hcommit
                split at hcommit
                · simp at hcommit
                · rw [h4x] at hcommit
                  simp at hcommit
                  subst hcommit
                  rfl

/-- The loop creating the order items, when it runs to its end: in the working
copy one order line per item was appended, in order, priced from the committed
products; users, carts, cart items and orders are as before. -/
theorem OrderDB.CreateFromCart.createItems_ok [Sub F] (env : Env) (orderID : UUID)
    (items : List CartItem) (i : Nat) (c c2 : Conn F) (t : Tables F) (hc : c.tx = some t)
    (h : OrderDB.CreateFromCart.createItems env orderID items i c = (none, c2)) :
    ∃ t2 lines, c2.tx = some t2 ∧ c2.committed = c.committed ∧
      t2.users = t.users ∧ t2.carts = t.carts ∧ t2.cart_items = t.cart_items ∧
      t2.orders = t.orders ∧ t2.order_items = t.order_items ++ lines ∧
      List.Forall₂ (fun item line => c.committed.OrderLine orderID item line) items lines := by
  induction items generalizing i c t with
  | nil =>
    simp [OrderDB.CreateFromCart.createItems] at h
    subst h
    exact ⟨t, [], hc, rfl, rfl, rfl, rfl, rfl, by simp, List.Forall₂.nil⟩
  | cons item rest ih =>
    unfold OrderDB.CreateFromCart.createItems at h
    split at h
    · simp at h
    · rename_i product hget
      obtain ⟨row, hrow, hp⟩ := ProductDB.Get_db hget
      dsimp only at h
      split at h
      · simp at h
      · rename_i line c1 hins
        obtain ⟨hline, t0, ht0, hc1, hx1⟩ := OrderItemDB.Insert_item_tx hins
        rw [hc] at ht0
        simp only [Option.some.injEq] at ht0
        subst ht0
        split at h
        · simp at h
        · rename_i c1b hupd
          obtain ⟨t1, ht1, hc1b, hx1b⟩ := ProductDB.Update_tx hupd
          rw [hx1] at ht1
          simp only [Option.some.injEq] at ht1
          subst ht1
          obtain ⟨t2, lines, h2, hcc, hu, hca, hci, ho, hoi, hall⟩ := ih _ _ _ hx1b h
          rw [hc1b, hc1] at hcc
          rw [hc1b, hc1] at hall
          refine ⟨t2, line :: lines, h2, hcc, hu, hca, hci, ho, ?_, List.Forall₂.cons ?_ hall⟩
          · rw [hoi]
            simp
          · subst hline
            subst hp
            exact ⟨rfl, rfl, rfl, row, hrow, rfl⟩

/-- The loop clearing the cart, when it runs to its end: the working copy lost
exactly the cart items whose id is the id of a listed item. -/
theorem OrderDB.CreateFromCart.clearItems_ok (env : Env) (items : List CartItem) (i : Nat)
    (c c3 : Conn F) (t : Tables F) (hc : c.tx = some t)
    (h : OrderDB.CreateFromCart.clearItems env items i c = (none, c3)) :
    c3.committed = c.committed ∧
    c3.tx = some { t with
      cart_items := t.cart_items.filter fun row => !(items.any fun item => row.ID == item.ID) } := by
  induction items generalizing i c t with
  | nil =>
    simp [OrderDB.CreateFromCart.clearItems] at h
    subst h
    simp [hc]
  | cons item rest ih =>
    unfold OrderDB.CreateFromCart.clearItems at h
    split at h
    · simp at h
    · rename_i c1 hdel
      obtain ⟨t0, ht0, hc1, hx1⟩ := CartItemDB.Delete_item_tx hdel
      rw [hc] at ht0
      simp only [Option.some.injEq] at ht0
      subst ht0
      obtain ⟨h1, h2⟩ := ih _ _ _ hx1 h
      refine ⟨h1.trans hc1, ?_⟩
      rw [h2]
      simp only [List.filter_filter, List.any_cons, Bool.not_or]
      congr 3
      funext row
      exact Bool.and_comm _ _

/-- C2 (pricing).  When `CreateFromCart` reports no error, every cart item has
a stored product, the order handed back and persisted (appended to `orders`)
carries as `total_price` the line amounts `(price - discount) * quantity` of
the items, added from left to right starting from zero, the order in which
the code accumulates them. -/
theorem OrderDB.CreateFromCart_total [Zero F] [Add F] [Sub F] [Mul F] [IntCast F]
    (env : Env) (c : Conn F) (order : Order F) (cartID : UUID) (cartItems : List CartItem)
    (h : (OrderDB.CreateFromCart env c order cartID cartItems).err = none) :
    ∃ lines : List F,
      List.Forall₂ (fun item line => c.committed.LineAmount item line) cartItems lines ∧
      (OrderDB.CreateFromCart env c order cartID cartItems).order.TotalPrice
        = lines.foldl (fun a b => a + b) 0 ∧
      (OrderDB.CreateFromCart env c order cartID cartItems).conn.committed.orders
        = c.committed.orders ++ [(OrderDB.CreateFromCart env c order cartID cartItems).order] := by
  obtain ⟨total, c2, c3, t3, hval, hloop, hclear, ht3, hord, hconn⟩ :=
    OrderDB.CreateFromCart_ok env c order cartID cartItems h
  obtain ⟨lines, hl, ht⟩ := OrderDB.CreateFromCart.validate_ok env c cartItems 0 0 total hval
  obtain ⟨t2, _, h2, _, _, _, _, ho, _, _⟩ :=
    OrderDB.CreateFromCart.createItems_ok env env.orderID cartItems 0 _ c2 _ rfl hloop
  obtain ⟨_, h3⟩ := OrderDB.CreateFromCart.clearItems_ok env cartItems 0 c2 c3 t2 h2 hclear
  rw [ht3] at h3
  simp only [Option.some.injEq] at h3
  refine ⟨lines, hl, ?_, ?_⟩
  · rw [hord, ← ht]
    rfl
  · rw [hconn, hord, h3]
    exact ho

/-- C2, on the sample cart: items (price 100, discount 10, quantity 2) and
(price 50, discount 0, quantity 3) check out without error and the total is
330. -/
theorem OrderDB.CreateFromCart_total_witness :
    (OrderDB.CreateFromCart Sample.env Sample.conn Sample.order 7 Sample.items).order.TotalPrice
      = 330 ∧
    ∃ lines : List Int,
      List.Forall₂ (fun item line => Sample.conn.committed.LineAmount item line)
        Sample.items lines ∧
      (OrderDB.CreateFromCart Sample.env Sample.conn Sample.order 7 Sample.items).order.TotalPrice
        = lines.foldl (fun a b => a + b) 0 ∧
      (OrderDB.CreateFromCart Sample.env Sample.conn Sample.order 7
        Sample.items).conn.committed.orders
        = Sample.conn.committed.orders ++
          [(OrderDB.CreateFromCart Sample.env Sample.conn Sample.order 7 Sample.items).order] :=
  ⟨by decide,
    OrderDB.CreateFromCart_total Sample.env Sample.conn Sample.order 7 Sample.items (by decide)⟩

/-- Where addition is associative and commutative (any ring, so the rationals
or the reals for `F`), the total of C2 is the sum of the line amounts. -/
theorem OrderDB.CreateFromCart_total_sum {R : Type} [Ring R]
    (env : Env) (c : Conn R) (order : Order R) (cartID : UUID) (cartItems : List CartItem)
    (h : (OrderDB.CreateFromCart env c order cartID cartItems).err = none) :
    ∃ lines : List R,
      List.Forall₂ (fun item line => c.committed.LineAmount item line) cartItems lines ∧
      (OrderDB.CreateFromCart env c order cartID cartItems).order.TotalPrice = lines.sum := by
  obtain ⟨total, _, _, _, hval, _, _, _, hord, _⟩ :=
    OrderDB.CreateFromCart_ok env c order cartID cartItems h
  obtain ⟨lines, hl, ht⟩ := OrderDB.CreateFromCart.validate_ok env c cartItems 0 0 total hval
  refine ⟨lines, hl, ?_⟩
  rw [hord, List.sum_eq_foldl, ← ht]
  rfl

/-- C3 (order lines).  When `CreateFromCart` reports no error, the persisted
order items are the previous ones followed by exactly one line per cart item,
in the order of the items; each line carries the id of the new order, the
item's product id and quantity, and as `price_at_order` the stored price minus
the stored discount of that product.  Nothing else is added to `order_items`. -/
theorem OrderDB.CreateFromCart_lines [Zero F] [Add F] [Sub F] [Mul F] [IntCast F]
    (env : Env) (c : Conn F) (order : Order F) (cartID : UUID) (cartItems : List CartItem)
    (h : (OrderDB.CreateFromCart env c order cartID cartItems).err = none) :
    ∃ lines : List (OrderItem F),
      (OrderDB.CreateFromCart env c order cartID cartItems).conn.committed.order_items
        = c.committed.order_items ++ lines ∧
      lines.length = cartItems.length ∧
      List.Forall₂
        (fun item line => c.committed.OrderLine
          (OrderDB.CreateFromCart env c order cartID cartItems).order.ID item line)
        cartItems lines := by
  obtain ⟨total, c2, c3, t3, hval, hloop, hclear, ht3, hord, hconn⟩ :=
    OrderDB.CreateFromCart_ok env c order cartID cartItems h
  obtain ⟨t2, lines, h2, _, _, _, _, _, hoi, hall⟩ :=
    OrderDB.CreateFromCart.createItems_ok env env.orderID cartItems 0 _ c2 _ rfl hloop
  obtain ⟨_, h3⟩ := OrderDB.CreateFromCart.clearItems_ok env cartItems 0 c2 c3 t2 h2 hclear
  rw [ht3] at h3
  simp only [Option.some.injEq] at h3
  refine ⟨lines, ?_, hall.length_eq.symm, ?_⟩
  · rw [hconn, h3]
    exact hoi
  · rw [hord]
    exact hall

/-- C3, on the sample cart: the checkout succeeds and persists the two lines
(product 1, quantity 2, price 90) and (product 2, quantity 3, price 50) under
order 100. -/
theorem OrderDB.CreateFromCart_lines_witness :
    (OrderDB.CreateFromCart Sample.env Sample.conn Sample.order 7
      Sample.items).conn.committed.order_items
      = [ { ID := 200, OrderID := 100, ProductID := 1, Quantity := 2, PriceAtOrder := 90
            CreatedAt := 5 },
          { ID := 201, OrderID := 100, ProductID := 2, Quantity := 3, PriceAtOrder := 50
            CreatedAt := 5 } ] ∧
    ∃ lines : List (OrderItem Int),
      (OrderDB.CreateFromCart Sample.env Sample.conn Sample.order 7
        Sample.items).conn.committed.order_items
        = Sample.conn.committed.order_items ++ lines ∧
      lines.length = Sample.items.length ∧
      List.Forall₂
        (fun item line => Sample.conn.committed.OrderLine
          (OrderDB.CreateFromCart Sample.env Sample.conn Sample.order 7 Sample.items).order.ID
          item line)
        Sample.items lines :=
  ⟨by decide,
    OrderDB.CreateFromCart_lines Sample.env Sample.conn Sample.order 7 Sample.items (by decide)⟩

/-! ### C4: stock decrement -/

/-- Point reads after an `UPDATE … WHERE id = ?` that keeps the ids: the row
with the updated id is the old one rewritten, every other row is as before. -/
theorem Tables.find?_update (ps : List (Product F)) (id x : UUID) (g : Product F → Product F)
    (hg : ∀ r, (g r).ID = r.ID) :
    (ps.map fun row => if row.ID == id then g row else row).find? (fun p => p.ID == x)
      = if x = id then (ps.find? fun p => p.ID == x).map g else ps.find? fun p => p.ID == x := by
  induction ps with
  | nil => simp
  | cons r rest ih =>
    simp only [List.map_cons, List.find?_cons]
    by_cases hr : r.ID = id
    · by_cases hx : r.ID = x
      · have hxid : x = id := hx ▸ hr
        simp [hr, hg, hxid]
      · have h1 : ((if (r.ID == id) = true then g r else r).ID == x) = false := by
          simp [hr, hg]
          rw [← hr]
          exact hx
        have h2 : (r.ID == x) = false := by simpa using hx
        rw [h1, h2]
        exact ih
    · by_cases hx : r.ID = x
      · have hxid : ¬ x = id := hx ▸ hr
        simp [hr, hx, hxid]
      · have h1 : ((if (r.ID == id) = true then g r else r).ID == x) = false := by
          simp [hr, hx]
        have h2 : (r.ID == x) = false := by simpa using hx
        rw [h1, h2]
        exact ih

/-- The loop creating the order items, when it runs to its end over items with
pairwise distinct products: in the working copy every listed product holds its
committed stock minus the item's quantity, and every product that is not listed
reads as before the loop.  `hids` says the working copy has a row for exactly
the committed product ids. -/
theorem OrderDB.CreateFromCart.createItems_stock [Sub F] (env : Env) (orderID : UUID)
    (items : List CartItem) (i : Nat) (c c2 : Conn F) (t : Tables F) (hc : c.tx = some t)
    (hids : ∀ id, (t.product? id).isSome = (c.committed.product? id).isSome)
    (hnodup : (items.map fun item => item.ProductID).Nodup)
    (h : OrderDB.CreateFromCart.createItems env orderID items i c = (none, c2)) :
    ∃ t2, c2.tx = some t2 ∧
      (∀ item ∈ items, ∃ p p2, c.committed.product? item.ProductID = some p ∧
        t2.product? item.ProductID = some p2 ∧
        p2.StockQuantity = p.StockQuantity - item.Quantity) ∧
      (∀ id, id ∉ items.map (fun item => item.ProductID) → t2.product? id = t.product? id) := by
  induction items generalizing i c t with
  | nil =>
    simp [OrderDB.CreateFromCart.createItems] at h
    subst h
    exact ⟨t, hc, by simp, by simp⟩
  | cons item rest ih =>
    unfold OrderDB.CreateFromCart.createItems at h
    split at h
    · simp at h
    · rename_i product hget
      obtain ⟨row, hrow, hp⟩ := ProductDB.Get_db hget
      dsimp only at h
      split at h
      · simp at h
      · rename_i line c1 hins
        obtain ⟨_, t0, ht0, hc1, hx1⟩ := OrderItemDB.Insert_item_tx hins
        rw [hc] at ht0
        simp only [Option.some.injEq] at ht0
        subst ht0
        split at h
        · simp at h
        · rename_i c1b hupd
          obtain ⟨t1, ht1, hc1b, hx1b⟩ := ProductDB.Update_tx hupd
          rw [hx1] at ht1
          simp only [Option.some.injEq] at ht1
          subst ht1
          obtain ⟨tnew, htnew⟩ : ∃ tnew : Tables F, c1b.tx = some tnew := ⟨_, hx1b⟩
          have hprod := hx1b.symm.trans htnew
          simp only [Option.some.injEq] at hprod
          have hrowid : row.ID = item.ProductID := by
            have := List.find?_some hrow
            simpa using this
          have hpid : product.ID = item.ProductID := by
            rw [hp]
            exact hrowid
          -- point reads of the working copy after the update
          have hother : ∀ x, x ≠ item.ProductID → tnew.product? x = t.product? x := by
            intro x hx
            rw [← hprod]
            unfold Tables.product?
            dsimp only
            rw [Tables.find?_update]
            · rw [if_neg]
              rw [hpid]
              exact hx
            · intro r
              rfl
          have hsame : ∀ r0, t.product? item.ProductID = some r0 →
              ∃ r1, tnew.product? item.ProductID = some r1 ∧
                r1.StockQuantity = row.StockQuantity - item.Quantity := by
            intro r0 hr0
            rw [← hprod]
            unfold Tables.product? at hr0 ⊢
            dsimp only
            rw [Tables.find?_update]
            · rw [if_pos hpid.symm, hr0]
              refine ⟨_, rfl, ?_⟩
              simp [hp]
            · intro r
              rfl
          have hcc : c1b.committed = c.committed := hc1b.trans hc1
          have hids1 : ∀ id, (tnew.product? id).isSome = (c1b.committed.product? id).isSome := by
            intro id
            rw [hcc, ← hids id]
            by_cases hid : id = item.ProductID
            · subst hid
              have hsome := hids item.ProductID
              rw [hrow] at hsome
              obtain ⟨r0, hr0⟩ := Option.isSome_iff_exists.mp hsome
              obtain ⟨r1, hr1, _⟩ := hsame r0 hr0
              rw [hr1, hr0]
              rfl
            · rw [hother id hid]
          have hnd : item.ProductID ∉ rest.map (fun item => item.ProductID) ∧
              (rest.map fun item => item.ProductID).Nodup := by
            rw [List.map_cons] at hnodup
            exact List.nodup_cons.mp hnodup
          obtain ⟨t2, h2, hstock, hframe⟩ := ih _ _ _ htnew hids1 hnd.2 h
          refine ⟨t2, h2, ?_, ?_⟩
          · intro it hit
            rcases List.mem_cons.mp hit with rfl | hmem
            · have hsome := hids it.ProductID
              rw [hrow] at hsome
              obtain ⟨r0, hr0⟩ := Option.isSome_iff_exists.mp hsome
              obtain ⟨r1, hr1, hq⟩ := hsame r0 hr0
              have hnot : it.ProductID ∉ rest.map fun item => item.ProductID := hnd.1
              have := hframe it.ProductID hnot
              rw [hr1] at this
              exact ⟨row, r1, hrow, this, hq⟩
            · obtain ⟨p, p2, h1, h2', h3⟩ := hstock it hmem
              rw [hcc] at h1
              exact ⟨p, p2, h1, h2', h3⟩
          · intro id hid
            have hid' : id ≠ item.ProductID ∧ id ∉ rest.map fun item => item.ProductID := by
              simpa using hid
            rw [hframe id hid'.2, hother id hid'.1]

/-- C4 (stock decrement).  When `CreateFromCart` reports no error for items
that reference pairwise distinct products, then, reading products by id before
and after the call: every referenced product is stored before and after, and
its `stock_quantity` afterwards is its `stock_quantity` before minus the
quantity of its item; a product that no item references reads exactly as
before. -/
theorem OrderDB.CreateFromCart_stock [Zero F] [Add F] [Sub F] [Mul F] [IntCast F]
    (env : Env) (c : Conn F) (order : Order F) (cartID : UUID) (cartItems : List CartItem)
    (h : (OrderDB.CreateFromCart env c order cartID cartItems).err = none)
    (hnodup : (cartItems.map fun item => item.ProductID).Nodup) :
    (∀ item ∈ cartItems, ∃ p p2, c.committed.product? item.ProductID = some p ∧
      (OrderDB.CreateFromCart env c order cartID cartItems).conn.committed.product?
        item.ProductID = some p2 ∧
      p2.StockQuantity = p.StockQuantity - item.Quantity) ∧
    (∀ id, id ∉ cartItems.map (fun item => item.ProductID) →
      (OrderDB.CreateFromCart env c order cartID cartItems).conn.committed.product? id
        = c.committed.product? id) := by
  obtain ⟨total, c2, c3, t3, hval, hloop, hclear, ht3, hord, hconn⟩ :=
    OrderDB.CreateFromCart_ok env c order cartID cartItems h
  obtain ⟨t2, h2, hstock, hframe⟩ :=
    OrderDB.CreateFromCart.createItems_stock env env.orderID cartItems 0
      { committed := c.committed
        tx := some { c.committed with
          orders := c.committed.orders ++ [env.stamped order total] } }
      c2 { c.committed with orders := c.committed.orders ++ [env.stamped order total] } rfl
      (fun _ => rfl) hnodup hloop
  obtain ⟨_, h3⟩ := OrderDB.CreateFromCart.clearItems_ok env cartItems 0 c2 c3 t2 h2 hclear
  rw [ht3] at h3
  simp only [Option.some.injEq] at h3
  have hread : ∀ id,
      (OrderDB.CreateFromCart env c order cartID cartItems).conn.committed.product? id
        = t2.product? id := by
    intro id
    rw [hconn, h3]
    rfl
  constructor
  · intro item hitem
    obtain ⟨p, p2, h1, h2', hq⟩ := hstock item hitem
    exact ⟨p, p2, h1, (hread _).trans h2', hq⟩
  · intro id hid
    rw [hread id, hframe id hid]
    rfl

/-- C4, on the sample cart: the checkout succeeds, the two items reference
distinct products, and product 2, stocked 10 and bought 3 times, is left with
7. -/
theorem OrderDB.CreateFromCart_stock_witness :
    ((OrderDB.CreateFromCart Sample.env Sample.conn Sample.order 7
      Sample.items).conn.committed.product? 2).map (fun p => p.StockQuantity) = some 7 ∧
    ((∀ item ∈ Sample.items, ∃ p p2, Sample.conn.committed.product? item.ProductID = some p ∧
      (OrderDB.CreateFromCart Sample.env Sample.conn Sample.order 7
        Sample.items).conn.committed.product? item.ProductID = some p2 ∧
      p2.StockQuantity = p.StockQuantity - item.Quantity) ∧
    (∀ id, id ∉ Sample.items.map (fun item => item.ProductID) →
      (OrderDB.CreateFromCart Sample.env Sample.conn Sample.order 7
        Sample.items).conn.committed.product? id
        = Sample.conn.committed.product? id)) :=
  ⟨by decide,
    OrderDB.CreateFromCart_stock Sample.env Sample.conn Sample.order 7 Sample.items
      (by decide) (by decide)⟩

/-! ### C5: insufficient stock -/

/-- A point read through the pool that is answered returns the stored row, if
there is one. -/
theorem ProductDB.Get_db_stored {c : Conn F} {id : UUID} {row : Product F}
    (h : c.committed.product? id = some row) :
    ProductDB.Get .db false c id = .ok { row with Image := productImageColumn row.Image } := by
  unfold Tables.product? at h
  simp [ProductDB.Get, Conn.rows, h]

/-- The validation loop stops at the first item that fails the stock check,
with the error naming its product, when the items before it reference stored
products and the reads are answered. -/
theorem OrderDB.CreateFromCart.validate_rejects [Add F] [Sub F] [Mul F] [IntCast F]
    (env : Env) (c : Conn F) (items : List CartItem) (i : Nat) (acc : F) (bad : CartItem)
    (href : ∀ item ∈ items, (c.committed.product? item.ProductID).isSome = true)
    (hread : ∀ k, env.failValidateGet k = false)
    (hbad : items.find? c.committed.understocked = some bad) :
    OrderDB.CreateFromCart.validate env c items i acc
      = .error (.errorfS "product %s is not available or insufficient stock" bad.ProductID) := by
  induction items generalizing i acc with
  | nil => simp at hbad
  | cons item rest ih =>
    obtain ⟨row, hrow⟩ := Option.isSome_iff_exists.mp (href item (List.mem_cons_self _ _))
    unfold OrderDB.CreateFromCart.validate
    rw [hread i, ProductDB.Get_db_stored hrow]
    dsimp only
    rw [List.find?_cons] at hbad
    cases hu : c.committed.understocked item with
    | true =>
      rw [hu] at hbad
      simp only [Option.some.injEq] at hbad
      subst hbad
      unfold Tables.understocked at hu
      rw [hrow] at hu
      dsimp only at hu
      rw [if_pos hu]
    | false =>
      rw [hu] at hbad
      unfold Tables.understocked at hu
      rw [hrow] at hu
      dsimp only at hu
      rw [if_neg (by simp [hu])]
      exact ih _ _ (fun it hit => href it (List.mem_cons_of_mem _ hit)) hbad

/-- The validation loop on a list with an unavailable or under-stocked item:
it ends in an error, which is the stock error naming the first such item, or
the retrieval error of that item or of an item before it. -/
theorem OrderDB.CreateFromCart.validate_stops [Add F] [Sub F] [Mul F] [IntCast F]
    (env : Env) (c : Conn F) (items : List CartItem) (i : Nat) (acc : F) (bad : CartItem)
    (hbad : items.find? c.committed.understocked = some bad) :
    ∃ err, OrderDB.CreateFromCart.validate env c items i acc = .error err ∧
      (err = .errorfS "product %s is not available or insufficient stock" bad.ProductID ∨
        ∃ item ∈ items.takeWhile (fun item => !c.committed.understocked item) ++ [bad],
          ∃ cause, err = .errorfSV "error getting product %s: %v" item.ProductID cause) := by
  induction items generalizing i acc with
  | nil => simp at hbad
  | cons item rest ih =>
    unfold OrderDB.CreateFromCart.validate
    rw [List.find?_cons] at hbad
    cases hu : c.committed.understocked item with
    | true =>
      rw [hu] at hbad
      simp only [Option.some.injEq] at hbad
      subst hbad
      split
      · rename_i err _
        exact ⟨_, rfl, .inr ⟨item, by simp [List.takeWhile_cons, hu], err, rfl⟩⟩
      · rename_i product hget
        obtain ⟨row, hrow, hprod⟩ := ProductDB.Get_db hget
        unfold Tables.understocked at hu
        rw [hrow] at hu
        dsimp only at hu
        have : (!product.IsAvailable || decide (product.StockQuantity < item.Quantity)) = true := by
          rw [hprod]
          exact hu
        rw [if_pos this]
        exact ⟨_, rfl, .inl rfl⟩
    | false =>
      rw [hu] at hbad
      have hu0 := hu
      split
      · rename_i err _
        exact ⟨_, rfl, .inr ⟨item, by simp [List.takeWhile_cons, hu], err, rfl⟩⟩
      · rename_i product hget
        obtain ⟨row, hrow, hprod⟩ := ProductDB.Get_db hget
        unfold Tables.understocked at hu
        rw [hrow] at hu
        dsimp only at hu
        have : ¬ (!product.IsAvailable || decide (product.StockQuantity < item.Quantity)) = true := by
          rw [hprod]
          simpa using hu
        rw [if_neg this]
        obtain ⟨err, herr, hcase⟩ := ih (i + 1) _ hbad
        refine ⟨err, herr, ?_⟩
        rcases hcase with h1 | ⟨it, hit, cause, h1⟩
        · exact .inl h1
        · refine .inr ⟨it, ?_, cause, h1⟩
          have htw : (item :: rest).takeWhile (fun item => !c.committed.understocked item)
              = item :: rest.takeWhile (fun item => !c.committed.understocked item) := by
            simp [List.takeWhile_cons, hu0]
          rw [htw, List.cons_append]
          exact List.mem_cons_of_mem _ hit

/-- The validation loop names the first unavailable or under-stocked item when
every item before it references a stored product and the reads up to it are
answered. -/
theorem OrderDB.CreateFromCart.validate_names [Add F] [Sub F] [Mul F] [IntCast F]
    (env : Env) (c : Conn F) (items : List CartItem) (i : Nat) (acc : F) (bad : CartItem)
    (hbad : items.find? c.committed.understocked = some bad)
    (href : ∀ item ∈ items.takeWhile (fun item => !c.committed.understocked item),
      (c.committed.product? item.ProductID).isSome = true)
    (hread : ∀ k, k ≤ (items.takeWhile fun item => !c.committed.understocked item).length →
      env.failValidateGet (i + k) = false) :
    OrderDB.CreateFromCart.validate env c items i acc
      = .error (.errorfS "product %s is not available or insufficient stock" bad.ProductID) := by
  induction items generalizing i acc with
  | nil => simp at hbad
  | cons item rest ih =>
    unfold OrderDB.CreateFromCart.validate
    rw [List.find?_cons] at hbad
    have hr0 := hread 0 (Nat.zero_le _)
    rw [Nat.add_zero] at hr0
    cases hu : c.committed.understocked item with
    | true =>
      rw [hu] at hbad
      simp only [Option.some.injEq] at hbad
      subst hbad
      have hu2 := hu
      unfold Tables.understocked at hu2
      cases hrow : c.committed.product? item.ProductID with
      | none => rw [hrow] at hu2; simp at hu2
      | some row =>
        rw [hrow] at hu2
        dsimp only at hu2
        rw [hr0, ProductDB.Get_db_stored hrow]
        dsimp only
        rw [if_pos hu2]
    | false =>
      rw [hu] at hbad
      have htw : (item :: rest).takeWhile (fun item => !c.committed.understocked item)
          = item :: rest.takeWhile (fun item => !c.committed.understocked item) := by
        simp [List.takeWhile_cons, hu]
      rw [htw] at href hread
      obtain ⟨row, hrow⟩ := Option.isSome_iff_exists.mp (href item (List.mem_cons_self _ _))
      have hu2 := hu
      unfold Tables.understocked at hu2
      rw [hrow] at hu2
      dsimp only at hu2
      rw [hr0, ProductDB.Get_db_stored hrow]
      dsimp only
      rw [if_neg (by simp [hu2])]
      refine ih _ _ hbad (fun it hit => href it (List.mem_cons_of_mem _ hit)) ?_
      intro k hk
      have := hread (k + 1) (by simp only [List.length_cons]; omega)
      rw [← this]
      congr 1
      omega

/-- C5 as stated fails: the first item references product 999, which is not
stored, and the second asks for 11 units of product 2, which has 10.  The second
is the first item whose product is unavailable or under-stocked, yet the error
returned is the retrieval error of product 999, met first in list order; nothing
is persisted. -/
theorem OrderDB.CreateFromCart_rejects_counterexample :
    Sample.strayItems.find? Sample.conn.committed.understocked
      = some { ID := 13, CartID := 7, ProductID := 2, Quantity := 11, CreatedAt := 0
               UpdatedAt := 0 } ∧
    (OrderDB.CreateFromCart Sample.env Sample.conn Sample.order 7 Sample.strayItems).err
      = some (.errorfSV "error getting product %s: %v" 999 (.sentinel .ErrProductNotFound)) ∧
    (OrderDB.CreateFromCart Sample.env Sample.conn Sample.order 7 Sample.strayItems).err
      ≠ some (.errorfS "product %s is not available or insufficient stock" 2) ∧
    (OrderDB.CreateFromCart Sample.env Sample.conn Sample.order 7 Sample.strayItems).conn
      = Sample.conn := by
  decide

/-- C5, amended (insufficient-stock rejection).  Let `bad` be the first item, in
list order, whose product is stored and unavailable or holds less stock than
the item's quantity.  Then `CreateFromCart` returns an error and leaves the
connection, hence every table, exactly as it found it: no order, order item,
stock change, cart-item deletion or cart deletion is persisted.  The error is
the stock error naming the product id of `bad`, or the retrieval error of `bad`
or of an item before it; it is the stock error naming `bad` when every item
before `bad` references a stored product and the product reads up to `bad` are
answered. -/
theorem OrderDB.CreateFromCart_rejects [Zero F] [Add F] [Sub F] [Mul F] [IntCast F]
    (env : Env) (c : Conn F) (order : Order F) (cartID : UUID) (cartItems : List CartItem)
    (bad : CartItem)
    (hbad : cartItems.find? c.committed.understocked = some bad) :
    (∃ err, (OrderDB.CreateFromCart env c order cartID cartItems).err = some err ∧
      (err = .errorfS "product %s is not available or insufficient stock" bad.ProductID ∨
        ∃ item ∈ cartItems.takeWhile (fun item => !c.committed.understocked item) ++ [bad],
          ∃ cause, err = .errorfSV "error getting product %s: %v" item.ProductID cause)) ∧
    (OrderDB.CreateFromCart env c order cartID cartItems).conn = c ∧
    ((∀ item ∈ cartItems.takeWhile (fun item => !c.committed.understocked item),
        (c.committed.product? item.ProductID).isSome = true) →
      (∀ k, k ≤ (cartItems.takeWhile fun item => !c.committed.understocked item).length →
        env.failValidateGet k = false) →
      (OrderDB.CreateFromCart env c order cartID cartItems).err
        = some (.errorfS "product %s is not available or insufficient stock"
            bad.ProductID)) := by
  refine ⟨?_, ?_, ?_⟩
  · obtain ⟨err, herr, hcase⟩ :=
      OrderDB.CreateFromCart.validate_stops env c cartItems 0 0 bad hbad
    unfold OrderDB.CreateFromCart
    rw [herr]
    exact ⟨err, rfl, hcase⟩
  · obtain ⟨err, herr, _⟩ :=
      OrderDB.CreateFromCart.validate_stops env c cartItems 0 0 bad hbad
    unfold OrderDB.CreateFromCart
    rw [herr]
  · intro href hread
    unfold OrderDB.CreateFromCart
    rw [OrderDB.CreateFromCart.validate_names env c cartItems 0 0 bad hbad href
      (fun k hk => by rw [Nat.zero_add]; exact hread k hk)]

/-- C5 amended, on the sample store: the third item asks for 11 units of
product 2, which has 10, and the two items before it reference stored products;
the call names product 2 and changes nothing. -/
theorem OrderDB.CreateFromCart_rejects_witness :
    (OrderDB.CreateFromCart Sample.env Sample.conn Sample.order 7 Sample.greedyItems).err
      = some (.errorfS "product %s is not available or insufficient stock" 2) ∧
    (OrderDB.CreateFromCart Sample.env Sample.conn Sample.order 7 Sample.greedyItems).conn
      = Sample.conn :=
  have h := OrderDB.CreateFromCart_rejects Sample.env Sample.conn Sample.order 7
    Sample.greedyItems
    { ID := 13, CartID := 7, ProductID := 2, Quantity := 11, CreatedAt := 0, UpdatedAt := 0 }
    (by decide)
  ⟨h.2.2 (by decide) (fun _ _ => rfl), h.2.1⟩

/-! ### Checkout succeeds on a cart that is in stock -/

/-- The validation loop passes when every item is in stock and the reads are
answered. -/
theorem OrderDB.CreateFromCart.validate_passes [Add F] [Sub F] [Mul F] [IntCast F]
    (env : Env) (c : Conn F) (items : List CartItem) (i : Nat) (acc : F)
    (hread : ∀ k, env.failValidateGet k = false)
    (hstock : ∀ item ∈ items, c.committed.InStock item) :
    ∃ total, OrderDB.CreateFromCart.validate env c items i acc = .ok total := by
  induction items generalizing i acc with
  | nil => exact ⟨acc, rfl⟩
  | cons item rest ih =>
    obtain ⟨p, hp, havail, hq⟩ := hstock item (List.mem_cons_self _ _)
    unfold OrderDB.CreateFromCart.validate
    rw [hread i, ProductDB.Get_db_stored hp]
    dsimp only
    rw [if_neg (by simp [havail, hq])]
    exact ih _ _ (fun it hit => hstock it (List.mem_cons_of_mem _ hit))

/-- The loop creating the order items runs to its end when the transaction is
open, every item's product is stored and no call fails. -/
theorem OrderDB.CreateFromCart.createItems_passes [Sub F] (env : Env) (orderID : UUID)
    (items : List CartItem) (i : Nat) (c : Conn F) (t : Tables F) (hc : c.tx = some t)
    (hget : ∀ k, env.failItemGet k = false) (hins : ∀ k, env.failInsertItem k = false)
    (hupd : ∀ k, env.failUpdateProduct k = false)
    (hstock : ∀ item ∈ items, c.committed.InStock item) :
    ∃ c2 t2, OrderDB.CreateFromCart.createItems env orderID items i c = (none, c2) ∧
      c2.tx = some t2 := by
  induction items generalizing i c t with
  | nil => exact ⟨c, t, rfl, hc⟩
  | cons item rest ih =>
    obtain ⟨p, hp, _, _⟩ := hstock item (List.mem_cons_self _ _)
    unfold OrderDB.CreateFromCart.createItems
    rw [hget i, ProductDB.Get_db_stored hp]
    simp only [OrderItemDB.Insert, ProductDB.Update, hins i, hupd i, Conn.exec, hc,
      Bool.false_eq_true, if_false]
    exact ih _ _ _ rfl (fun it hit => hstock it (List.mem_cons_of_mem _ hit))

/-- The loop clearing the cart runs to its end when the transaction is open and
no delete fails. -/
theorem OrderDB.CreateFromCart.clearItems_passes (env : Env) (items : List CartItem) (i : Nat)
    (c : Conn F) (t : Tables F) (hc : c.tx = some t)
    (hdel : ∀ k, env.failDeleteItem k = false) :
    ∃ c3 t3, OrderDB.CreateFromCart.clearItems env items i c = (none, c3) ∧
      c3.tx = some t3 := by
  induction items generalizing i c t with
  | nil => exact ⟨c, t, rfl, hc⟩
  | cons item rest ih =>
    unfold OrderDB.CreateFromCart.clearItems
    simp only [CartItemDB.Delete, hdel i, Conn.exec, hc, Bool.false_eq_true, if_false]
    exact ih _ _ _ rfl

/-- `CreateFromCart` reports no error when no storage call fails and every cart
item is in stock: its product is stored, available and holds at least the
item's quantity. -/
theorem OrderDB.CreateFromCart_succeeds [Zero F] [Add F] [Sub F] [Mul F] [IntCast F]
    (env : Env) (c : Conn F) (order : Order F) (cartID : UUID) (cartItems : List CartItem)
    (henv : env.Steady) (hstock : ∀ item ∈ cartItems, c.committed.InStock item) :
    (OrderDB.CreateFromCart env c order cartID cartItems).err = none := by
  obtain ⟨hval, hbegin, hord, hget, hins, hupd, hdel, hcart, hcommit⟩ := henv
  obtain ⟨total, htotal⟩ :=
    OrderDB.CreateFromCart.validate_passes env c cartItems 0 (0 : F) hval hstock
  obtain ⟨c2, t2, hloop, h2⟩ :=
    OrderDB.CreateFromCart.createItems_passes env env.orderID cartItems 0
      { committed := c.committed
        tx := some { c.committed with
          orders := c.committed.orders ++ [env.stamped order total] } }
      _ rfl hget hins hupd hstock
  obtain ⟨c3, t3, hclear, h3⟩ :=
    OrderDB.CreateFromCart.clearItems_passes env cartItems 0 c2 t2 h2 hdel
  unfold OrderDB.CreateFromCart
  rw [htotal]
  simp only [Conn.Beginx, hbegin, OrderDB.Insert, hord, Conn.exec, Bool.false_eq_true, if_false]
  have hloop' := hloop
  simp only [Env.stamped] at hloop'
  rw [hloop']
  dsimp only
  rw [hclear]
  simp only [CartDB.Delete, hcart, Conn.exec, h3, Conn.Commit, hcommit, Bool.false_eq_true,
    if_false]

/-! ### The handler -/

/-- What is known when the read-only part of the handler hands over to
`CreateFromCart`: the form carried the cart id and no malformed coordinate,
the cart was found and is bound to the store of the header, the items are those
listed for the cart and there is at least one, and the header is owned by the
cart's user, pending, with total zero and the notes of the form. -/
theorem CreateOrderFromCartHandler.prepare_ok [Zero F] [LE F] [∀ a b : F, Decidable (a ≤ b)]
    {env : Env} {c : Conn F} {r : CheckoutForm F} {cartID : UUID} {order : Order F}
    {items : List CartItem}
    (h : CreateOrderFromCartHandler.prepare env c r = .ok (cartID, order, items)) :
    r.cart_id = .valid cartID ∧
    r.delivery_latitude.isMalformed = false ∧ r.delivery_longitude.isMalformed = false ∧
    ∃ cart, CartDB.Get .db env.failCartGet c cartID = .ok cart ∧
      CartItemDB.ListByCart .db env.failListByCart c cartID = .ok items ∧
      items ≠ [] ∧
      cart.StoreID = some order.StoreID ∧
      order.UserID = cart.UserID ∧ order.Status = "pending" ∧ order.TotalPrice = 0 ∧
      order.DeliveryNotes = r.notes := by
  unfold CreateOrderFromCartHandler.prepare at h
  split at h
  · simp at h
  · rename_i cid hcid
    dsimp only at h
    split at h
    · simp at h
    · rename_i lat hlat
      split at h
      · simp at h
      · rename_i lon hlon
        split at h
        · simp at h
        · rename_i cart hcart
          split at h
          · simp at h
          · rename_i its hits
            split at h
            · simp at h
            · rename_i hne
              split at h
              · simp at h
              · rename_i addr la lo hfb
                split at h
                · simp at h
                · rename_i storeID hstore
                  split at h
                  · simp at h
                  · simp only [Except.ok.injEq, Prod.mk.injEq] at h
                    obtain ⟨h1, h2, h3⟩ := h
                    subst h1 h2 h3
                    refine ⟨hcid, ?_, ?_, cart, hcart, hits, ?_, hstore, rfl, rfl, rfl, rfl⟩
                    · cases hr : r.delivery_latitude with
                      | malformed => exact absurd hr (by simpa using hlat)
                      | empty => rfl
                      | number v => rfl
                    · cases hr : r.delivery_longitude with
                      | malformed => exact absurd hr (by simpa using hlon)
                      | empty => rfl
                      | number v => rfl
                    · intro hnil
                      apply hne
                      simp [hnil]

/-! ### C6: empty cart -/

/-- C6 as stated fails: cart 8 exists and has no items, yet a form whose
latitude is not a number is answered with the latitude format error, not with
the empty-cart error. -/
theorem CreateOrderFromCartHandler_emptyCart_counterexample :
    CartDB.Get .db Sample.env.failCartGet Sample.idleConn 8
      = .ok { ID := 8, UserID := 3, StoreID := none, CreatedAt := 0, UpdatedAt := 0 } ∧
    CartItemDB.ListByCart .db Sample.env.failListByCart Sample.idleConn 8 = .ok [] ∧
    (CreateOrderFromCartHandler Sample.env Sample.idleConn (Sample.malformedForm 8)).1
      = .json 400 (.error "خطأ في تنسيق خط العرض") ∧
    (CreateOrderFromCartHandler Sample.env Sample.idleConn (Sample.malformedForm 8)).1
      ≠ .json 400 (.error "السلة فارغة") := by
  decide

/-- C6, amended.  For a request naming an existing cart that lists no items,
the handler leaves the connection as it found it, whatever the form carries,
and answers 400 with the empty-cart error, whatever address, notes and
coordinates were supplied, unless the latitude or the longitude is not a
number, in which case it answers 400 with the format error of that field. -/
theorem CreateOrderFromCartHandler_emptyCart [Zero F] [Add F] [Sub F] [Mul F] [IntCast F]
    [LE F] [∀ a b : F, Decidable (a ≤ b)] (env : Env) (c : Conn F) (r : CheckoutForm F)
    (cartID : UUID) (cart : Cart) (hid : r.cart_id = .valid cartID)
    (hcart : CartDB.Get .db env.failCartGet c cartID = .ok cart)
    (hitems : CartItemDB.ListByCart .db env.failListByCart c cartID = .ok []) :
    (CreateOrderFromCartHandler env c r).2 = c ∧
    (CreateOrderFromCartHandler env c r).1 =
      if r.delivery_latitude.isMalformed then badRequestResponse "خطأ في تنسيق خط العرض"
      else if r.delivery_longitude.isMalformed then badRequestResponse "خطأ في تنسيق خط الطول"
      else badRequestResponse "السلة فارغة" := by
  unfold CreateOrderFromCartHandler CreateOrderFromCartHandler.prepare
  rw [hid]
  cases hlat : r.delivery_latitude <;> cases hlon : r.delivery_longitude <;>
    simp [hcart, hitems, FormFloat.isMalformed]

/-- C6 amended, on the sample store: cart 8 exists and has no items; a form with
coordinates and no address is answered with the empty-cart error and nothing
changes. -/
theorem CreateOrderFromCartHandler_emptyCart_witness :
    (CreateOrderFromCartHandler Sample.env Sample.idleConn (Sample.coordinatesForm 8)).2
      = Sample.idleConn ∧
    (CreateOrderFromCartHandler Sample.env Sample.idleConn (Sample.coordinatesForm 8)).1
      = if (Sample.coordinatesForm 8).delivery_latitude.isMalformed then
          badRequestResponse "خطأ في تنسيق خط العرض"
        else if (Sample.coordinatesForm 8).delivery_longitude.isMalformed then
          badRequestResponse "خطأ في تنسيق خط الطول"
        else badRequestResponse "السلة فارغة" :=
  CreateOrderFromCartHandler_emptyCart Sample.env Sample.idleConn (Sample.coordinatesForm 8) 8
    { ID := 8, UserID := 3, StoreID := none, CreatedAt := 0, UpdatedAt := 0 }
    rfl (by decide) (by decide)

/-! ### C7 and C8: the cart after a checkout -/

/-- The tables `CreateFromCart` commits, as far as users, carts and cart items
go: the cart rows with the given id are gone, and so are the cart items whose
id is the id of a listed item. -/
theorem OrderDB.CreateFromCart_carts [Zero F] [Add F] [Sub F] [Mul F] [IntCast F]
    (env : Env) (c : Conn F) (order : Order F) (cartID : UUID) (cartItems : List CartItem)
    (h : (OrderDB.CreateFromCart env c order cartID cartItems).err = none) :
    (OrderDB.CreateFromCart env c order cartID cartItems).conn.tx = none ∧
    (OrderDB.CreateFromCart env c order cartID cartItems).conn.committed.users
      = c.committed.users ∧
    (OrderDB.CreateFromCart env c order cartID cartItems).conn.committed.carts
      = c.committed.carts.filter (fun row => !(row.ID == cartID)) ∧
    (OrderDB.CreateFromCart env c order cartID cartItems).conn.committed.cart_items
      = c.committed.cart_items.filter
          (fun row => !(cartItems.any fun item => row.ID == item.ID)) := by
  obtain ⟨total, c2, c3, t3, hval, hloop, hclear, ht3, hord, hconn⟩ :=
    OrderDB.CreateFromCart_ok env c order cartID cartItems h
  obtain ⟨t2, _, h2, _, hu, hca, hci, _, _, _⟩ :=
    OrderDB.CreateFromCart.createItems_ok env env.orderID cartItems 0 _ c2 _ rfl hloop
  obtain ⟨_, h3⟩ := OrderDB.CreateFromCart.clearItems_ok env cartItems 0 c2 c3 t2 h2 hclear
  rw [ht3] at h3
  simp only [Option.some.injEq] at h3
  rw [hconn, h3]
  refine ⟨rfl, hu, ?_, ?_⟩
  · show List.filter _ t2.carts = _
    rw [hca]
  · show List.filter _ t2.cart_items = _
    rw [hci]

/-- The rows `ListByCart` returns through the pool, when it is answered. -/
theorem CartItemDB.ListByCart_db {fail : Bool} {c : Conn F} {cartID : UUID}
    {items : List CartItem} (h : CartItemDB.ListByCart .db fail c cartID = .ok items) :
    items = c.committed.cart_items.filter fun row => row.CartID == cartID := by
  unfold CartItemDB.ListByCart at h
  cases fail with
  | true => simp at h
  | false =>
    simp [Conn.rows] at h
    exact h.symm

/-- A cart lookup through the pool on tables without a cart of that id: the
answer is `ErrCartNotFound`, unless the lookup itself fails. -/
theorem CartDB.Get_db_absent (fail : Bool) {c : Conn F} {id : UUID}
    (h : c.committed.carts.find? (fun row => row.ID == id) = none) :
    CartDB.Get .db fail c id
      = if fail then .error (.errorfV "error getting cart: %v" .driver)
        else .error (.sentinel .ErrCartNotFound) := by
  unfold CartDB.Get
  cases fail with
  | true => rfl
  | false => simp [Conn.rows, h]

/-- The reply of `handleRetrievalError` to `ErrCartNotFound`. -/
theorem handleRetrievalError_ErrCartNotFound :
    (handleRetrievalError (.sentinel .ErrCartNotFound) : Reply F)
      = errorResponse 404 "السلة غير موجود" := by
  rfl

/-- The replies of the read-only part of the handler are never a 201. -/
theorem CreateOrderFromCartHandler.prepare_error [Zero F] [LE F] [∀ a b : F, Decidable (a ≤ b)]
    {env : Env} {c : Conn F} {r : CheckoutForm F} {reply : Reply F}
    (h : CreateOrderFromCartHandler.prepare env c r = .error reply) (body : Payload F) :
    reply ≠ .json 201 body := by
  have hret : ∀ err : Error, (handleRetrievalError err : Reply F) ≠ .json 201 body := by
    intro err
    unfold handleRetrievalError
    split
    · rename_i k status message hk
      have hmem := List.mem_of_find?_eq_some hk
      have hst : ∀ k ∈ handleRetrievalError.cases, k.2.1 ≠ 201 := by decide
      have := hst _ hmem
      simp only [errorResponse, ne_eq, Reply.json.injEq, not_and]
      intro h201
      exact absurd h201 this
    · simp [serverErrorResponse, errorResponse]
  unfold CreateOrderFromCartHandler.prepare at h
  split at h
  · simp only [Except.error.injEq] at h
    subst h
    simp [badRequestResponse, errorResponse]
  · dsimp only at h
    split at h
    · simp only [Except.error.injEq] at h
      subst h
      simp [badRequestResponse, errorResponse]
    · split at h
      · simp only [Except.error.injEq] at h
        subst h
        simp [badRequestResponse, errorResponse]
      · split at h
        · simp only [Except.error.injEq] at h
          subst h
          exact hret _
        · split at h
          · simp only [Except.error.injEq] at h
            subst h
            simp [serverErrorResponse, errorResponse]
          · split at h
            · simp only [Except.error.injEq] at h
              subst h
              simp [badRequestResponse, errorResponse]
            · split at h
              · simp only [Except.error.injEq] at h
                subst h
                simp [serverErrorResponse, errorResponse]
              · split at h
                · simp only [Except.error.injEq] at h
                  subst h
                  simp
                · split at h
                  · simp only [Except.error.injEq] at h
                    subst h
                    simp [failedValidationResponse]
                  · simp at h

/-- A 201 reply means the read-only part handed over and `CreateFromCart`
reported no error; the connection left behind is the one `CreateFromCart`
left. -/
theorem CreateOrderFromCartHandler_created [Zero F] [Add F] [Sub F] [Mul F] [IntCast F]
    [LE F] [∀ a b : F, Decidable (a ≤ b)] {env : Env} {c : Conn F} {r : CheckoutForm F}
    {body : Payload F} (h : (CreateOrderFromCartHandler env c r).1 = .json 201 body) :
    ∃ cartID order items,
      CreateOrderFromCartHandler.prepare env c r = .ok (cartID, order, items) ∧
      (OrderDB.CreateFromCart env c order cartID items).err = none ∧
      (CreateOrderFromCartHandler env c r).2
        = (OrderDB.CreateFromCart env c order cartID items).conn ∧
      body = .orderCreated "تم إنشاء الطلب بنجاح"
        (OrderDB.CreateFromCart env c order cartID items).order items := by
  unfold CreateOrderFromCartHandler at h ⊢
  cases hprep : CreateOrderFromCartHandler.prepare env c r with
  | error reply =>
    rw [hprep] at h
    exact absurd h (CreateOrderFromCartHandler.prepare_error hprep body)
  | ok triple =>
    obtain ⟨cartID, order, items⟩ := triple
    rw [hprep] at h
    simp only [CreateOrderFromCartHandler.finish] at h ⊢
    cases herr : (OrderDB.CreateFromCart env c order cartID items).err with
    | some err =>
      rw [herr] at h
      simp [serverErrorResponse, errorResponse] at h
    | none =>
      rw [herr] at h
      simp only [Reply.json.injEq, true_and] at h
      exact ⟨cartID, order, items, rfl, herr, rfl, h.symm⟩

/-- After a checkout answered with 201, the committed tables hold no cart with
the id of the request and no cart item of that cart, and no transaction is left
open. -/
theorem CreateOrderFromCartHandler_cart_gone [Zero F] [Add F] [Sub F] [Mul F] [IntCast F]
    [LE F] [∀ a b : F, Decidable (a ≤ b)] {env : Env} {c : Conn F} {r : CheckoutForm F}
    {cartID : UUID} {body : Payload F} (hid : r.cart_id = .valid cartID)
    (h : (CreateOrderFromCartHandler env c r).1 = .json 201 body) :
    (CreateOrderFromCartHandler env c r).2.committed.carts.find? (fun row => row.ID == cartID)
      = none ∧
    ∀ row ∈ (CreateOrderFromCartHandler env c r).2.committed.cart_items, row.CartID ≠ cartID := by
  obtain ⟨cid, order, items, hprep, herr, hconn, _⟩ := CreateOrderFromCartHandler_created h
  obtain ⟨hcid, _, _, cart, _, hlist, _⟩ := CreateOrderFromCartHandler.prepare_ok hprep
  rw [hid] at hcid
  simp only [FormUUID.valid.injEq] at hcid
  subst hcid
  obtain ⟨_, _, hcarts, hitems⟩ := OrderDB.CreateFromCart_carts env c order cartID items herr
  have hl := CartItemDB.ListByCart_db hlist
  rw [hconn, hcarts, hitems]
  constructor
  · rw [List.find?_eq_none]
    intro row hrow
    have := (List.mem_filter.mp hrow).2
    simpa using this
  · intro row hrow hcart
    obtain ⟨hmem, hnot⟩ := List.mem_filter.mp hrow
    have hin : row ∈ items := by
      rw [hl]
      exact List.mem_filter.mpr ⟨hmem, by simpa using hcart⟩
    have hany : (items.any fun item => row.ID == item.ID) = true :=
      List.any_eq_true.mpr ⟨row, hin, by simp⟩
    rw [hany] at hnot
    simp at hnot

/-- A checkout request for a cart id that has no stored cart writes nothing, and
is answered with 404 "cart not found" when its coordinates are well formed and
the cart lookup is answered. -/
theorem CreateOrderFromCartHandler_absent [Zero F] [Add F] [Sub F] [Mul F] [IntCast F]
    [LE F] [∀ a b : F, Decidable (a ≤ b)] (env : Env) (d : Conn F) (r : CheckoutForm F)
    (id : UUID) (hid : r.cart_id = .valid id)
    (habs : d.committed.carts.find? (fun row => row.ID == id) = none) :
    (CreateOrderFromCartHandler env d r).2 = d ∧
    (r.delivery_latitude.isMalformed = false → r.delivery_longitude.isMalformed = false →
      env.failCartGet = false →
      (CreateOrderFromCartHandler env d r).1 = errorResponse 404 "السلة غير موجود") := by
  have hget := CartDB.Get_db_absent env.failCartGet habs
  unfold CreateOrderFromCartHandler CreateOrderFromCartHandler.prepare
  rw [hid]
  cases hlat : r.delivery_latitude <;> cases hlon : r.delivery_longitude <;>
    simp only [hget] <;>
    cases hf : env.failCartGet <;>
    simp [FormFloat.isMalformed, handleRetrievalError_ErrCartNotFound]

/-- C8 as stated fails: cart 7 was checked out with a 201; a later request for
cart 7 whose latitude is not a number is answered with 400 and the latitude
format error, not with 404 "cart not found". -/
theorem CreateOrderFromCartHandler_at_most_once_counterexample :
    (CreateOrderFromCartHandler Sample.env Sample.conn (Sample.addressForm 7)).1
      = .json 201 (.orderCreated "تم إنشاء الطلب بنجاح"
          { Sample.order with ID := 100, TotalPrice := 330, CreatedAt := 5, UpdatedAt := 5 }
          Sample.items) ∧
    (CreateOrderFromCartHandler Sample.env
        (CreateOrderFromCartHandler Sample.env Sample.conn (Sample.addressForm 7)).2
        (Sample.malformedForm 7)).1
      = .json 400 (.error "خطأ في تنسيق خط العرض") ∧
    (CreateOrderFromCartHandler Sample.env
        (CreateOrderFromCartHandler Sample.env Sample.conn (Sample.addressForm 7)).2
        (Sample.malformedForm 7)).1
      ≠ .json 404 (.error "السلة غير موجود") := by
  decide

/-- C8, amended.  Once a checkout request for cart `cartID` has been answered
with 201, every later checkout request with the same cart id leaves the
connection, hence orders, order items and stock, as it found it, and is
answered with 404 "cart not found" provided its latitude and longitude are
empty or numbers and the cart lookup is answered.  More generally, the same
holds for every checkout request for a cart id that has no stored cart: it
writes nothing, and under the same proviso it is answered with 404. -/
theorem CreateOrderFromCartHandler_at_most_once [Zero F] [Add F] [Sub F] [Mul F] [IntCast F]
    [LE F] [∀ a b : F, Decidable (a ≤ b)] (env1 : Env) (c : Conn F) (r1 : CheckoutForm F)
    (cartID : UUID) (body : Payload F) (hid : r1.cart_id = .valid cartID)
    (h : (CreateOrderFromCartHandler env1 c r1).1 = .json 201 body) :
    (∀ (env2 : Env) (r2 : CheckoutForm F), r2.cart_id = .valid cartID →
      (CreateOrderFromCartHandler env2 (CreateOrderFromCartHandler env1 c r1).2 r2).2
        = (CreateOrderFromCartHandler env1 c r1).2 ∧
      (r2.delivery_latitude.isMalformed = false → r2.delivery_longitude.isMalformed = false →
        env2.failCartGet = false →
        (CreateOrderFromCartHandler env2 (CreateOrderFromCartHandler env1 c r1).2 r2).1
          = errorResponse 404 "السلة غير موجود")) ∧
    (∀ (env : Env) (d : Conn F) (r : CheckoutForm F) (id : UUID), r.cart_id = .valid id →
      d.committed.carts.find? (fun row => row.ID == id) = none →
      (CreateOrderFromCartHandler env d r).2 = d ∧
      (r.delivery_latitude.isMalformed = false → r.delivery_longitude.isMalformed = false →
        env.failCartGet = false →
        (CreateOrderFromCartHandler env d r).1 = errorResponse 404 "السلة غير موجود")) := by
  constructor
  · intro env2 r2 hid2
    exact CreateOrderFromCartHandler_absent env2 _ r2 cartID hid2
      (CreateOrderFromCartHandler_cart_gone hid h).1
  · intro env d r id hrid habs
    exact CreateOrderFromCartHandler_absent env d r id hrid habs

/-- C8 amended, on the sample store: after the checkout of cart 7, a second
request for cart 7, this time with coordinates, changes nothing and is answered
with 404. -/
theorem CreateOrderFromCartHandler_at_most_once_witness :
    (CreateOrderFromCartHandler Sample.env
        (CreateOrderFromCartHandler Sample.env Sample.conn (Sample.addressForm 7)).2
        (Sample.coordinatesForm 7)).2
      = (CreateOrderFromCartHandler Sample.env Sample.conn (Sample.addressForm 7)).2 ∧
    (CreateOrderFromCartHandler Sample.env
        (CreateOrderFromCartHandler Sample.env Sample.conn (Sample.addressForm 7)).2
        (Sample.coordinatesForm 7)).1
      = errorResponse 404 "السلة غير موجود" :=
  have key := (CreateOrderFromCartHandler_at_most_once Sample.env Sample.conn
    (Sample.addressForm 7) 7
    (.orderCreated "تم إنشاء الطلب بنجاح"
      { Sample.order with ID := 100, TotalPrice := 330, CreatedAt := 5, UpdatedAt := 5 }
      Sample.items)
    rfl (by decide)).1 Sample.env (Sample.coordinatesForm 7) rfl
  ⟨key.1, key.2 rfl rfl rfl⟩

/-! ### C9: attempts that overlap -/

/-- C9 as stated fails: two requests for cart 7 whose handlers both load the
cart and its two items before either calls `CreateFromCart`, then run
`CreateFromCart` one after the other.  Both are answered with 201; the store
ends with two orders (100 and 101) for the one cart, four order items, and the
stock of product 1 decremented twice (10 to 6). -/
theorem CreateOrderFromCartHandler_overlapped_counterexample :
    (CreateOrderFromCartHandler.overlapped Sample.env Sample.env2 Sample.conn
      (Sample.addressForm 7) (Sample.addressForm 7)).1.isCreated = true ∧
    (CreateOrderFromCartHandler.overlapped Sample.env Sample.env2 Sample.conn
      (Sample.addressForm 7) (Sample.addressForm 7)).2.1.isCreated = true ∧
    (CreateOrderFromCartHandler.overlapped Sample.env Sample.env2 Sample.conn
      (Sample.addressForm 7) (Sample.addressForm 7)).2.2.committed.orders.map (fun o => o.ID)
      = [100, 101] ∧
    (CreateOrderFromCartHandler.overlapped Sample.env Sample.env2 Sample.conn
      (Sample.addressForm 7) (Sample.addressForm 7)).2.2.committed.order_items.map
        (fun line => (line.OrderID, line.ProductID, line.Quantity))
      = [(100, 1, 2), (100, 2, 3), (101, 1, 2), (101, 2, 3)] ∧
    ((CreateOrderFromCartHandler.overlapped Sample.env Sample.env2 Sample.conn
      (Sample.addressForm 7) (Sample.addressForm 7)).2.2.committed.product? 1).map
        (fun p => p.StockQuantity) = some 6 := by
  decide

/-- A reply is a 201 exactly when `isCreated` says so. -/
theorem Reply.isCreated_iff (reply : Reply F) :
    reply.isCreated = true ↔ ∃ body, reply = .json 201 body := by
  constructor
  · intro h
    unfold Reply.isCreated at h
    split at h
    · exact ⟨_, rfl⟩
    · simp at h
  · rintro ⟨body, rfl⟩
    rfl

/-- A checkout request for a cart id that has no stored cart is never answered
with a 201. -/
theorem CreateOrderFromCartHandler_absent_reply [Zero F] [Add F] [Sub F] [Mul F] [IntCast F]
    [LE F] [∀ a b : F, Decidable (a ≤ b)] (env : Env) (d : Conn F) (r : CheckoutForm F)
    (id : UUID) (hid : r.cart_id = .valid id)
    (habs : d.committed.carts.find? (fun row => row.ID == id) = none) :
    (CreateOrderFromCartHandler env d r).1.isCreated = false := by
  cases hc : (CreateOrderFromCartHandler env d r).1.isCreated with
  | false => rfl
  | true =>
    obtain ⟨body, hb⟩ := (Reply.isCreated_iff _).mp hc
    obtain ⟨cid, order, items, hprep, _⟩ := CreateOrderFromCartHandler_created hb
    obtain ⟨hcid, _, _, cart, hcart, _⟩ := CreateOrderFromCartHandler.prepare_ok hprep
    rw [hid] at hcid
    simp only [FormUUID.valid.injEq] at hcid
    subst hcid
    rw [CartDB.Get_db_absent _ habs] at hcart
    split at hcart <;> simp at hcart

/-- Requests for a cart id that has no stored cart, served one after the other:
none is answered with a 201, nothing is written, and each request with
well-formed coordinates whose cart lookup is answered gets the 404. -/
theorem CreateOrderFromCartHandler.serve_absent [Zero F] [Add F] [Sub F] [Mul F] [IntCast F]
    [LE F] [∀ a b : F, Decidable (a ≤ b)] (id : UUID) (reqs : List (Env × CheckoutForm F))
    (d : Conn F) (hreqs : ∀ q ∈ reqs, q.2.cart_id = .valid id)
    (habs : d.committed.carts.find? (fun row => row.ID == id) = none) :
    (CreateOrderFromCartHandler.serve reqs d).2 = d ∧
    (∀ reply ∈ (CreateOrderFromCartHandler.serve reqs d).1, reply.isCreated = false) ∧
    ((∀ q ∈ reqs, q.2.delivery_latitude.isMalformed = false ∧
        q.2.delivery_longitude.isMalformed = false ∧ q.1.failCartGet = false) →
      ∀ reply ∈ (CreateOrderFromCartHandler.serve reqs d).1,
        reply = errorResponse 404 "السلة غير موجود") := by
  induction reqs with
  | nil =>
    simp [CreateOrderFromCartHandler.serve]
  | cons q rest ih =>
    obtain ⟨env, r⟩ := q
    have hq : r.cart_id = .valid id := hreqs (env, r) (List.mem_cons_self _ _)
    have hrest : ∀ q ∈ rest, q.2.cart_id = .valid id :=
      fun q hq => hreqs q (List.mem_cons_of_mem _ hq)
    obtain ⟨hconn, h404⟩ := CreateOrderFromCartHandler_absent env d r id hq habs
    have hnot := CreateOrderFromCartHandler_absent_reply env d r id hq habs
    obtain ⟨ih1, ih2, ih3⟩ := ih hrest
    simp only [CreateOrderFromCartHandler.serve, hconn]
    refine ⟨ih1, ?_, ?_⟩
    · intro reply hreply
      rcases List.mem_cons.mp hreply with rfl | hmem
      · exact hnot
      · exact ih2 reply hmem
    · intro hwf reply hreply
      rcases List.mem_cons.mp hreply with rfl | hmem
      · obtain ⟨h1, h2, h3⟩ := hwf (env, r) (List.mem_cons_self _ _)
        exact h404 h1 h2 h3
      · exact ih3 (fun q hq => hwf q (List.mem_cons_of_mem _ hq)) reply hmem

/-- C9, amended.  Checkout attempts for one cart that are served one after the
other, each handler running to its end before the next starts: once an attempt
has been answered with 201, none of the attempts after it is answered with 201,
none of them writes anything, and each of them whose coordinates are well
formed and whose cart lookup is answered observes 404 "cart not found". -/
theorem CreateOrderFromCartHandler_serial [Zero F] [Add F] [Sub F] [Mul F] [IntCast F]
    [LE F] [∀ a b : F, Decidable (a ≤ b)] (cartID : UUID) (env1 : Env) (r1 : CheckoutForm F)
    (rest : List (Env × CheckoutForm F)) (c : Conn F) (body : Payload F)
    (hid : r1.cart_id = .valid cartID) (hrest : ∀ q ∈ rest, q.2.cart_id = .valid cartID)
    (h : (CreateOrderFromCartHandler env1 c r1).1 = .json 201 body) :
    (CreateOrderFromCartHandler.serve ((env1, r1) :: rest) c).2
      = (CreateOrderFromCartHandler env1 c r1).2 ∧
    (∀ reply ∈ (CreateOrderFromCartHandler.serve rest (CreateOrderFromCartHandler env1 c r1).2).1,
      reply.isCreated = false) ∧
    ((∀ q ∈ rest, q.2.delivery_latitude.isMalformed = false ∧
        q.2.delivery_longitude.isMalformed = false ∧ q.1.failCartGet = false) →
      ∀ reply ∈
        (CreateOrderFromCartHandler.serve rest (CreateOrderFromCartHandler env1 c r1).2).1,
        reply = errorResponse 404 "السلة غير موجود") := by
  have hgone := (CreateOrderFromCartHandler_cart_gone hid h).1
  obtain ⟨h1, h2, h3⟩ := CreateOrderFromCartHandler.serve_absent cartID rest _ hrest hgone
  refine ⟨?_, h2, h3⟩
  simp only [CreateOrderFromCartHandler.serve]
  exact h1

/-- C9 amended, on the sample store: three requests for cart 7 served one after
the other; the first is answered with 201, the two others with 404, and the
store is as the first request left it. -/
theorem CreateOrderFromCartHandler_serial_witness :
    (CreateOrderFromCartHandler Sample.env Sample.conn (Sample.addressForm 7)).1.isCreated
      = true ∧
    (CreateOrderFromCartHandler.serve
        [(Sample.env, Sample.addressForm 7), (Sample.env2, Sample.addressForm 7),
          (Sample.env2, Sample.coordinatesForm 7)] Sample.conn).2
      = (CreateOrderFromCartHandler Sample.env Sample.conn (Sample.addressForm 7)).2 ∧
    (∀ reply ∈ (CreateOrderFromCartHandler.serve
        [(Sample.env2, Sample.addressForm 7), (Sample.env2, Sample.coordinatesForm 7)]
        (CreateOrderFromCartHandler Sample.env Sample.conn (Sample.addressForm 7)).2).1,
      reply.isCreated = false) ∧
    (∀ reply ∈ (CreateOrderFromCartHandler.serve
        [(Sample.env2, Sample.addressForm 7), (Sample.env2, Sample.coordinatesForm 7)]
        (CreateOrderFromCartHandler Sample.env Sample.conn (Sample.addressForm 7)).2).1,
      reply = errorResponse 404 "السلة غير موجود") :=
  have key := CreateOrderFromCartHandler_serial 7 Sample.env (Sample.addressForm 7)
    [(Sample.env2, Sample.addressForm 7), (Sample.env2, Sample.coordinatesForm 7)] Sample.conn
    (.orderCreated "تم إنشاء الطلب بنجاح"
      { Sample.order with ID := 100, TotalPrice := 330, CreatedAt := 5, UpdatedAt := 5 }
      Sample.items)
    rfl (by decide) (by decide)
  ⟨by decide, key.1, key.2.1, key.2.2 (by decide)⟩

/-! ### C10: delivery validation -/

/-- A check that leaves the validator valid had its condition hold, on a
validator that was valid. -/
theorem validator.Validator.Check_valid {v : validator.Validator} {ok : Bool}
    {key message : String} (h : (v.Check ok key message).Valid = true) :
    ok = true ∧ v.Valid = true := by
  unfold validator.Validator.Check at h
  cases ok with
  | true => exact ⟨rfl, by simpa using h⟩
  | false =>
    exfalso
    simp only [Bool.false_eq_true, if_false] at h
    unfold validator.Validator.AddError at h
    split at h
    · rename_i hany
      unfold validator.Validator.Valid at h
      obtain ⟨e, he, _⟩ := List.any_eq_true.mp hany
      simp only [beq_iff_eq, List.length_eq_zero] at h
      rw [h] at he
      simp at he
    · simp [validator.Validator.Valid] at h

/-- An order header that passes `ValidateOrder` has a non-empty delivery
address, whatever its coordinates. -/
theorem ValidateOrder_valid_address [Zero F] [LE F] [∀ a b : F, Decidable (a ≤ b)]
    {v : validator.Validator} {order : Order F} (h : (ValidateOrder v order).Valid = true) :
    order.DeliveryAddress ≠ "" := by
  unfold ValidateOrder at h
  have := (validator.Validator.Check_valid h).1
  simpa using this

/-- The delivery data of the header the read-only part hands over: the address
is not empty; when the form carried an address or a coordinate, address and
coordinates are those of the form; when it carried none of the three, they are
the stored ones of the cart's user. -/
theorem CreateOrderFromCartHandler.prepare_ok_delivery [Zero F] [LE F]
    [∀ a b : F, Decidable (a ≤ b)]
    {env : Env} {c : Conn F} {r : CheckoutForm F} {cartID : UUID} {order : Order F}
    {items : List CartItem}
    (h : CreateOrderFromCartHandler.prepare env c r = .ok (cartID, order, items)) :
    order.DeliveryAddress ≠ "" ∧
    ((r.delivery_address == "" && r.delivery_latitude.value.isNone &&
        r.delivery_longitude.value.isNone) = false →
      order.DeliveryAddress = r.delivery_address ∧
      order.DeliveryLatitude = r.delivery_latitude.value ∧
      order.DeliveryLongitude = r.delivery_longitude.value) ∧
    ((r.delivery_address == "" && r.delivery_latitude.value.isNone &&
        r.delivery_longitude.value.isNone) = true →
      ∃ user, UserDB.GetUser .db env.failGetUser c order.UserID = .ok user ∧
        order.DeliveryAddress = (match user.AddressText with
          | some a => a
          | none => "") ∧
        order.DeliveryLatitude = user.Latitude ∧
        order.DeliveryLongitude = user.Longitude) := by
  unfold CreateOrderFromCartHandler.prepare at h
  split at h
  · simp at h
  · dsimp only at h
    split at h
    · simp at h
    · split at h
      · simp at h
      · split at h
        · simp at h
        · rename_i cart hcart
          split at h
          · simp at h
          · split at h
            · simp at h
            · split at h
              · simp at h
              · rename_i addr la lo hfb
                split at h
                · simp at h
                · rename_i storeID hstore
                  split at h
                  · simp at h
                  · rename_i hvalid
                    simp only [Except.ok.injEq, Prod.mk.injEq] at h
                    obtain ⟨h1, h2, h3⟩ := h
                    subst h1 h2 h3
                    dsimp only
                    simp only [Bool.not_eq_true', Bool.not_eq_false] at hvalid
                    have hv := (validator.Validator.Check_valid hvalid).2
                    refine ⟨ValidateOrder_valid_address hv, ?_, ?_⟩
                    · intro hcond
                      rw [hcond] at hfb
                      simp only [Bool.false_eq_true, if_false, Except.ok.injEq,
                        Prod.mk.injEq] at hfb
                      exact ⟨hfb.1.symm, hfb.2.1.symm, hfb.2.2.symm⟩
                    · intro hcond
                      rw [hcond] at hfb
                      simp only [if_true] at hfb
                      split at hfb
                      · simp at hfb
                      · rename_i user huser
                        simp only [Except.ok.injEq, Prod.mk.injEq] at hfb
                        exact ⟨user, huser, hfb.1.symm, hfb.2.1.symm, hfb.2.2.symm⟩

/-- A request that supplies a coordinate and no address is never answered with a
201 and writes nothing: the header keeps the empty address of the form and
`ValidateOrder` rejects it.  In particular this is so when both coordinates
are supplied. -/
theorem CreateOrderFromCartHandler_coordinates_rejected [Zero F] [Add F] [Sub F] [Mul F]
    [IntCast F] [LE F] [∀ a b : F, Decidable (a ≤ b)] (env : Env) (c : Conn F)
    (r : CheckoutForm F) (haddr : r.delivery_address = "")
    (hsome : r.delivery_latitude.value.isSome = true ∨
      r.delivery_longitude.value.isSome = true) :
    (CreateOrderFromCartHandler env c r).1.isCreated = false ∧
    (CreateOrderFromCartHandler env c r).2 = c := by
  have hprep : ∃ reply, CreateOrderFromCartHandler.prepare env c r = .error reply := by
    cases hp : CreateOrderFromCartHandler.prepare env c r with
    | error reply => exact ⟨reply, rfl⟩
    | ok triple =>
      exfalso
      obtain ⟨cartID, order, items⟩ := triple
      obtain ⟨hne, hform, _⟩ := CreateOrderFromCartHandler.prepare_ok_delivery hp
      have hcond : (r.delivery_address == "" && r.delivery_latitude.value.isNone &&
          r.delivery_longitude.value.isNone) = false := by
        rcases hsome with hs | hs
        · obtain ⟨v, hv⟩ := Option.isSome_iff_exists.mp hs
          simp [hv]
        · obtain ⟨v, hv⟩ := Option.isSome_iff_exists.mp hs
          simp [hv]
      exact hne ((hform hcond).1.trans haddr)
  obtain ⟨reply, hreply⟩ := hprep
  unfold CreateOrderFromCartHandler
  rw [hreply]
  refine ⟨?_, rfl⟩
  cases hc : reply.isCreated with
  | false => rfl
  | true =>
    obtain ⟨body, hb⟩ := (Reply.isCreated_iff _).mp hc
    exact absurd hb (CreateOrderFromCartHandler.prepare_error hreply body)

/-- C10, at the failing input: cart 7 exists, is bound to a store and has two
items that are in stock; the request supplies latitude 32 and longitude 13 and
no address.  The handler answers 422 with the `delivery_address` error of
`ValidateOrder` and leaves the store untouched, although both coordinates are
present. -/
theorem CreateOrderFromCartHandler_coordinates_only :
    CreateOrderFromCartHandler Sample.env Sample.conn (Sample.coordinatesForm 7)
      = (.json 422 (.fieldErrors [("delivery_address", "يجب إدخال عنوان التوصيل")]),
          Sample.conn) := by
  decide

/-! ### C11 and C13: the header of the created order -/

/-- The header `CreateFromCart` persists when it reports no error: the order
handed back is the caller's header with the total, the fresh id and the
timestamps filled in, and it is the one row appended to `orders`. -/
theorem OrderDB.CreateFromCart_header [Zero F] [Add F] [Sub F] [Mul F] [IntCast F]
    (env : Env) (c : Conn F) (order : Order F) (cartID : UUID) (cartItems : List CartItem)
    (h : (OrderDB.CreateFromCart env c order cartID cartItems).err = none) :
    (∃ total, (OrderDB.CreateFromCart env c order cartID cartItems).order
      = env.stamped order total) ∧
    (OrderDB.CreateFromCart env c order cartID cartItems).conn.committed.orders
      = c.committed.orders ++ [(OrderDB.CreateFromCart env c order cartID cartItems).order] := by
  obtain ⟨total, c2, c3, t3, hval, hloop, hclear, ht3, hord, hconn⟩ :=
    OrderDB.CreateFromCart_ok env c order cartID cartItems h
  obtain ⟨t2, _, h2, _, _, _, _, ho, _, _⟩ :=
    OrderDB.CreateFromCart.createItems_ok env env.orderID cartItems 0 _ c2 _ rfl hloop
  obtain ⟨_, h3⟩ := OrderDB.CreateFromCart.clearItems_ok env cartItems 0 c2 c3 t2 h2 hclear
  rw [ht3] at h3
  simp only [Option.some.injEq] at h3
  refine ⟨⟨total, hord⟩, ?_⟩
  rw [hconn, hord, h3]
  exact ho

/-- A user lookup through the pool that is answered returns the first stored row
with that id. -/
theorem UserDB.GetUser_db {fail : Bool} {c : Conn F} {id : UUID} {user : User F}
    (h : UserDB.GetUser .db fail c id = .ok user) :
    c.committed.users.find? (fun row => row.ID == id) = some user := by
  unfold UserDB.GetUser at h
  cases fail with
  | true => simp at h
  | false =>
    simp only [Bool.false_eq_true, if_false, Conn.rows] at h
    split at h
    · simp at h
    · rename_i row hrow
      simp only [Except.ok.injEq] at h
      rw [← h]
      exact hrow

/-- C11 (delivery fallback).  Let a checkout request carry no delivery address,
no latitude and no longitude, and let the user who owns its cart be stored with
address `a`.  If the request is answered with 201, the order it created, which
is the row appended to `orders`, has `delivery_address` equal to `a` (which is
then not empty) and its latitude and longitude are the stored ones of that
user. -/
theorem CreateOrderFromCartHandler_fallback [Zero F] [Add F] [Sub F] [Mul F] [IntCast F]
    [LE F] [∀ a b : F, Decidable (a ≤ b)] (env : Env) (c : Conn F) (r : CheckoutForm F)
    (cartID : UUID) (cart : Cart) (user : User F) (a message : String) (order : Order F)
    (items : List CartItem)
    (haddr : r.delivery_address = "") (hlat : r.delivery_latitude = .empty)
    (hlon : r.delivery_longitude = .empty) (hid : r.cart_id = .valid cartID)
    (hcart : CartDB.Get .db env.failCartGet c cartID = .ok cart)
    (huser : c.committed.users.find? (fun row => row.ID == cart.UserID) = some user)
    (hstored : user.AddressText = some a)
    (h : (CreateOrderFromCartHandler env c r).1 = .json 201 (.orderCreated message order items)) :
    order.DeliveryAddress = a ∧ a ≠ "" ∧
    order.DeliveryLatitude = user.Latitude ∧ order.DeliveryLongitude = user.Longitude ∧
    (CreateOrderFromCartHandler env c r).2.committed.orders = c.committed.orders ++ [order] := by
  obtain ⟨cid, header, its, hprep, herr, hconn, hbody⟩ := CreateOrderFromCartHandler_created h
  simp only [Payload.orderCreated.injEq] at hbody
  obtain ⟨_, horder, _⟩ := hbody
  obtain ⟨hcid, _, _, cart1, hcart1, _, _, _, howner, _⟩ :=
    CreateOrderFromCartHandler.prepare_ok hprep
  rw [hid] at hcid
  simp only [FormUUID.valid.injEq] at hcid
  subst hcid
  rw [hcart] at hcart1
  simp only [Except.ok.injEq] at hcart1
  subst hcart1
  obtain ⟨hne, _, hfall⟩ := CreateOrderFromCartHandler.prepare_ok_delivery hprep
  have hcond : (r.delivery_address == "" && r.delivery_latitude.value.isNone &&
      r.delivery_longitude.value.isNone) = true := by
    simp [haddr, hlat, hlon, FormFloat.value]
  obtain ⟨user1, huser1, hda, hla, hlo⟩ := hfall hcond
  have hfound := UserDB.GetUser_db huser1
  rw [howner, huser] at hfound
  simp only [Option.some.injEq] at hfound
  subst hfound
  rw [hstored] at hda
  dsimp only at hda
  obtain ⟨⟨total, hst⟩, hrows⟩ := OrderDB.CreateFromCart_header env c header cartID its herr
  have hfields : order.DeliveryAddress = header.DeliveryAddress ∧
      order.DeliveryLatitude = header.DeliveryLatitude ∧
      order.DeliveryLongitude = header.DeliveryLongitude := by
    rw [horder, hst]
    exact ⟨rfl, rfl, rfl⟩
  refine ⟨hfields.1.trans hda, ?_, hfields.2.1.trans hla, hfields.2.2.trans hlo, ?_⟩
  · rw [← hda]
    exact hne
  · rw [hconn, hrows, horder]

/-- C11, on the sample store: user 3 is stored with the address "12 Nile St" and
without coordinates; the checkout of the user's cart 7 without delivery fields
is answered with 201 and the order carries that address. -/
theorem CreateOrderFromCartHandler_fallback_witness :
    ∃ order : Order Int,
      (CreateOrderFromCartHandler Sample.env Sample.conn (Sample.bareForm 7)).1
        = .json 201 (.orderCreated "تم إنشاء الطلب بنجاح" order Sample.items) ∧
      order.DeliveryAddress = "12 Nile St" ∧ "12 Nile St" ≠ "" ∧
      order.DeliveryLatitude = none ∧ order.DeliveryLongitude = none ∧
      (CreateOrderFromCartHandler Sample.env Sample.conn (Sample.bareForm 7)).2.committed.orders
        = Sample.conn.committed.orders ++ [order] :=
  ⟨{ Sample.order with
      ID := 100, TotalPrice := 330, DeliveryAddress := "12 Nile St", CreatedAt := 5
      UpdatedAt := 5 },
    by decide,
    CreateOrderFromCartHandler_fallback Sample.env Sample.conn (Sample.bareForm 7) 7
      { ID := 7, UserID := 3, StoreID := some 9, CreatedAt := 0, UpdatedAt := 0 }
      { ID := 3, AddressText := some "12 Nile St", Latitude := none, Longitude := none }
      "12 Nile St" "تم إنشاء الطلب بنجاح"
      { Sample.order with
        ID := 100, TotalPrice := 330, DeliveryAddress := "12 Nile St", CreatedAt := 5
        UpdatedAt := 5 }
      Sample.items rfl rfl rfl rfl (by decide) (by decide) rfl (by decide)⟩

/-- C13 (initial status).  Whatever the checkout request carries, the `orders`
table after it is the table before it, or the table before it followed by one
new row, and that row has status "pending".  (The handler reads no status
field from the form.) -/
theorem CreateOrderFromCartHandler_pending [Zero F] [Add F] [Sub F] [Mul F] [IntCast F]
    [LE F] [∀ a b : F, Decidable (a ≤ b)] (env : Env) (c : Conn F) (r : CheckoutForm F) :
    (CreateOrderFromCartHandler env c r).2.committed.orders = c.committed.orders ∨
    ∃ order, (CreateOrderFromCartHandler env c r).2.committed.orders
        = c.committed.orders ++ [order] ∧ order.Status = "pending" := by
  unfold CreateOrderFromCartHandler
  cases hprep : CreateOrderFromCartHandler.prepare env c r with
  | error reply => exact Or.inl rfl
  | ok triple =>
    obtain ⟨cartID, header, items⟩ := triple
    obtain ⟨_, _, _, cart, _, _, _, _, _, hstatus, _⟩ :=
      CreateOrderFromCartHandler.prepare_ok hprep
    simp only [CreateOrderFromCartHandler.finish]
    cases herr : (OrderDB.CreateFromCart env c header cartID items).err with
    | some err =>
      left
      have := OrderDB.CreateFromCart_ok_or_unchanged env c header cartID items
      rw [herr] at this
      rcases this with h1 | h1
      · cases h1
      · show (OrderDB.CreateFromCart env c header cartID items).conn.committed.orders = _
        rw [h1]
    | none =>
      right
      obtain ⟨⟨total, hst⟩, hrows⟩ :=
        OrderDB.CreateFromCart_header env c header cartID items herr
      refine ⟨_, hrows, ?_⟩
      rw [hst]
      exact hstatus

/-! ### C14: the items sent back -/

/-- The items a 201 reply carries are the cart items that were listed for the
cart before `CreateFromCart` ran, that is rows of `cart_items`; none of them is
stored any more when the reply is sent. -/
theorem CreateOrderFromCartHandler_returns_cart_items [Zero F] [Add F] [Sub F] [Mul F]
    [IntCast F] [LE F] [∀ a b : F, Decidable (a ≤ b)] (env : Env) (c : Conn F)
    (r : CheckoutForm F) (cartID : UUID) (message : String) (order : Order F)
    (items : List CartItem) (hid : r.cart_id = .valid cartID)
    (h : (CreateOrderFromCartHandler env c r).1 = .json 201 (.orderCreated message order items)) :
    items = c.committed.cart_items.filter (fun row => row.CartID == cartID) ∧
    ∀ item ∈ items, item ∉ (CreateOrderFromCartHandler env c r).2.committed.cart_items := by
  obtain ⟨cid, header, its, hprep, herr, hconn, hbody⟩ := CreateOrderFromCartHandler_created h
  simp only [Payload.orderCreated.injEq] at hbody
  obtain ⟨_, _, hitems⟩ := hbody
  subst hitems
  obtain ⟨hcid, _, _, cart, _, hlist, _⟩ := CreateOrderFromCartHandler.prepare_ok hprep
  rw [hid] at hcid
  simp only [FormUUID.valid.injEq] at hcid
  subst hcid
  have hl := CartItemDB.ListByCart_db hlist
  refine ⟨hl, ?_⟩
  intro item hitem hstored
  have hgone := (CreateOrderFromCartHandler_cart_gone hid h).2 item hstored
  rw [hl] at hitem
  have := (List.mem_filter.mp hitem).2
  exact hgone (by simpa using this)

/-- C14, at the failing input: the checkout of cart 7 on the sample store is
answered with 201; the `items` of the reply are the two cart items 11 and 12,
which are no longer stored, while the order items persisted for the new order
are the rows 200 and 201 with their `price_at_order`. -/
theorem CreateOrderFromCartHandler_returned_items :
    (CreateOrderFromCartHandler Sample.env Sample.conn (Sample.addressForm 7)).1
      = .json 201 (.orderCreated "تم إنشاء الطلب بنجاح"
          { Sample.order with ID := 100, TotalPrice := 330, CreatedAt := 5, UpdatedAt := 5 }
          [ { ID := 11, CartID := 7, ProductID := 1, Quantity := 2, CreatedAt := 0
              UpdatedAt := 0 },
            { ID := 12, CartID := 7, ProductID := 2, Quantity := 3, CreatedAt := 0
              UpdatedAt := 0 } ]) ∧
    (CreateOrderFromCartHandler Sample.env Sample.conn
      (Sample.addressForm 7)).2.committed.cart_items = [] ∧
    (CreateOrderFromCartHandler Sample.env Sample.conn
      (Sample.addressForm 7)).2.committed.order_items
      = [ { ID := 200, OrderID := 100, ProductID := 1, Quantity := 2, PriceAtOrder := 90
            CreatedAt := 5 },
          { ID := 201, OrderID := 100, ProductID := 2, Quantity := 3, PriceAtOrder := 50
            CreatedAt := 5 } ] := by
  decide

/-! ### C15: how a stock error is surfaced -/

/-- Whatever error `CreateFromCart` returns, the handler answers 500 with the
fixed server-error message; the text of the error reaches the log only.  In
particular, when the header was handed over, the cart items reference stored
products, the product reads are answered and `bad` is the first item that is
unavailable or under-stocked, the reply is that 500, it does not depend on the
product of `bad`, and nothing is written. -/
theorem CreateOrderFromCartHandler_stock_error [Zero F] [Add F] [Sub F] [Mul F] [IntCast F]
    [LE F] [∀ a b : F, Decidable (a ≤ b)] (env : Env) (c : Conn F) (r : CheckoutForm F)
    (cartID : UUID) (header : Order F) (items : List CartItem) (bad : CartItem)
    (hprep : CreateOrderFromCartHandler.prepare env c r = .ok (cartID, header, items))
    (href : ∀ item ∈ items, (c.committed.product? item.ProductID).isSome = true)
    (hread : ∀ k, env.failValidateGet k = false)
    (hbad : items.find? c.committed.understocked = some bad) :
    CreateOrderFromCartHandler env c r
      = (.json 500
          (.error "the server encountered a problem and could not process your request"), c) := by
  unfold CreateOrderFromCartHandler
  rw [hprep]
  simp only [CreateOrderFromCartHandler.finish, OrderDB.CreateFromCart]
  rw [OrderDB.CreateFromCart.validate_rejects env c items 0 0 bad href hread hbad]
  rfl

/-- C15, at the failing input: cart 7 holds an item asking for 11 units of
product 2, which has 10.  `CreateFromCart` returns the error naming product 2;
the handler answers 500 with the fixed message, which names no product, and
writes nothing. -/
theorem CreateOrderFromCartHandler_stock_error_reply :
    (OrderDB.CreateFromCart Sample.env Sample.greedyConn Sample.order 7 Sample.greedyItems).err
      = some (.errorfS "product %s is not available or insufficient stock" 2) ∧
    CreateOrderFromCartHandler Sample.env Sample.greedyConn (Sample.addressForm 7)
      = (.json 500
          (.error "the server encountered a problem and could not process your request"),
          Sample.greedyConn) := by
  decide

/-! ### C17: what a checkout writes back to a product -/

/-- The loop creating the order items, when it runs to its end over items with
pairwise distinct products whose rows in the working copy are still the
committed ones: every listed product ends as `Product.CheckedOut` describes,
and every product that is not listed reads as before the loop. -/
theorem OrderDB.CreateFromCart.createItems_rows [Sub F] (env : Env) (orderID : UUID)
    (items : List CartItem) (i : Nat) (c c2 : Conn F) (t : Tables F) (hc : c.tx = some t)
    (hrows : ∀ item ∈ items, t.product? item.ProductID = c.committed.product? item.ProductID)
    (hnodup : (items.map fun item => item.ProductID).Nodup)
    (h : OrderDB.CreateFromCart.createItems env orderID items i c = (none, c2)) :
    ∃ t2, c2.tx = some t2 ∧
      (∀ item ∈ items, ∃ p p2, c.committed.product? item.ProductID = some p ∧
        t2.product? item.ProductID = some p2 ∧ p.CheckedOut p2 item.Quantity) ∧
      (∀ id, id ∉ items.map (fun item => item.ProductID) → t2.product? id = t.product? id) := by
  induction items generalizing i c t with
  | nil =>
    simp [OrderDB.CreateFromCart.createItems] at h
    subst h
    exact ⟨t, hc, by simp, by simp⟩
  | cons item rest ih =>
    unfold OrderDB.CreateFromCart.createItems at h
    split at h
    · simp at h
    · rename_i product hget
      obtain ⟨row, hrow, hp⟩ := ProductDB.Get_db hget
      dsimp only at h
      split at h
      · simp at h
      · rename_i line c1 hins
        obtain ⟨_, t0, ht0, hc1, hx1⟩ := OrderItemDB.Insert_item_tx hins
        rw [hc] at ht0
        simp only [Option.some.injEq] at ht0
        subst ht0
        split at h
        · simp at h
        · rename_i c1b hupd
          obtain ⟨t1, ht1, hc1b, hx1b⟩ := ProductDB.Update_tx hupd
          rw [hx1] at ht1
          simp only [Option.some.injEq] at ht1
          subst ht1
          obtain ⟨tnew, htnew⟩ : ∃ tnew : Tables F, c1b.tx = some tnew := ⟨_, hx1b⟩
          have hprod := hx1b.symm.trans htnew
          simp only [Option.some.injEq] at hprod
          have hrowid : row.ID = item.ProductID := by
            have := List.find?_some hrow
            simpa using this
          have hpid : product.ID = item.ProductID := by
            rw [hp]
            exact hrowid
          have hother : ∀ x, x ≠ item.ProductID → tnew.product? x = t.product? x := by
            intro x hx
            rw [← hprod]
            unfold Tables.product?
            dsimp only
            rw [Tables.find?_update]
            · rw [if_neg]
              rw [hpid]
              exact hx
            · intro r
              rfl
          have ht_row : t.product? item.ProductID = some row := by
            rw [hrows item (List.mem_cons_self _ _)]
            exact hrow
          have hsame : ∃ r1, tnew.product? item.ProductID = some r1 ∧
              row.CheckedOut r1 item.Quantity := by
            rw [← hprod]
            unfold Tables.product? at ht_row ⊢
            dsimp only
            rw [Tables.find?_update]
            · rw [if_pos hpid.symm, ht_row]
              refine ⟨_, rfl, ?_⟩
              simp [Product.CheckedOut, hp]
            · intro r
              rfl
          have hcc : c1b.committed = c.committed := hc1b.trans hc1
          have hnd : item.ProductID ∉ rest.map (fun item => item.ProductID) ∧
              (rest.map fun item => item.ProductID).Nodup := by
            rw [List.map_cons] at hnodup
            exact List.nodup_cons.mp hnodup
          have hrows1 : ∀ it ∈ rest,
              tnew.product? it.ProductID = c1b.committed.product? it.ProductID := by
            intro it hit
            have hne : it.ProductID ≠ item.ProductID := by
              intro heq
              exact hnd.1 (List.mem_map.mpr ⟨it, hit, heq⟩)
            rw [hother _ hne, hcc]
            exact hrows it (List.mem_cons_of_mem _ hit)
          obtain ⟨t2, h2, hitems, hframe⟩ := ih _ _ _ htnew hrows1 hnd.2 h
          refine ⟨t2, h2, ?_, ?_⟩
          · intro it hit
            rcases List.mem_cons.mp hit with rfl | hmem
            · obtain ⟨r1, hr1, hq⟩ := hsame
              have := hframe it.ProductID hnd.1
              rw [hr1] at this
              exact ⟨row, r1, hrow, this, hq⟩
            · obtain ⟨p, p2, h1, h2', h3⟩ := hitems it hmem
              rw [hcc] at h1
              exact ⟨p, p2, h1, h2', h3⟩
          · intro id hid
            have hid' : id ≠ item.ProductID ∧ id ∉ rest.map fun item => item.ProductID := by
              simpa using hid
            rw [hframe id hid'.2, hother id hid'.1]

/-- What a checkout that reports no error leaves of the products its items
reference, the items referencing pairwise distinct products: each is stored
before and after; name, description, price, discount, availability and store
are kept and the stock is decremented; the stored image, however, is replaced
by the image as `ProductDB.Get` read it, that is by
`productImageColumn` of the stored image. -/
theorem OrderDB.CreateFromCart_product_fields [Zero F] [Add F] [Sub F] [Mul F] [IntCast F]
    (env : Env) (c : Conn F) (order : Order F) (cartID : UUID) (cartItems : List CartItem)
    (h : (OrderDB.CreateFromCart env c order cartID cartItems).err = none)
    (hnodup : (cartItems.map fun item => item.ProductID).Nodup) :
    ∀ item ∈ cartItems, ∃ p p2, c.committed.product? item.ProductID = some p ∧
      (OrderDB.CreateFromCart env c order cartID cartItems).conn.committed.product?
        item.ProductID = some p2 ∧
      p.CheckedOut p2 item.Quantity := by
  obtain ⟨total, c2, c3, t3, hval, hloop, hclear, ht3, hord, hconn⟩ :=
    OrderDB.CreateFromCart_ok env c order cartID cartItems h
  obtain ⟨t2, h2, hitems, _⟩ :=
    OrderDB.CreateFromCart.createItems_rows env env.orderID cartItems 0
      { committed := c.committed
        tx := some { c.committed with
          orders := c.committed.orders ++ [env.stamped order total] } }
      c2 { c.committed with orders := c.committed.orders ++ [env.stamped order total] } rfl
      (fun _ _ => rfl) hnodup hloop
  obtain ⟨_, h3⟩ := OrderDB.CreateFromCart.clearItems_ok env cartItems 0 c2 c3 t2 h2 hclear
  rw [ht3] at h3
  simp only [Option.some.injEq] at h3
  intro item hitem
  obtain ⟨p, p2, h1, h2', hq⟩ := hitems item hitem
  refine ⟨p, p2, h1, ?_, hq⟩
  rw [hconn, h3]
  exact h2'

/-- C17, at the failing input: product 1 is stored with image "tea.png".  After
the checkout of cart 7, which succeeds, its row has the same name, description,
price, discount, availability and store, stock 8 instead of 10, and the image
"http://localhost:8080/tea.png": the URL `ProductDB.Get` computed was written
back as the stored image. -/
theorem OrderDB.CreateFromCart_rewrites_image :
    (OrderDB.CreateFromCart Sample.env Sample.conn Sample.order 7 Sample.items).err = none ∧
    (Sample.conn.committed.product? 1).map (fun p => p.Image) = some (some "tea.png") ∧
    (OrderDB.CreateFromCart Sample.env Sample.conn Sample.order 7
      Sample.items).conn.committed.product? 1
      = some { ID := 1, StoreID := 9, Name := "tea", Description := none, Price := 100
               Discount := 10, Image := some "http://localhost:8080/tea.png"
               StockQuantity := 8, IsAvailable := true, CreatedAt := 0, UpdatedAt := 5 } := by
  decide

/-! ### C16: how a missing record is classified -/

/-- An error made by `fmt.Errorf` without cause is no case of
`handleRetrievalError`: it is answered as a server error. -/
theorem handleRetrievalError_errorf (format : String) :
    (handleRetrievalError (.errorf format) : Reply F) = serverErrorResponse (.errorf format) := by
  rfl

/-- An error made by `fmt.Errorf` around a cause is no case of
`handleRetrievalError` either. -/
theorem handleRetrievalError_errorfV (format : String) (cause : Error) :
    (handleRetrievalError (.errorfV format cause) : Reply F)
      = serverErrorResponse (.errorfV format cause) := by
  rfl

/-- An order lookup through the pool on tables without an order of that id: the
answer is the fresh error `order not found`, unless the lookup itself fails. -/
theorem OrderDB.Get_order_absent (fail : Bool) {c : Conn F} {id : UUID}
    (h : c.committed.orders.find? (fun row => row.ID == id) = none) :
    OrderDB.Get .db fail c id
      = if fail then .error (.errorfV "error getting order: %v" .driver)
        else .error (.errorf "order not found") := by
  unfold OrderDB.Get
  cases fail with
  | true => rfl
  | false => simp [Conn.rows, h]

/-- No request gets a 404 from `GetOrderHandler`. -/
theorem GetOrderHandler_never_404 (failGet failList : Bool) (c : Conn F) (id : FormUUID)
    (body : Payload F) : GetOrderHandler failGet failList c id ≠ .json 404 body := by
  unfold GetOrderHandler
  split
  · simp [badRequestResponse, errorResponse]
  · rename_i id
    split
    · rename_i err hget
      unfold OrderDB.Get at hget
      split at hget
      · cases hget
        simp [handleRetrievalError_errorfV, serverErrorResponse, errorResponse]
      · split at hget
        · cases hget
          simp [handleRetrievalError_errorf, serverErrorResponse, errorResponse]
        · cases hget
    · split
      · simp [serverErrorResponse, errorResponse]
      · simp

/-- C16 (refuted for orders): an id without stored record is answered with 404
when it is a cart id (delete-cart) or a product id (add-item), but
`GetOrderHandler` answers an order id without stored record with the 500 of a
server error: `OrderDB.Get` reports it with the fresh error `order not found`,
which is not `ErrOrderNotFound`, the value `handleRetrievalError` maps to 404. -/
theorem GetOrderHandler_missing_order :
    (DeleteCartHandler Sample.cartEnv Sample.conn { user := .valid 3, id := .valid 999 }).1
      = .json 404 (.error "السلة غير موجود") ∧
    (AddCartItemHandler Sample.cartEnv Sample.conn
        { user := .valid 3, product_id := .valid 999, quantity := .number 1,
          cart_id := .empty }).1
      = .json 404 (.error "المنتج غير موجود") ∧
    (handleRetrievalError (.sentinel .ErrOrderNotFound) : Reply Int)
      = .json 404 (.error "الطلب غير موجود") ∧
    OrderDB.Get .db false Sample.conn 999 = .error (.errorf "order not found") ∧
    GetOrderHandler false false Sample.conn (.valid 999)
      = .json 500 (.error "the server encountered a problem and could not process your request") := by
  decide

/-! ### C20: update-quantity -/

/-- A cart item passes `ValidateCartItem` exactly when it names a cart and a
product and its quantity is positive. -/
theorem ValidateCartItem_valid (item : CartItem) :
    (ValidateCartItem validator.New item).Valid = true ↔
      item.CartID ≠ uuid.Nil ∧ item.ProductID ≠ uuid.Nil ∧ 0 < item.Quantity := by
  constructor
  · intro h
    unfold ValidateCartItem at h
    obtain ⟨h3, h⟩ := validator.Validator.Check_valid h
    obtain ⟨h2, h⟩ := validator.Validator.Check_valid h
    obtain ⟨h1, _⟩ := validator.Validator.Check_valid h
    simp only [bne_iff_ne, ne_eq, decide_eq_true_eq, gt_iff_lt] at h1 h2 h3
    exact ⟨h1, h2, h3⟩
  · rintro ⟨h1, h2, h3⟩
    have e1 : (item.CartID != uuid.Nil) = true := by simpa using h1
    have e2 : (item.ProductID != uuid.Nil) = true := by simpa using h2
    have e3 : decide (item.Quantity > 0) = true := by simpa using h3
    simp only [ValidateCartItem, e1, e2, e3, validator.Validator.Check, if_true]
    rfl

/-- A cart-item lookup through the pool that is answered returns the first
stored row of that id. -/
theorem CartItemDB.Get_item_stored {c : Conn F} {id : UUID} {item : CartItem}
    (h : c.committed.cart_items.find? (fun row => row.ID == id) = some item) :
    CartItemDB.Get .db false c id = .ok item := by
  simp [CartItemDB.Get, Conn.rows, h]

/-- A request that `UpdateCartItemHandler` does not answer with its success
reply leaves the connection as it was. -/
theorem UpdateCartItemHandler_rejected (env : CartEnv) (c : Conn F) (r : UpdateCartItemForm)
    (h : (UpdateCartItemHandler env c r).1.isUpdated = false) :
    (UpdateCartItemHandler env c r).2 = c := by
  revert h
  unfold UpdateCartItemHandler
  split
  · intro _; rfl
  · split
    · intro _; rfl
    · split
      · intro _; rfl
      · dsimp only
        split
        · intro _; rfl
        · split
          · intro _; rfl
          · split
            · intro _; rfl
            · split
              · intro _; rfl
              · intro h
                simp [Reply.isUpdated] at h

/-- What `UpdateCartItemHandler` does once the item is loaded and carries the
quantity asked for, when the reads and the write are answered. -/
theorem UpdateCartItemHandler_loaded (env : CartEnv) (c : Conn F) (r : UpdateCartItemForm)
    (id : UUID) (item : CartItem) (q : Int) (hid : r.id = .valid id)
    (hitem : c.committed.cart_items.find? (fun row => row.ID == id) = some item)
    (hq : r.newQuantity item.Quantity = some q)
    (hcart : item.CartID ≠ uuid.Nil) (hproduct : item.ProductID ≠ uuid.Nil)
    (hget : env.failItemGet = false) (hread : env.failProductGet = false)
    (hwrite : env.failItemUpdate = false) :
    ((UpdateCartItemHandler env c r).1.isUpdated = true ↔
      (0 < q ∧ ∃ p, c.committed.product? item.ProductID = some p ∧
        p.IsAvailable = true ∧ q ≤ p.StockQuantity)) := by
  have hsel : r.applied item = some { item with Quantity := q } := by
    unfold UpdateCartItemForm.newQuantity at hq
    unfold UpdateCartItemForm.applied
    cases hr : r.quantity with
    | empty => rw [hr] at hq; simp at hq; subst hq; rfl
    | malformed => rw [hr] at hq; simp at hq
    | number val => rw [hr] at hq; simp at hq; subst hq; rfl
  unfold UpdateCartItemHandler
  rw [hid]
  dsimp only
  rw [hget, CartItemDB.Get_item_stored hitem]
  dsimp only
  rw [hsel]
  dsimp only
  by_cases hpos : 0 < q
  · have hv : (ValidateCartItem validator.New { item with Quantity := q }).Valid = true :=
      (ValidateCartItem_valid _).mpr ⟨hcart, hproduct, hpos⟩
    rw [hv, hread]
    simp only [Bool.not_true, Bool.false_eq_true, if_false]
    cases hp : c.committed.product? item.ProductID with
    | none =>
      have : ProductDB.Get .db false c item.ProductID = .error (.sentinel .ErrProductNotFound) := by
        unfold Tables.product? at hp
        simp [ProductDB.Get, Conn.rows, hp]
      rw [this]
      simp [hpos, Reply.isUpdated, handleRetrievalError, handleRetrievalError.cases, errors.Is,
        errorResponse]
    | some p =>
      rw [ProductDB.Get_db_stored hp]
      dsimp only
      by_cases hok : p.IsAvailable = true ∧ q ≤ p.StockQuantity
      · have : (!p.IsAvailable || decide (p.StockQuantity < q)) = false := by
          simp [hok.1, hok.2]
        rw [this]
        simp only [Bool.false_eq_true, if_false]
        simp [CartItemDB.Update, hwrite, Conn.exec, Reply.isUpdated, hpos, hok]
      · have : (!p.IsAvailable || decide (p.StockQuantity < q)) = true := by
          by_cases ha : p.IsAvailable = true
          · have : ¬ q ≤ p.StockQuantity := fun hle => hok ⟨ha, hle⟩
            simp [ha]
            omega
          · simp [ha]
        rw [this]
        simp only [if_true]
        simp only [Reply.isUpdated, badRequestResponse, errorResponse, Bool.false_eq_true,
          false_iff, not_and, not_exists]
        intro _ p2 hp2
        cases hp2
        exact fun ha hle => hok ⟨ha, hle⟩
  · have hv : (ValidateCartItem validator.New { item with Quantity := q }).Valid = false := by
      rw [Bool.eq_false_iff]
      intro h
      exact hpos ((ValidateCartItem_valid _).mp h).2.2
    rw [hv]
    simp [Reply.isUpdated, failedValidationResponse, hpos]

/-- The rows of `cart_items` after `UpdateCartItemHandler` answered with its
success reply: the rows with the id of the loaded item carry the quantity asked
for and the time of the update, every other row is as before. -/
theorem UpdateCartItemHandler_stores (env : CartEnv) (c : Conn F) (r : UpdateCartItemForm)
    (id : UUID) (item : CartItem) (q : Int) (hid : r.id = .valid id)
    (hitem : c.committed.cart_items.find? (fun row => row.ID == id) = some item)
    (hq : r.newQuantity item.Quantity = some q) (hget : env.failItemGet = false)
    (h : (UpdateCartItemHandler env c r).1.isUpdated = true) :
    (UpdateCartItemHandler env c r).2.committed.cart_items
      = c.committed.cart_items.map fun row =>
          if row.ID == item.ID then { row with Quantity := q, UpdatedAt := env.itemChangedAt }
          else row := by
  have hsel : r.applied item = some { item with Quantity := q } := by
    unfold UpdateCartItemForm.newQuantity at hq
    unfold UpdateCartItemForm.applied
    cases hr : r.quantity with
    | empty => rw [hr] at hq; simp at hq; subst hq; rfl
    | malformed => rw [hr] at hq; simp at hq
    | number val => rw [hr] at hq; simp at hq; subst hq; rfl
  revert h
  unfold UpdateCartItemHandler
  rw [hid]
  dsimp only
  rw [hget, CartItemDB.Get_item_stored hitem]
  dsimp only
  rw [hsel]
  dsimp only
  split
  · intro h; simp [Reply.isUpdated, failedValidationResponse] at h
  · split
    · rename_i err _
      intro h
      exfalso
      revert h
      unfold handleRetrievalError
      split <;> simp [Reply.isUpdated, errorResponse, serverErrorResponse]
    · split
      · intro h; simp [Reply.isUpdated, badRequestResponse, errorResponse] at h
      · split
        · intro h; simp [Reply.isUpdated, serverErrorResponse, errorResponse] at h
        · rename_i item2 c1 hupd
          intro _
          unfold CartItemDB.Update at hupd
          cases hw : env.failItemUpdate with
          | true => rw [hw] at hupd; simp at hupd
          | false =>
            rw [hw] at hupd
            simp only [Bool.false_eq_true, if_false, Conn.exec, Prod.mk.injEq] at hupd
            obtain ⟨_, hc1⟩ := hupd
            simp only [Except.ok.injEq] at hc1
            rw [← hc1]

/-- C20 (update-quantity validation).  For a stored cart item that names a cart
and a product, when the reads and the write are answered:
`UpdateCartItemHandler` accepts the request (answers 200) if and only if the
request has a new quantity, that quantity is greater than 0, and the item's
product is stored, available and has at least that stock; an accepted request
stores the new quantity.  Whatever the request and the faults, a request that is
not accepted leaves every table, and so the stored quantity, as it was.  The
new quantity is the number in the `quantity` field, or the stored quantity when
the field is empty. -/
theorem UpdateCartItemHandler_accepts_iff (env : CartEnv) (c : Conn F) (r : UpdateCartItemForm)
    (id : UUID) (item : CartItem) (hid : r.id = .valid id)
    (hitem : c.committed.cart_items.find? (fun row => row.ID == id) = some item)
    (hcart : item.CartID ≠ uuid.Nil) (hproduct : item.ProductID ≠ uuid.Nil)
    (hget : env.failItemGet = false) (hread : env.failProductGet = false)
    (hwrite : env.failItemUpdate = false) :
    ((UpdateCartItemHandler env c r).1.isUpdated = true ↔
      ∃ q, r.newQuantity item.Quantity = some q ∧ 0 < q ∧
        ∃ p, c.committed.product? item.ProductID = some p ∧
          p.IsAvailable = true ∧ q ≤ p.StockQuantity) ∧
    (∀ q, r.newQuantity item.Quantity = some q →
      (UpdateCartItemHandler env c r).1.isUpdated = true →
      (UpdateCartItemHandler env c r).2.committed.cart_items
        = c.committed.cart_items.map fun row =>
            if row.ID == item.ID then { row with Quantity := q, UpdatedAt := env.itemChangedAt }
            else row) ∧
    ((UpdateCartItemHandler env c r).1.isUpdated = false →
      (UpdateCartItemHandler env c r).2 = c) := by
  refine ⟨?_, ?_, UpdateCartItemHandler_rejected env c r⟩
  · cases hq : r.newQuantity item.Quantity with
    | none =>
      have hsel : r.applied item = none := by
        unfold UpdateCartItemForm.newQuantity at hq
        unfold UpdateCartItemForm.applied
        cases hr : r.quantity with
        | empty => rw [hr] at hq; simp at hq
        | malformed => rfl
        | number val => rw [hr] at hq; simp at hq
      unfold UpdateCartItemHandler
      rw [hid]
      dsimp only
      rw [hget, CartItemDB.Get_item_stored hitem]
      dsimp only
      rw [hsel]
      simp [Reply.isUpdated, badRequestResponse, errorResponse]
    | some q =>
      rw [UpdateCartItemHandler_loaded env c r id item q hid hitem hq hcart hproduct hget hread
        hwrite]
      constructor
      · rintro ⟨hpos, p, hp, ha, hle⟩
        exact ⟨q, rfl, hpos, p, hp, ha, hle⟩
      · rintro ⟨q2, hq2, hpos, p, hp, ha, hle⟩
        cases hq2
        exact ⟨hpos, p, hp, ha, hle⟩
  · intro q hq h
    exact UpdateCartItemHandler_stores env c r id item q hid hitem hq hget h

/-- C20, on the sample store: item 11 holds two units of product 1, which is
available with stock 10.  Asking for four units is accepted and stored; asking
for eleven units, or for none, is refused and the tables stay as they were. -/
theorem UpdateCartItemHandler_accepts_iff_witness :
    (UpdateCartItemHandler Sample.cartEnv Sample.conn
        { id := .valid 11, quantity := .number 4 }).1.isUpdated = true ∧
    (UpdateCartItemHandler Sample.cartEnv Sample.conn
        { id := .valid 11, quantity := .number 4 }).2.committed.cart_items
      = [ { ID := 11, CartID := 7, ProductID := 1, Quantity := 4, CreatedAt := 0, UpdatedAt := 5 },
          { ID := 12, CartID := 7, ProductID := 2, Quantity := 3, CreatedAt := 0,
            UpdatedAt := 0 } ] ∧
    (UpdateCartItemHandler Sample.cartEnv Sample.conn
        { id := .valid 11, quantity := .number 11 }).2 = Sample.conn ∧
    (UpdateCartItemHandler Sample.cartEnv Sample.conn
        { id := .valid 11, quantity := .number 0 }).2 = Sample.conn :=
  ⟨by decide,
    ((UpdateCartItemHandler_accepts_iff Sample.cartEnv Sample.conn
      { id := .valid 11, quantity := .number 4 } 11
      { ID := 11, CartID := 7, ProductID := 1, Quantity := 2, CreatedAt := 0, UpdatedAt := 0 }
      rfl rfl (by decide) (by decide) rfl rfl rfl).2.1 4 rfl (by decide)).trans (by decide),
    (UpdateCartItemHandler_accepts_iff Sample.cartEnv Sample.conn
      { id := .valid 11, quantity := .number 11 } 11
      { ID := 11, CartID := 7, ProductID := 1, Quantity := 2, CreatedAt := 0, UpdatedAt := 0 }
      rfl rfl (by decide) (by decide) rfl rfl rfl).2.2 (by decide),
    (UpdateCartItemHandler_accepts_iff Sample.cartEnv Sample.conn
      { id := .valid 11, quantity := .number 0 } 11
      { ID := 11, CartID := 7, ProductID := 1, Quantity := 2, CreatedAt := 0, UpdatedAt := 0 }
      rfl rfl (by decide) (by decide) rfl rfl rfl).2.2 (by decide)⟩

/-! ### Cart requests: what each handler writes -/

/-- The replies of `handleRetrievalError` are never a 201. -/
theorem handleRetrievalError_isCreated (err : Error) :
    (handleRetrievalError err : Reply F).isCreated = false := by
  unfold handleRetrievalError
  have hcases : ∀ k ∈ handleRetrievalError.cases, k.2.1 ≠ 201 := by decide
  split
  · rename_i status message hfind
    have hmem := List.mem_of_find?_eq_some hfind
    have := hcases _ hmem
    simp only [ne_eq] at this
    unfold errorResponse Reply.isCreated
    split
    · rename_i heq
      simp only [Reply.json.injEq] at heq
      exact absurd heq.1 this
    · rfl
  · rfl

/-- The outcome of create-cart: nothing is written, or one cart with the id
handed out is appended to `carts`. -/
theorem CreateCartHandler_writes (env : CartEnv) (c : Conn F) (r : CreateCartForm) :
    (CreateCartHandler env c r).2 = c ∨
    ∃ cart : Cart, cart.ID = env.cartID ∧
      (CreateCartHandler env c r).2
        = { c with committed := { c.committed with carts := c.committed.carts ++ [cart] } } := by
  unfold CreateCartHandler
  split
  · exact .inl rfl
  · exact .inl rfl
  · split
    · exact .inl rfl
    · dsimp only
      split
      · exact .inl rfl
      · split
        · exact .inl rfl
        · split
          · exact .inl rfl
          · rename_i cart c1 hins
            right
            unfold CartDB.Insert at hins
            cases hf : env.failCartInsert with
            | true => rw [hf] at hins; simp at hins
            | false =>
              rw [hf] at hins
              simp only [Bool.false_eq_true, if_false, Conn.exec, Prod.mk.injEq,
                Except.ok.injEq] at hins
              obtain ⟨hcart, hc1⟩ := hins
              exact ⟨cart, by rw [← hcart], by rw [← hc1, hcart]⟩

/-- The outcome of delete-cart: nothing is written, or the rows of one id are
removed from `carts`. -/
theorem DeleteCartHandler_writes (env : CartEnv) (c : Conn F) (r : DeleteCartForm) :
    (DeleteCartHandler env c r).2 = c ∨
    ∃ id : UUID, (DeleteCartHandler env c r).2
      = { c with committed := { c.committed with
            carts := c.committed.carts.filter fun row => !(row.ID == id) } } := by
  unfold DeleteCartHandler
  split
  · exact .inl rfl
  · exact .inl rfl
  · split
    · exact .inl rfl
    · rename_i id _
      split
      · exact .inl rfl
      · split
        · exact .inl rfl
        · split
          · exact .inl rfl
          · rename_i c1 hdel
            right
            unfold CartDB.Delete at hdel
            cases hf : env.failCartDelete with
            | true => rw [hf] at hdel; simp at hdel
            | false =>
              rw [hf] at hdel
              simp only [Bool.false_eq_true, if_false, Conn.exec, Except.ok.injEq] at hdel
              exact ⟨id, by rw [← hdel]⟩

/-- The outcome of remove-item: nothing is written, or the rows of one id are
removed from `cart_items`. -/
theorem DeleteCartItemHandler_writes (env : CartEnv) (c : Conn F) (id : FormUUID) :
    (DeleteCartItemHandler env c id).2 = c ∨
    ∃ id2 : UUID, (DeleteCartItemHandler env c id).2
      = { c with committed := { c.committed with
            cart_items := c.committed.cart_items.filter fun row => !(row.ID == id2) } } := by
  unfold DeleteCartItemHandler
  split
  · exact .inl rfl
  · rename_i id2
    split
    · exact .inl rfl
    · rename_i c1 hdel
      right
      unfold CartItemDB.Delete at hdel
      cases hf : env.failItemDelete with
      | true => rw [hf] at hdel; simp at hdel
      | false =>
        rw [hf] at hdel
        simp only [Bool.false_eq_true, if_false, Conn.exec, Except.ok.injEq] at hdel
        exact ⟨id2, by rw [← hdel]⟩

/-- The outcome of update-quantity: nothing is written, or the rows of one id
in `cart_items` get a quantity and an update time. -/
theorem UpdateCartItemHandler_writes (env : CartEnv) (c : Conn F) (r : UpdateCartItemForm) :
    (UpdateCartItemHandler env c r).2 = c ∨
    ∃ (id : UUID) (q : Int) (now : Time), (UpdateCartItemHandler env c r).2
      = { c with committed := { c.committed with
            cart_items := c.committed.cart_items.map fun row =>
              if row.ID == id then { row with Quantity := q, UpdatedAt := now } else row } } := by
  unfold UpdateCartItemHandler
  split
  · exact .inl rfl
  · split
    · exact .inl rfl
    · split
      · exact .inl rfl
      · rename_i item _
        dsimp only
        split
        · exact .inl rfl
        · split
          · exact .inl rfl
          · split
            · exact .inl rfl
            · split
              · exact .inl rfl
              · rename_i item2 c1 hupd
                right
                unfold CartItemDB.Update at hupd
                cases hw : env.failItemUpdate with
                | true => rw [hw] at hupd; simp at hupd
                | false =>
                  rw [hw] at hupd
                  simp only [Bool.false_eq_true, if_false, Conn.exec, Prod.mk.injEq,
                    Except.ok.injEq] at hupd
                  exact ⟨item.ID, item.Quantity, env.itemChangedAt, by rw [← hupd.2]⟩

/-- What the read-only part of add-item hands on: the ids of the form, and the
product as stored, of a store. -/
theorem AddCartItemHandler.parse_ok {env : CartEnv} {c : Conn F} {r : AddCartItemForm}
    {userID productID : UUID} {quantity : Int} {product : Product F}
    (h : AddCartItemHandler.parse env c r = .ok (userID, productID, quantity, product)) :
    r.user = .valid userID ∧ r.product_id = .valid productID ∧
    r.quantity = .number quantity ∧
    ProductDB.Get .db env.failProductGet c productID = .ok product ∧
    ∃ row, c.committed.product? productID = some row ∧ row.StoreID = product.StoreID := by
  unfold AddCartItemHandler.parse at h
  split at h
  · simp at h
  · simp at h
  · rename_i uid hu
    split at h
    · simp at h
    · rename_i pid hp
      split at h
      · rename_i q hq
        split at h
        · simp at h
        · rename_i p hget
          split at h
          · simp at h
          · split at h
            · simp at h
            · simp only [Except.ok.injEq, Prod.mk.injEq] at h
              obtain ⟨h1, h2, h3, h4⟩ := h
              subst h1 h2 h3 h4
              obtain ⟨row, hrow, hprod⟩ := ProductDB.Get_db hget
              exact ⟨hu, hp, hq, hget, row, hrow, by rw [hprod]⟩
      · simp at h

/-- The replies of the read-only part of add-item are never a 201. -/
theorem AddCartItemHandler.parse_error {env : CartEnv} {c : Conn F} {r : AddCartItemForm}
    {reply : Reply F} (h : AddCartItemHandler.parse env c r = .error reply) :
    reply.isCreated = false := by
  unfold AddCartItemHandler.parse at h
  split at h
  · cases h; rfl
  · cases h; rfl
  · split at h
    · cases h; rfl
    · split at h
      · split at h
        · cases h; exact handleRetrievalError_isCreated _
        · split at h
          · cases h; rfl
          · split at h
            · cases h; rfl
            · cases h
      · cases h; rfl

/-- The store check and binding that goes through: the cart was bound to the
product's store and nothing is written, or it had no store and every row of
its id is bound to the product's store. -/
theorem AddCartItemHandler.bind_ok {env : CartEnv} {c c1 : Conn F} {cart : Cart}
    {product : Product F} (h : AddCartItemHandler.bind env c cart product = .ok c1) :
    (cart.StoreID = some product.StoreID ∧ c1 = c) ∨
    (cart.StoreID = none ∧
      c1 = { c with committed := { c.committed with
              carts := c.committed.carts.map fun row =>
                if row.ID == cart.ID then
                  { row with StoreID := some product.StoreID, UpdatedAt := env.cartBoundAt }
                else row } }) := by
  unfold AddCartItemHandler.bind at h
  split at h
  · rename_i storeID hs
    split at h
    · simp at h
    · rename_i hne
      simp only [bne_iff_ne, ne_eq, not_not] at hne
      simp only [Except.ok.injEq] at h
      exact .inl ⟨by rw [hs, hne], h.symm⟩
  · rename_i hs
    split at h
    · simp at h
    · rename_i c2 hupd
      simp only [Except.ok.injEq] at h
      subst h
      right
      refine ⟨hs, ?_⟩
      unfold CartDB.Update at hupd
      dsimp only at hupd
      cases hf : env.failCartUpdate with
      | true => rw [hf] at hupd; simp at hupd
      | false =>
        rw [hf] at hupd
        simp only [Bool.false_eq_true, if_false, Conn.rows] at hupd
        split at hupd
        · simp only [Conn.exec, Except.ok.injEq] at hupd
          exact hupd.symm
        · simp at hupd

/-- The replies of the store check and binding are never a 201, and an error
reply comes with nothing written (the caller keeps its connection). -/
theorem AddCartItemHandler.bind_error {env : CartEnv} {c : Conn F} {cart : Cart}
    {product : Product F} {reply : Reply F}
    (h : AddCartItemHandler.bind env c cart product = .error reply) :
    reply.isCreated = false := by
  unfold AddCartItemHandler.bind at h
  split at h
  · split at h
    · cases h; rfl
    · cases h
  · split at h
    · cases h; rfl
    · cases h

/-- The replies of the cart resolution of add-item are never a 201. -/
theorem AddCartItemHandler.resolveCart_error {env : CartEnv} {c : Conn F} {userID : UUID}
    {product : Product F} {field : OptFormUUID} {reply : Reply F}
    (h : AddCartItemHandler.resolveCart env c userID product field = .error reply) :
    reply.isCreated = false := by
  unfold AddCartItemHandler.resolveCart at h
  split at h
  · cases h; rfl
  · split at h
    · cases h; exact handleRetrievalError_isCreated _
    · split at h
      · cases h; rfl
      · split at h
        · rename_i hb
          cases h
          exact AddCartItemHandler.bind_error hb
        · cases h
  · split at h
    · cases h; rfl
    · split at h
      · cases h; rfl
      · cases h
    · split at h
      · rename_i hb
        cases h
        exact AddCartItemHandler.bind_error hb
      · cases h

/-- The cart resolution of add-item that goes through: it went through the
store check and binding of a stored cart with the id handed on, or the user had
no cart and a cart bound to the product's store, with the id handed out, is
appended to `carts`. -/
theorem AddCartItemHandler.resolveCart_ok {env : CartEnv} {c c1 : Conn F} {userID cartID : UUID}
    {product : Product F} {field : OptFormUUID}
    (h : AddCartItemHandler.resolveCart env c userID product field = .ok (cartID, c1)) :
    (∃ cart, cart ∈ c.committed.carts ∧ cart.ID = cartID ∧
      AddCartItemHandler.bind env c cart product = .ok c1) ∨
    (cartID = env.cartID ∧ ∃ cart : Cart, cart.ID = env.cartID ∧
      cart.StoreID = some product.StoreID ∧
      c1 = { c with committed := { c.committed with carts := c.committed.carts ++ [cart] } }) := by
  unfold AddCartItemHandler.resolveCart at h
  split at h
  · simp at h
  · rename_i cid
    split at h
    · simp at h
    · rename_i cart hget
      split at h
      · simp at h
      · split at h
        · simp at h
        · rename_i c2 hb
          simp only [Except.ok.injEq, Prod.mk.injEq] at h
          obtain ⟨h1, h2⟩ := h
          subst h1 h2
          left
          unfold CartDB.Get at hget
          split at hget
          · simp at hget
          · rename_i t ht
            split at hget
            · simp at hget
            · rename_i row hrow
              simp only [Except.ok.injEq] at hget
              subst hget
              cases hf : env.failCartGet with
              | true => rw [hf] at ht; simp at ht
              | false =>
                rw [hf] at ht
                simp only [Bool.false_eq_true, if_false, Conn.rows, Option.some.injEq] at ht
                subst ht
                have hid := List.find?_some hrow
                exact ⟨row, List.mem_of_find?_eq_some hrow, by simpa using hid, hb⟩
  · split at h
    · simp at h
    · split at h
      · simp at h
      · rename_i cart c2 hins
        simp only [Except.ok.injEq, Prod.mk.injEq] at h
        obtain ⟨h1, h2⟩ := h
        subst h2
        right
        unfold CartDB.Insert at hins
        cases hf : env.failCartInsert with
        | true => rw [hf] at hins; simp at hins
        | false =>
          rw [hf] at hins
          simp only [Bool.false_eq_true, if_false, Conn.exec, Prod.mk.injEq,
            Except.ok.injEq] at hins
          obtain ⟨hcart, hc1⟩ := hins
          refine ⟨by rw [← h1, ← hcart], cart, by rw [← hcart], by rw [← hcart]; rfl, ?_⟩
          rw [← hc1, hcart]
    · rename_i cart hget
      split at h
      · simp at h
      · rename_i c2 hb
        simp only [Except.ok.injEq, Prod.mk.injEq] at h
        obtain ⟨h1, h2⟩ := h
        subst h2
        left
        unfold CartDB.GetByUser at hget
        split at hget
        · simp at hget
        · rename_i t ht
          simp only [Except.ok.injEq] at hget
          cases hf : env.failCartGetByUser with
          | true => rw [hf] at ht; simp at ht
          | false =>
            rw [hf] at ht
            simp only [Bool.false_eq_true, if_false, Conn.rows, Option.some.injEq] at ht
            subst ht
            exact ⟨cart, List.mem_of_find?_eq_some hget, h1, hb⟩

/-- The last part of add-item: nothing is written and the reply is no 201, or
the cart had no item of the product, one item of that cart and product is
appended to `cart_items`, and the reply is the 201 carrying it. -/
theorem AddCartItemHandler.addItem_cases (env : CartEnv) (c : Conn F) (cartID productID : UUID)
    (quantity : Int) :
    ((AddCartItemHandler.addItem env c cartID productID quantity).2 = c ∧
      (AddCartItemHandler.addItem env c cartID productID quantity).1.isCreated = false) ∨
    ((∀ row ∈ c.committed.cart_items, ¬(row.CartID = cartID ∧ row.ProductID = productID)) ∧
      ∃ item : CartItem, item.CartID = cartID ∧ item.ProductID = productID ∧
        (AddCartItemHandler.addItem env c cartID productID quantity).1
          = .json 201 (.cartItemAdded "تم إضافة العنصر إلى السلة بنجاح" item cartID) ∧
        (AddCartItemHandler.addItem env c cartID productID quantity).2
          = { c with committed := { c.committed with
                cart_items := c.committed.cart_items ++ [item] } }) := by
  unfold AddCartItemHandler.addItem
  split
  · exact .inl ⟨rfl, rfl⟩
  · rename_i existingItems hlist
    split
    · exact .inl ⟨rfl, rfl⟩
    · rename_i hany
      dsimp only
      split
      · exact .inl ⟨rfl, rfl⟩
      · split
        · exact .inl ⟨rfl, rfl⟩
        · rename_i item c1 hins
          right
          constructor
          · intro row hrow hkey
            apply hany
            unfold CartItemDB.ListByCart at hlist
            split at hlist
            · simp at hlist
            · rename_i t ht
              simp only [Except.ok.injEq] at hlist
              cases hf : env.failListByCart with
              | true => rw [hf] at ht; simp at ht
              | false =>
                rw [hf] at ht
                simp only [Bool.false_eq_true, if_false, Conn.rows, Option.some.injEq] at ht
                subst ht
                rw [← hlist]
                rw [List.any_eq_true]
                exact ⟨row, List.mem_filter.mpr ⟨hrow, by simp [hkey.1]⟩, by simp [hkey.2]⟩
          · unfold CartItemDB.Insert at hins
            cases hf : env.failItemInsert with
            | true => rw [hf] at hins; simp at hins
            | false =>
              rw [hf] at hins
              simp only [Bool.false_eq_true, if_false, Conn.exec, Prod.mk.injEq,
                Except.ok.injEq] at hins
              obtain ⟨hitem, hc1⟩ := hins
              refine ⟨item, by rw [← hitem]; rfl, by rw [← hitem]; rfl, rfl, ?_⟩
              rw [← hc1, hitem]

/-! ### Cart requests: the invariants of the cart tables -/

/-- Two stored carts of the same id are the same row, the cart ids being
distinct. -/
theorem Tables.UniqueCarts.eq_of_id {t : Tables F} (hu : t.UniqueCarts) {a b : Cart}
    (ha : a ∈ t.carts) (hb : b ∈ t.carts) (hid : a.ID = b.ID) : a = b := by
  unfold Tables.UniqueCarts at hu
  generalize t.carts = l at hu ha hb
  induction l with
  | nil => simp at ha
  | cons x xs ih =>
    rw [List.pairwise_cons] at hu
    rw [List.mem_cons] at ha hb
    rcases ha with ha | ha <;> rcases hb with hb | hb
    · rw [ha, hb]
    · subst ha
      exact absurd hid (hu.1 b hb)
    · subst hb
      exact absurd hid.symm (hu.1 a ha)
    · exact ih hu.2 ha hb

/-- Appending a cart with a fresh id keeps the cart ids distinct and the carts
single-store: the new cart has no item. -/
theorem Tables.inv_append_cart (t : Tables F) (cart : Cart) (hfresh : t.FreshCart cart.ID)
    (hu : t.UniqueCarts) (hs : t.SingleStore) :
    ({ t with carts := t.carts ++ [cart] } : Tables F).UniqueCarts ∧
    ({ t with carts := t.carts ++ [cart] } : Tables F).SingleStore := by
  constructor
  · unfold Tables.UniqueCarts
    refine List.pairwise_append.mpr ⟨hu, List.pairwise_singleton _ _, ?_⟩
    intro a ha b hb
    simp only [List.mem_singleton] at hb
    subst hb
    exact hfresh.1 a ha
  · intro cart2 hc item hi hid
    simp only [List.mem_append, List.mem_singleton] at hc
    rcases hc with hc | hc
    · exact hs cart2 hc item hi hid
    · subst hc
      exact absurd hid (hfresh.2 item hi)

/-- Removing carts keeps the cart ids distinct and the carts single-store. -/
theorem Tables.inv_filter_carts (t : Tables F) (keep : Cart → Bool)
    (hu : t.UniqueCarts) (hs : t.SingleStore) :
    ({ t with carts := t.carts.filter keep } : Tables F).UniqueCarts ∧
    ({ t with carts := t.carts.filter keep } : Tables F).SingleStore := by
  constructor
  · exact List.Pairwise.filter _ hu
  · intro cart hc item hi hid
    exact hs cart (List.mem_of_mem_filter hc) item hi hid

/-- Removing cart items keeps the lines distinct and the carts single-store. -/
theorem Tables.inv_filter_items (t : Tables F) (keep : CartItem → Bool)
    (hn : t.NoDuplicateLines) (hs : t.SingleStore) :
    ({ t with cart_items := t.cart_items.filter keep } : Tables F).NoDuplicateLines ∧
    ({ t with cart_items := t.cart_items.filter keep } : Tables F).SingleStore := by
  constructor
  · exact List.Pairwise.filter _ hn
  · intro cart hc item hi hid
    exact hs cart hc item (List.mem_of_mem_filter hi) hid

/-- Rewriting cart items without touching their cart and product keeps the
lines distinct and the carts single-store. -/
theorem Tables.inv_map_items (t : Tables F) (g : CartItem → CartItem)
    (hg : ∀ row, (g row).CartID = row.CartID ∧ (g row).ProductID = row.ProductID)
    (hn : t.NoDuplicateLines) (hs : t.SingleStore) :
    ({ t with cart_items := t.cart_items.map g } : Tables F).NoDuplicateLines ∧
    ({ t with cart_items := t.cart_items.map g } : Tables F).SingleStore := by
  constructor
  · unfold Tables.NoDuplicateLines
    rw [List.pairwise_map]
    refine List.Pairwise.imp ?_ hn
    intro a b hab
    rw [(hg a).1, (hg a).2, (hg b).1, (hg b).2]
    exact hab
  · intro cart hc item hi hid
    obtain ⟨row, hrow, rfl⟩ := List.mem_map.mp hi
    have := hs cart hc row hrow (by rw [← (hg row).1]; exact hid)
    rw [(hg row).2]
    exact this

/-- Binding the rows of a cart id to a store, when a stored cart of that id has
no store: the cart ids stay distinct and the carts single-store (the cart had no
item), and every cart of that id is bound to the store. -/
theorem Tables.inv_bind (t : Tables F) (cart : Cart) (storeID : UUID) (now : Time)
    (hcart : cart ∈ t.carts) (hnone : cart.StoreID = none)
    (hu : t.UniqueCarts) (hs : t.SingleStore) :
    ({ t with carts := t.carts.map fun row =>
        if row.ID == cart.ID then { row with StoreID := some storeID, UpdatedAt := now }
        else row } : Tables F).UniqueCarts ∧
    ({ t with carts := t.carts.map fun row =>
        if row.ID == cart.ID then { row with StoreID := some storeID, UpdatedAt := now }
        else row } : Tables F).SingleStore ∧
    ∀ row ∈ t.carts.map (fun row =>
        if row.ID == cart.ID then { row with StoreID := some storeID, UpdatedAt := now }
        else row), row.ID = cart.ID → row.StoreID = some storeID := by
  have hg : ∀ row : Cart,
      (if row.ID == cart.ID then { row with StoreID := some storeID, UpdatedAt := now }
        else row).ID = row.ID := by
    intro row
    split <;> rfl
  refine ⟨?_, ?_, ?_⟩
  · unfold Tables.UniqueCarts
    rw [List.pairwise_map]
    refine List.Pairwise.imp ?_ hu
    intro a b hab
    rw [hg a, hg b]
    exact hab
  · intro cart2 hc item hi hid
    obtain ⟨row, hrow, rfl⟩ := List.mem_map.mp hc
    rw [hg row] at hid
    by_cases hrc : row.ID = cart.ID
    · exfalso
      obtain ⟨p, _, hp⟩ := hs cart hcart item hi (by rw [hid, hrc])
      rw [hnone] at hp
      cases hp
    · have : (row.ID == cart.ID) = false := by simpa using hrc
      simp only [this, Bool.false_eq_true, if_false]
      exact hs row hrow item hi hid
  · intro row2 hc hid
    obtain ⟨row, hrow, rfl⟩ := List.mem_map.mp hc
    rw [hg row] at hid
    have : (row.ID == cart.ID) = true := by simpa using hid
    simp only [this, if_true]

/-- Appending an item of a product of the store its cart is bound to, the cart
having no item of that product: the lines stay distinct and the carts
single-store. -/
theorem Tables.inv_append_item (t : Tables F) (item : CartItem) (p : Product F)
    (hp : t.product? item.ProductID = some p)
    (hbound : ∀ cart ∈ t.carts, cart.ID = item.CartID → cart.StoreID = some p.StoreID)
    (hnew : ∀ row ∈ t.cart_items,
      ¬(row.CartID = item.CartID ∧ row.ProductID = item.ProductID))
    (hn : t.NoDuplicateLines) (hs : t.SingleStore) :
    ({ t with cart_items := t.cart_items ++ [item] } : Tables F).NoDuplicateLines ∧
    ({ t with cart_items := t.cart_items ++ [item] } : Tables F).SingleStore := by
  constructor
  · unfold Tables.NoDuplicateLines
    refine List.pairwise_append.mpr ⟨hn, List.pairwise_singleton _ _, ?_⟩
    intro a ha b hb
    simp only [List.mem_singleton] at hb
    subst hb
    exact hnew a ha
  · intro cart hc item2 hi hid
    simp only [List.mem_append, List.mem_singleton] at hi
    rcases hi with hi | hi
    · exact hs cart hc item2 hi hid
    · subst hi
      exact ⟨p, hp, hbound cart hc hid.symm⟩

/-- The cart resolution of add-item keeps the three invariants, the id handed
out for a new cart being fresh; it leaves `cart_items` and `products` as they
were, and afterwards every cart with the id handed on is bound to the product's
store. -/
theorem AddCartItemHandler.resolveCart_inv {env : CartEnv} {c c1 : Conn F}
    {userID cartID : UUID} {product : Product F} {field : OptFormUUID}
    (h : AddCartItemHandler.resolveCart env c userID product field = .ok (cartID, c1))
    (hfresh : c.committed.FreshCart env.cartID)
    (hu : c.committed.UniqueCarts) (hn : c.committed.NoDuplicateLines)
    (hs : c.committed.SingleStore) :
    c1.committed.UniqueCarts ∧ c1.committed.NoDuplicateLines ∧ c1.committed.SingleStore ∧
    c1.committed.cart_items = c.committed.cart_items ∧
    c1.committed.products = c.committed.products ∧
    (∃ cart ∈ c1.committed.carts, cart.ID = cartID) ∧
    ∀ cart ∈ c1.committed.carts, cart.ID = cartID → cart.StoreID = some product.StoreID := by
  rcases AddCartItemHandler.resolveCart_ok h with ⟨cart, hcart, hid, hb⟩ | ⟨hid, cart, hcid, hst, hc1⟩
  · rcases AddCartItemHandler.bind_ok hb with ⟨hst, hc1⟩ | ⟨hst, hc1⟩
    · subst hc1
      refine ⟨hu, hn, hs, rfl, rfl, ⟨cart, hcart, hid⟩, ?_⟩
      intro cart2 hc2 hid2
      rw [Tables.UniqueCarts.eq_of_id hu hc2 hcart (by rw [hid2, hid]), hst]
    · subst hc1
      obtain ⟨h1, h2, h3⟩ :=
        Tables.inv_bind c.committed cart product.StoreID env.cartBoundAt hcart hst hu hs
      refine ⟨h1, hn, h2, rfl, rfl, ?_, ?_⟩
      · refine ⟨_, List.mem_map_of_mem _ hcart, ?_⟩
        simp only [beq_self_eq_true, if_true]
        exact hid
      · intro cart2 hc2 hid2
        exact h3 cart2 hc2 (by rw [hid2, hid])
  · subst hc1
    rw [← hcid] at hfresh
    obtain ⟨h1, h2⟩ := Tables.inv_append_cart c.committed cart hfresh hu hs
    refine ⟨h1, hn, h2, rfl, rfl, ⟨cart, by simp, by rw [hcid, hid]⟩, ?_⟩
    intro cart2 hc2 hid2
    simp only [List.mem_append, List.mem_singleton] at hc2
    rcases hc2 with hc2 | hc2
    · exact absurd (by rw [hid2, hid, hcid]) (hfresh.1 cart2 hc2)
    · rw [hc2, hst]

/-- Add-item keeps the three invariants, the id handed out for a new cart being
fresh. -/
theorem AddCartItemHandler_inv (env : CartEnv) (c : Conn F) (r : AddCartItemForm)
    (hfresh : c.committed.FreshCart env.cartID)
    (hu : c.committed.UniqueCarts) (hn : c.committed.NoDuplicateLines)
    (hs : c.committed.SingleStore) :
    (AddCartItemHandler env c r).2.committed.UniqueCarts ∧
    (AddCartItemHandler env c r).2.committed.NoDuplicateLines ∧
    (AddCartItemHandler env c r).2.committed.SingleStore := by
  unfold AddCartItemHandler
  split
  · exact ⟨hu, hn, hs⟩
  · rename_i userID productID quantity product hparse
    split
    · exact ⟨hu, hn, hs⟩
    · rename_i cartID c1 hres
      obtain ⟨_, _, _, _, row, hrow, hstore⟩ := AddCartItemHandler.parse_ok hparse
      obtain ⟨hu1, hn1, hs1, hitems, hproducts, _, hbound⟩ :=
        AddCartItemHandler.resolveCart_inv hres hfresh hu hn hs
      rcases AddCartItemHandler.addItem_cases env c1 cartID productID quantity with
        ⟨h2, _⟩ | ⟨hnew, item, hic, hip, _, h2⟩
      · rw [h2]
        exact ⟨hu1, hn1, hs1⟩
      · rw [h2]
        have hp : c1.committed.product? item.ProductID = some row := by
          unfold Tables.product?
          rw [hproducts, hip]
          exact hrow
        obtain ⟨h3, h4⟩ := Tables.inv_append_item c1.committed item row hp
          (fun cart hc hid => by rw [hstore]; exact hbound cart hc (by rw [hid, hic]))
          (fun x hx => by rw [hic, hip]; exact hnew x hx) hn1 hs1
        exact ⟨hu1, h3, h4⟩

/-- One cart request keeps the three invariants. -/
theorem CartStep.preserves {c c2 : Conn F} (h : CartStep c c2)
    (hu : c.committed.UniqueCarts) (hn : c.committed.NoDuplicateLines)
    (hs : c.committed.SingleStore) :
    c2.committed.UniqueCarts ∧ c2.committed.NoDuplicateLines ∧ c2.committed.SingleStore := by
  cases h with
  | createCart env c r fresh =>
    rcases CreateCartHandler_writes env c r with h | ⟨cart, hid, h⟩
    · rw [h]; exact ⟨hu, hn, hs⟩
    · rw [h]
      rw [← hid] at fresh
      obtain ⟨h1, h2⟩ := Tables.inv_append_cart c.committed cart fresh hu hs
      exact ⟨h1, hn, h2⟩
  | addItem env c r fresh => exact AddCartItemHandler_inv env c r fresh hu hn hs
  | updateQuantity env c r =>
    rcases UpdateCartItemHandler_writes env c r with h | ⟨id, q, now, h⟩
    · rw [h]; exact ⟨hu, hn, hs⟩
    · rw [h]
      obtain ⟨h1, h2⟩ := Tables.inv_map_items c.committed
        (fun row => if row.ID == id then { row with Quantity := q, UpdatedAt := now } else row)
        (fun row => by dsimp only; split <;> exact ⟨rfl, rfl⟩) hn hs
      exact ⟨hu, h1, h2⟩
  | removeItem env c id =>
    rcases DeleteCartItemHandler_writes env c id with h | ⟨id2, h⟩
    · rw [h]; exact ⟨hu, hn, hs⟩
    · rw [h]
      obtain ⟨h1, h2⟩ := Tables.inv_filter_items c.committed _ hn hs
      exact ⟨hu, h1, h2⟩
  | deleteCart env c r =>
    rcases DeleteCartHandler_writes env c r with h | ⟨id, h⟩
    · rw [h]; exact ⟨hu, hn, hs⟩
    · rw [h]
      obtain ⟨h1, h2⟩ := Tables.inv_filter_carts c.committed _ hu hs
      exact ⟨h1, hn, h2⟩

/-- In every state reached by cart requests the cart ids are distinct, no cart
has two items of one product, and every cart is single-store. -/
theorem CartReachable.invariants {c : Conn F} (h : CartReachable c) :
    c.committed.UniqueCarts ∧ c.committed.NoDuplicateLines ∧ c.committed.SingleStore := by
  induction h with
  | init c carts items =>
    refine ⟨?_, ?_, ?_⟩
    · unfold Tables.UniqueCarts; rw [carts]; exact List.Pairwise.nil
    · unfold Tables.NoDuplicateLines; rw [items]; exact List.Pairwise.nil
    · intro cart hc
      rw [carts] at hc
      simp at hc
  | step _ next ih => exact CartStep.preserves next ih.1 ih.2.1 ih.2.2

/-- The cart resolution of add-item that goes through, for a request that
targets a stored cart: the id handed on is the id of that cart, which went
through the store check and binding. -/
theorem AddCartItemHandler.resolveCart_target {env : CartEnv} {c c1 : Conn F}
    {userID cartID : UUID} {product : Product F} {r : AddCartItemForm} {cart : Cart}
    (h : AddCartItemHandler.resolveCart env c userID product r.cart_id = .ok (cartID, c1))
    (huser : r.user = .valid userID) (ht : r.Targets c.committed cart) :
    cartID = cart.ID ∧ AddCartItemHandler.bind env c cart product = .ok c1 := by
  unfold AddCartItemHandler.resolveCart at h
  rcases ht with ⟨cid, hfield, hfind⟩ | ⟨hfield, uid, hu, hfind⟩
  · rw [hfield] at h
    dsimp only at h
    cases hf : env.failCartGet with
    | true => simp [CartDB.Get, hf] at h
    | false =>
      have hget : CartDB.Get .db false c cid = .ok cart := by
        simp [CartDB.Get, Conn.rows, hfind]
      rw [hf, hget] at h
      dsimp only at h
      split at h
      · simp at h
      · split at h
        · simp at h
        · rename_i c2 hb
          simp only [Except.ok.injEq, Prod.mk.injEq] at h
          obtain ⟨h1, h2⟩ := h
          subst h1 h2
          have hid := List.find?_some hfind
          exact ⟨(by simpa using hid : cart.ID = cid).symm, hb⟩
  · rw [hfield] at h
    dsimp only at h
    rw [huser] at hu
    simp only [ContextUser.valid.injEq] at hu
    subst hu
    cases hf : env.failCartGetByUser with
    | true => simp [CartDB.GetByUser, hf] at h
    | false =>
      have hget : CartDB.GetByUser .db false c userID = .ok (some cart) := by
        simp [CartDB.GetByUser, Conn.rows, hfind]
      rw [hf, hget] at h
      dsimp only at h
      split at h
      · simp at h
      · rename_i c2 hb
        simp only [Except.ok.injEq, Prod.mk.injEq] at h
        obtain ⟨h1, h2⟩ := h
        subst h1 h2
        exact ⟨rfl, hb⟩

/-! ### C18: no duplicate lines -/

/-- The connection after the sample add-item request is a reachable state. -/
theorem Sample.oneItemConn_reachable : CartReachable Sample.oneItemConn :=
  .step (.init Sample.cartlessConn rfl rfl)
    (.addItem Sample.cartEnv Sample.cartlessConn Sample.addForm
      ⟨fun _ h => (nomatch h), fun _ h => (nomatch h)⟩)

/-- The replies of add-item when the cart resolution went through or not: a
request that is not answered with 201 after the read-only part went through
left `cart_items` as it was. -/
theorem AddCartItemHandler_duplicate (env : CartEnv) (c : Conn F) (r : AddCartItemForm)
    (cart : Cart) (productID : UUID) (ht : r.Targets c.committed cart)
    (hp : r.product_id = .valid productID)
    (hdup : ∃ item ∈ c.committed.cart_items,
      item.CartID = cart.ID ∧ item.ProductID = productID) :
    (AddCartItemHandler env c r).1.isCreated = false ∧
    (AddCartItemHandler env c r).2.committed.cart_items = c.committed.cart_items := by
  unfold AddCartItemHandler
  split
  · rename_i reply hparse
    exact ⟨AddCartItemHandler.parse_error hparse, rfl⟩
  · rename_i userID pid quantity product hparse
    obtain ⟨huser, hpid, _, _, _⟩ := AddCartItemHandler.parse_ok hparse
    rw [hp] at hpid
    simp only [FormUUID.valid.injEq] at hpid
    subst hpid
    split
    · rename_i reply hres
      exact ⟨AddCartItemHandler.resolveCart_error hres, rfl⟩
    · rename_i cartID c1 hres
      obtain ⟨hid, hb⟩ := AddCartItemHandler.resolveCart_target hres huser ht
      have hitems : c1.committed.cart_items = c.committed.cart_items := by
        rcases AddCartItemHandler.bind_ok hb with ⟨_, hc1⟩ | ⟨_, hc1⟩ <;> rw [hc1]
      rcases AddCartItemHandler.addItem_cases env c1 cartID productID quantity with
        ⟨h2, h3⟩ | ⟨hnew, _⟩
      · exact ⟨h3, by rw [h2, hitems]⟩
      · exfalso
        obtain ⟨item, hmem, hic, hip⟩ := hdup
        rw [← hitems] at hmem
        exact hnew item hmem ⟨by rw [hic, hid], hip⟩

/-- C18, amended (no duplicate lines).  With the requests served one after the
other, none between the statements of another: in every state reached by cart
requests (create-cart, add-item, update-quantity, remove-item, delete-cart, starting
without carts and items) no two cart items share both the cart and the product.
In such a state, whatever the faults, an add-item request whose target cart
already holds an item of the requested product is not answered with 201 and
leaves `cart_items` as it was. -/
theorem AddCartItemHandler_no_duplicate_lines (c : Conn F) (reached : CartReachable c) :
    c.committed.NoDuplicateLines ∧
    ∀ (env : CartEnv) (r : AddCartItemForm) (cart : Cart) (productID : UUID),
      r.Targets c.committed cart → r.product_id = .valid productID →
      (∃ item ∈ c.committed.cart_items,
        item.CartID = cart.ID ∧ item.ProductID = productID) →
      (AddCartItemHandler env c r).1.isCreated = false ∧
      (AddCartItemHandler env c r).2.committed.cart_items = c.committed.cart_items :=
  ⟨(CartReachable.invariants reached).2.1,
    fun env r cart productID ht hp hdup => AddCartItemHandler_duplicate env c r cart productID ht hp hdup⟩

/-- C18, on the sample store: after user 3 added product 1 to a new cart 7, the
state is reachable; the same request again, with item id 12 at hand, targets
cart 7, which holds product 1: it is answered with 400 and no item is added. -/
theorem AddCartItemHandler_no_duplicate_lines_witness :
    CartReachable Sample.oneItemConn ∧
    Sample.oneItemConn.committed.NoDuplicateLines ∧
    Sample.oneItemConn.committed.cart_items
      = [{ ID := 11, CartID := 7, ProductID := 1, Quantity := 2, CreatedAt := 5, UpdatedAt := 5 }] ∧
    (AddCartItemHandler (CartEnv.calm 8 12 6) Sample.oneItemConn Sample.addForm).1
      = .json 400 (.error "المنتج موجود بالفعل في السلة") ∧
    (AddCartItemHandler (CartEnv.calm 8 12 6) Sample.oneItemConn Sample.addForm).1.isCreated
      = false ∧
    (AddCartItemHandler (CartEnv.calm 8 12 6) Sample.oneItemConn Sample.addForm).2.committed.cart_items
      = Sample.oneItemConn.committed.cart_items :=
  ⟨Sample.oneItemConn_reachable,
    (AddCartItemHandler_no_duplicate_lines Sample.oneItemConn Sample.oneItemConn_reachable).1,
    by decide, by decide,
    (AddCartItemHandler_no_duplicate_lines Sample.oneItemConn Sample.oneItemConn_reachable).2
      (CartEnv.calm 8 12 6) Sample.addForm
      { ID := 7, UserID := 3, StoreID := some 9, CreatedAt := 5, UpdatedAt := 5 } 1
      (.inr ⟨rfl, 3, rfl, by decide⟩) rfl
      ⟨{ ID := 11, CartID := 7, ProductID := 1, Quantity := 2, CreatedAt := 5, UpdatedAt := 5 },
        by decide, rfl, rfl⟩⟩

/-! ### C19: single-store carts -/

/-- An add-item request for a stored product of another store than the one its
target cart is bound to is not answered with 201 and writes nothing, whatever
the state and the faults. -/
theorem AddCartItemHandler_mismatch (env : CartEnv) (c : Conn F) (r : AddCartItemForm)
    (cart : Cart) (storeID productID : UUID) (p : Product F)
    (ht : r.Targets c.committed cart) (hbound : cart.StoreID = some storeID)
    (hpid : r.product_id = .valid productID) (hp : c.committed.product? productID = some p)
    (hne : p.StoreID ≠ storeID) :
    (AddCartItemHandler env c r).1.isCreated = false ∧ (AddCartItemHandler env c r).2 = c := by
  unfold AddCartItemHandler
  split
  · rename_i reply hparse
    exact ⟨AddCartItemHandler.parse_error hparse, rfl⟩
  · rename_i userID pid quantity product hparse
    obtain ⟨huser, hpid2, _, _, row, hrow, hstore⟩ := AddCartItemHandler.parse_ok hparse
    rw [hpid] at hpid2
    simp only [FormUUID.valid.injEq] at hpid2
    subst hpid2
    rw [hp] at hrow
    simp only [Option.some.injEq] at hrow
    subst hrow
    split
    · rename_i reply hres
      exact ⟨AddCartItemHandler.resolveCart_error hres, rfl⟩
    · rename_i cartID c1 hres
      exfalso
      obtain ⟨_, hb⟩ := AddCartItemHandler.resolveCart_target hres huser ht
      rcases AddCartItemHandler.bind_ok hb with ⟨hst, _⟩ | ⟨hst, _⟩
      · rw [hbound] at hst
        simp only [Option.some.injEq] at hst
        exact hne (by rw [hstore, hst])
      · rw [hbound] at hst
        cases hst

/-- What a 201 of add-item tells, in a state with distinct cart ids and a fresh
id at hand for a new cart: the item of the reply is of the cart of the reply and
is appended to `cart_items`, its product is stored, a cart of that id is stored
afterwards, every cart of that id is then bound to the product's store, and the
cart is the one the request targets, if it targets a stored cart. -/
theorem AddCartItemHandler_added (env : CartEnv) (c : Conn F) (r : AddCartItemForm)
    (message : String) (item : CartItem) (cartID : UUID)
    (hfresh : c.committed.FreshCart env.cartID)
    (hu : c.committed.UniqueCarts) (hn : c.committed.NoDuplicateLines)
    (hs : c.committed.SingleStore)
    (h : (AddCartItemHandler env c r).1 = .json 201 (.cartItemAdded message item cartID)) :
    item.CartID = cartID ∧
    (AddCartItemHandler env c r).2.committed.cart_items = c.committed.cart_items ++ [item] ∧
    (∃ p, c.committed.product? item.ProductID = some p ∧
      (∃ cart ∈ (AddCartItemHandler env c r).2.committed.carts, cart.ID = cartID) ∧
      ∀ cart ∈ (AddCartItemHandler env c r).2.committed.carts,
        cart.ID = cartID → cart.StoreID = some p.StoreID) ∧
    ∀ cart, r.Targets c.committed cart → cart.ID = cartID := by
  revert h
  unfold AddCartItemHandler
  split
  · rename_i reply hparse
    intro h
    have := AddCartItemHandler.parse_error hparse
    dsimp only at h
    rw [h] at this
    simp [Reply.isCreated] at this
  · rename_i userID productID quantity product hparse
    obtain ⟨huser, _, _, _, row, hrow, hstore⟩ := AddCartItemHandler.parse_ok hparse
    split
    · rename_i reply hres
      intro h
      have := AddCartItemHandler.resolveCart_error hres
      dsimp only at h
      rw [h] at this
      simp [Reply.isCreated] at this
    · rename_i cid c1 hres
      obtain ⟨_, _, _, hitems, _, hex, hbound⟩ :=
        AddCartItemHandler.resolveCart_inv hres hfresh hu hn hs
      rcases AddCartItemHandler.addItem_cases env c1 cid productID quantity with
        ⟨_, h3⟩ | ⟨_, item2, hic, hip, hreply, h2⟩
      · intro h
        rw [h] at h3
        simp [Reply.isCreated] at h3
      · intro h
        rw [hreply] at h
        simp only [Reply.json.injEq, Payload.cartItemAdded.injEq, true_and] at h
        obtain ⟨_, h4, h5⟩ := h
        subst h4 h5
        rw [h2]
        refine ⟨hic, by rw [← hitems], ⟨row, by rw [hip]; exact hrow, hex, ?_⟩, ?_⟩
        · intro cart hc hid
          rw [hstore]
          exact hbound cart hc hid
        · intro cart ht
          exact (AddCartItemHandler.resolveCart_target hres huser ht).1.symm

/-- C19, amended (single-store cart).  With the requests served one after the
other, none between the statements of another: in every state reached by cart
requests (create-cart, add-item, update-quantity, remove-item, delete-cart, starting
without carts and items), every item of every cart references a stored product
whose store is the store the cart is bound to.  In such a state, whatever the
faults: an add-item request for a stored product of another store than the one
its target cart is bound to is not answered with 201 and writes nothing; and
when an add-item request is answered with 201, the id handed out for a new cart
being fresh, the item went to the target cart, which is stored afterwards and
bound to the store of the item's product; so a target cart without store got
bound to it. -/
theorem AddCartItemHandler_single_store (c : Conn F) (reached : CartReachable c) :
    c.committed.SingleStore ∧
    (∀ (env : CartEnv) (r : AddCartItemForm) (cart : Cart) (storeID productID : UUID)
        (p : Product F),
      r.Targets c.committed cart → cart.StoreID = some storeID →
      r.product_id = .valid productID → c.committed.product? productID = some p →
      p.StoreID ≠ storeID →
      (AddCartItemHandler env c r).1.isCreated = false ∧ (AddCartItemHandler env c r).2 = c) ∧
    (∀ (env : CartEnv) (r : AddCartItemForm) (message : String) (item : CartItem)
        (cartID : UUID),
      c.committed.FreshCart env.cartID →
      (AddCartItemHandler env c r).1 = .json 201 (.cartItemAdded message item cartID) →
      item.CartID = cartID ∧
      (AddCartItemHandler env c r).2.committed.cart_items = c.committed.cart_items ++ [item] ∧
      (∃ p, c.committed.product? item.ProductID = some p ∧
        (∃ cart ∈ (AddCartItemHandler env c r).2.committed.carts, cart.ID = cartID) ∧
        ∀ cart ∈ (AddCartItemHandler env c r).2.committed.carts,
          cart.ID = cartID → cart.StoreID = some p.StoreID) ∧
      ∀ cart, r.Targets c.committed cart → cart.ID = cartID) := by
  obtain ⟨hu, hn, hs⟩ := CartReachable.invariants reached
  refine ⟨hs, ?_, ?_⟩
  · intro env r cart storeID productID p ht hbound hpid hp hne
    exact AddCartItemHandler_mismatch env c r cart storeID productID p ht hbound hpid hp hne
  · intro env r message item cartID hfresh h
    exact AddCartItemHandler_added env c r message item cartID hfresh hu hn hs h

/-- The connection after the sample create-cart request is a reachable state. -/
theorem Sample.unboundConn_reachable : CartReachable Sample.unboundConn :=
  .step (.init Sample.cartlessConn rfl rfl)
    (.createCart Sample.cartEnv Sample.cartlessConn { user := .valid 3, store_id := .empty }
      ⟨fun _ h => (nomatch h), fun _ h => (nomatch h)⟩)

/-- C19, on the sample store.  After user 3 added product 1 of store 9 to a new
cart 7, the state is reachable and single-store, and adding product 3 of store 8
is refused with 400 and writes nothing.  After user 3 created cart 7 without
store, adding product 1 is answered with 201, and cart 7 is then bound to
store 9. -/
theorem AddCartItemHandler_single_store_witness :
    CartReachable Sample.oneItemConn ∧ Sample.oneItemConn.committed.SingleStore ∧
    ((AddCartItemHandler (CartEnv.calm 8 12 6) Sample.oneItemConn
        Sample.otherStoreForm).1.isCreated = false ∧
      (AddCartItemHandler (CartEnv.calm 8 12 6) Sample.oneItemConn Sample.otherStoreForm).2
        = Sample.oneItemConn) ∧
    (AddCartItemHandler (CartEnv.calm 8 12 6) Sample.oneItemConn Sample.otherStoreForm).1
      = .json 400 (.error "لا يمكن إضافة منتج من متجر مختلف إلى السلة") ∧
    Sample.unboundConn.committed.carts
      = [{ ID := 7, UserID := 3, StoreID := none, CreatedAt := 5, UpdatedAt := 5 }] ∧
    (AddCartItemHandler (CartEnv.calm 8 12 6) Sample.unboundConn Sample.addForm).2.committed.carts
      = [{ ID := 7, UserID := 3, StoreID := some 9, CreatedAt := 5, UpdatedAt := 6 }] ∧
    (∀ cart ∈ (AddCartItemHandler (CartEnv.calm 8 12 6) Sample.unboundConn
        Sample.addForm).2.committed.carts, cart.ID = 7 → cart.StoreID = some 9) :=
  ⟨Sample.oneItemConn_reachable,
    (AddCartItemHandler_single_store Sample.oneItemConn Sample.oneItemConn_reachable).1,
    (AddCartItemHandler_single_store Sample.oneItemConn Sample.oneItemConn_reachable).2.1
      (CartEnv.calm 8 12 6) Sample.otherStoreForm
      { ID := 7, UserID := 3, StoreID := some 9, CreatedAt := 5, UpdatedAt := 5 } 9 3
      { ID := 3, StoreID := 8, Name := "pen", Description := none, Price := 5, Discount := 0
        Image := none, StockQuantity := 10, IsAvailable := true, CreatedAt := 0, UpdatedAt := 0 }
      (.inr ⟨rfl, 3, rfl, by decide⟩) rfl rfl (by decide) (by decide),
    by decide, by decide, by decide,
    by
      obtain ⟨_, _, ⟨p, hp, _, hall⟩, _⟩ :=
        (AddCartItemHandler_single_store Sample.unboundConn Sample.unboundConn_reachable).2.2
          (CartEnv.calm 8 12 6) Sample.addForm "تم إضافة العنصر إلى السلة بنجاح"
          { ID := 12, CartID := 7, ProductID := 1, Quantity := 2, CreatedAt := 6, UpdatedAt := 6 }
          7 ⟨by decide, by decide⟩ (by decide)
      have hp9 : p.StoreID = 9 := by
        have : Sample.unboundConn.committed.product? 1 = some
            { ID := 1, StoreID := 9, Name := "tea", Description := none, Price := 100
              Discount := 10, Image := some "tea.png", StockQuantity := 10, IsAvailable := true
              CreatedAt := 0, UpdatedAt := 0 } := by decide
        rw [this] at hp
        simp only [Option.some.injEq] at hp
        rw [← hp]
      rw [← hp9]
      exact hall⟩

/-! ### C12: store binding at checkout -/

/-- A single-store state is store-bound: a cart with an item is bound to the
store of the item's product. -/
theorem Tables.SingleStore.storeBound {t : Tables F} (hs : t.SingleStore) : t.StoreBound := by
  intro cart hc hitem
  obtain ⟨item, hi, hid⟩ := hitem
  obtain ⟨p, _, hp⟩ := hs cart hc item hi hid
  rw [hp]
  simp

/-- A cart lookup through the pool that is answered with a cart returns the
first stored row of that id. -/
theorem CartDB.Get_db_found {fail : Bool} {c : Conn F} {id : UUID} {cart : Cart}
    (h : CartDB.Get .db fail c id = .ok cart) :
    c.committed.carts.find? (fun row => row.ID == id) = some cart := by
  unfold CartDB.Get at h
  cases fail with
  | true => simp at h
  | false =>
    simp only [Bool.false_eq_true, if_false, Conn.rows] at h
    split at h
    · simp at h
    · rename_i row hrow
      simp only [Except.ok.injEq] at h
      rw [hrow, h]

/-- The replies of `handleRetrievalError` are replies: it does not panic. -/
theorem handleRetrievalError_ne_panic (err : Error) :
    (handleRetrievalError err : Reply F) ≠ .panic := by
  unfold handleRetrievalError
  split <;> simp [errorResponse, serverErrorResponse]

/-- The read-only part of the checkout handler panics only on a stored cart
without store for which at least one item is listed. -/
theorem CreateOrderFromCartHandler.prepare_panic [Zero F] [LE F]
    [∀ a b : F, Decidable (a ≤ b)] {env : Env} {c : Conn F} {r : CheckoutForm F}
    (h : CreateOrderFromCartHandler.prepare env c r = .error .panic) :
    ∃ cart ∈ c.committed.carts, cart.StoreID = none ∧
      ∃ item ∈ c.committed.cart_items, item.CartID = cart.ID := by
  unfold CreateOrderFromCartHandler.prepare at h
  split at h
  · simp [badRequestResponse, errorResponse] at h
  · rename_i cid hcid
    dsimp only at h
    split at h
    · simp [badRequestResponse, errorResponse] at h
    · split at h
      · simp [badRequestResponse, errorResponse] at h
      · split at h
        · simp only [Except.error.injEq] at h
          exact absurd h (handleRetrievalError_ne_panic _)
        · rename_i cart hcart
          split at h
          · simp [serverErrorResponse, errorResponse] at h
          · rename_i its hits
            split at h
            · simp [badRequestResponse, errorResponse] at h
            · rename_i hne
              split at h
              · simp [serverErrorResponse, errorResponse] at h
              · split at h
                · rename_i hstore
                  have hlist := CartItemDB.ListByCart_db hits
                  have hfound := CartDB.Get_db_found hcart
                  have hid : cart.ID = cid := by simpa using List.find?_some hfound
                  refine ⟨cart, List.mem_of_find?_eq_some hfound, hstore, ?_⟩
                  cases its with
                  | nil => simp at hne
                  | cons item rest =>
                    have hmem : item ∈ c.committed.cart_items.filter
                        (fun row => row.CartID == cid) := by
                      rw [← hlist]
                      exact List.mem_cons_self _ _
                    rw [List.mem_filter] at hmem
                    exact ⟨item, hmem.1, by rw [hid]; simpa using hmem.2⟩
                · split at h
                  · simp [failedValidationResponse] at h
                  · simp at h

/-- The checkout handler panics only where its read-only part does. -/
theorem CreateOrderFromCartHandler_panic [Zero F] [Add F] [Sub F] [Mul F] [IntCast F]
    [LE F] [∀ a b : F, Decidable (a ≤ b)] {env : Env} {c : Conn F} {r : CheckoutForm F}
    (h : (CreateOrderFromCartHandler env c r).1 = .panic) :
    CreateOrderFromCartHandler.prepare env c r = .error .panic := by
  revert h
  unfold CreateOrderFromCartHandler
  split
  · rename_i reply hprep
    intro h
    dsimp only at h
    rw [hprep, h]
  · unfold CreateOrderFromCartHandler.finish
    dsimp only
    split <;> simp [serverErrorResponse, errorResponse]

/-- C12, amended (store binding at checkout).  With the requests served one
after the other, none between the statements of another: in every state
reached by cart requests (create-cart, add-item, update-quantity, remove-item,
delete-cart, starting without carts and items): every cart that has at least one item has a store;
the checkout handler, whatever the form and the faults, does not panic on the
dereference of the cart's store; and when it answers 201 for a stored cart, the
store of the order in the reply is the store of that cart. -/
theorem CreateOrderFromCartHandler_store_bound [Zero F] [Add F] [Sub F] [Mul F] [IntCast F]
    [LE F] [∀ a b : F, Decidable (a ≤ b)] (c : Conn F) (reached : CartReachable c) :
    c.committed.StoreBound ∧
    (∀ (env : Env) (r : CheckoutForm F), (CreateOrderFromCartHandler env c r).1 ≠ .panic) ∧
    (∀ (env : Env) (r : CheckoutForm F) (cartID : UUID) (cart : Cart) (message : String)
        (order : Order F) (items : List CartItem),
      r.cart_id = .valid cartID →
      c.committed.carts.find? (fun row => row.ID == cartID) = some cart →
      (CreateOrderFromCartHandler env c r).1 = .json 201 (.orderCreated message order items) →
      cart.StoreID = some order.StoreID) := by
  have hbound := (CartReachable.invariants reached).2.2.storeBound
  refine ⟨hbound, ?_, ?_⟩
  · intro env r h
    obtain ⟨cart, hc, hnone, hitem⟩ :=
      CreateOrderFromCartHandler.prepare_panic (CreateOrderFromCartHandler_panic h)
    exact hbound cart hc hitem hnone
  · intro env r cartID cart message order items hid hfind h
    obtain ⟨cid, header, its, hprep, herr, _, hbody⟩ := CreateOrderFromCartHandler_created h
    simp only [Payload.orderCreated.injEq] at hbody
    obtain ⟨_, horder, _⟩ := hbody
    obtain ⟨hcid, _, _, cart1, hcart1, _, _, hstore, _⟩ :=
      CreateOrderFromCartHandler.prepare_ok hprep
    rw [hid] at hcid
    simp only [FormUUID.valid.injEq] at hcid
    subst hcid
    have hfound := CartDB.Get_db_found hcart1
    rw [hfind] at hfound
    simp only [Option.some.injEq] at hfound
    subst hfound
    obtain ⟨⟨total, hst⟩, _⟩ := OrderDB.CreateFromCart_header env c header cartID its herr
    rw [hstore, horder, hst]
    rfl

/-- C12, on the sample store: after user 3 added product 1 of store 9 to a new
cart 7, the state is reachable and store-bound; the checkout of cart 7 with an
address does not panic and is answered with 201, the order being of store 9. -/
theorem CreateOrderFromCartHandler_store_bound_witness :
    CartReachable Sample.oneItemConn ∧ Sample.oneItemConn.committed.StoreBound ∧
    (CreateOrderFromCartHandler Sample.env Sample.oneItemConn (Sample.addressForm 7)).1
      ≠ .panic ∧
    (∃ order : Order Int,
      (CreateOrderFromCartHandler Sample.env Sample.oneItemConn (Sample.addressForm 7)).1
        = .json 201 (.orderCreated "تم إنشاء الطلب بنجاح" order
            Sample.oneItemConn.committed.cart_items) ∧
      order.StoreID = 9) :=
  ⟨Sample.oneItemConn_reachable,
    (CreateOrderFromCartHandler_store_bound Sample.oneItemConn Sample.oneItemConn_reachable).1,
    (CreateOrderFromCartHandler_store_bound Sample.oneItemConn Sample.oneItemConn_reachable).2.1
      Sample.env (Sample.addressForm 7),
    { Sample.order with ID := 100, TotalPrice := 180, CreatedAt := 5, UpdatedAt := 5 },
    by decide, by decide⟩

/-! ### C21: idempotent deletes -/

/-- C21 (idempotent deletes).  Through the pool, when the statement is answered,
`CartItemDB.Delete` and `CartDB.Delete` succeed for every id, whether a row has
it or not; the connection after a second delete of the same id is the
connection after the first.  `CartItemDB.Delete` removes the cart items of that
id and nothing else: every other cart item and every other table stays;
`CartDB.Delete` likewise for `carts`. -/
theorem CartItemDB.Delete_idempotent (c : Conn F) (id : UUID) :
    (∃ c1, CartItemDB.Delete .db false c id = .ok c1 ∧
      CartItemDB.Delete .db false c1 id = .ok c1 ∧
      c1 = { c with committed := { c.committed with
              cart_items := c.committed.cart_items.filter fun row => !(row.ID == id) } } ∧
      (∀ row ∈ c.committed.cart_items, row.ID ≠ id → row ∈ c1.committed.cart_items) ∧
      (∀ row ∈ c1.committed.cart_items, row ∈ c.committed.cart_items ∧ row.ID ≠ id)) ∧
    (∃ c2, CartDB.Delete .db false c id = .ok c2 ∧
      CartDB.Delete .db false c2 id = .ok c2 ∧
      c2 = { c with committed := { c.committed with
              carts := c.committed.carts.filter fun row => !(row.ID == id) } } ∧
      (∀ row ∈ c.committed.carts, row.ID ≠ id → row ∈ c2.committed.carts) ∧
      (∀ row ∈ c2.committed.carts, row ∈ c.committed.carts ∧ row.ID ≠ id)) := by
  constructor
  · refine ⟨_, rfl, ?_, rfl, ?_, ?_⟩
    · simp [CartItemDB.Delete, Conn.exec, List.filter_filter]
    · intro row hrow hne
      exact List.mem_filter.mpr ⟨hrow, by simpa using hne⟩
    · intro row hrow
      have := List.mem_filter.mp hrow
      exact ⟨this.1, by simpa using this.2⟩
  · refine ⟨_, rfl, ?_, rfl, ?_, ?_⟩
    · simp [CartDB.Delete, Conn.exec, List.filter_filter]
    · intro row hrow hne
      exact List.mem_filter.mpr ⟨hrow, by simpa using hne⟩
    · intro row hrow
      have := List.mem_filter.mp hrow
      exact ⟨this.1, by simpa using this.2⟩

/-! ### C24: who can delete a cart -/

/-- The owner of a stored cart who is no admin is refused by
`AdminOrSelfMiddleware` on `DELETE carts/{id}`, unless the cart id happens to
be the owner's user id: the middleware compares the caller's id with the path
value, which on this route is a cart id. -/
theorem Router.deleteCarts_owner_refused (env : CartEnv) (c : Conn F) (userID cartID : UUID)
    (user_role : List String)
    (hrole : isAdmin (user_role.filter fun roleStr => roleStr != "NULL" && roleStr != "")
      = false)
    (hne : userID ≠ cartID) :
    Router.deleteCarts (.claims (.valid userID) user_role) env c (.valid cartID)
      = (forbiddenResponse, c) := by
  have : (userID != cartID) = true := by simpa using hne
  simp [Router.deleteCarts, AuthMiddleware, AdminOrSelfMiddleware, FormUUID.inContext,
    FormUUID.inPath, hrole, this]

/-- An admin who does not own the stored cart passes the middleware and is
refused by the ownership check of `DeleteCartHandler`. -/
theorem Router.deleteCarts_admin_refused (env : CartEnv) (c : Conn F) (userID cartID : UUID)
    (user_role : List String) (cart : Cart)
    (hrole : isAdmin (user_role.filter fun roleStr => roleStr != "NULL" && roleStr != "")
      = true)
    (hread : env.failCartGet = false)
    (hfind : c.committed.carts.find? (fun row => row.ID == cartID) = some cart)
    (hne : cart.UserID ≠ userID) :
    Router.deleteCarts (.claims (.valid userID) user_role) env c (.valid cartID)
      = (forbiddenResponse, c) := by
  have : (cart.UserID != userID) = true := by simpa using hne
  simp [Router.deleteCarts, AuthMiddleware, AdminOrSelfMiddleware, FormUUID.inContext,
    FormUUID.inPath, hrole, DeleteCartHandler, CartDB.Get, hread, Conn.rows, hfind, this]

/-- C24 (refuted): on the sample store, where cart 7 belongs to user 3.  The
owner without the admin role is refused with 403 by `AdminOrSelfMiddleware`,
which compares the caller's user id 3 with the path value 7; an admin who is
not the owner, user 4, passes the middleware and is refused with 403 by the
ownership check of `DeleteCartHandler`; the cart is still stored in both
cases.  Only a caller who is the owner and an admin deletes the cart. -/
theorem Router.deleteCarts_owner_or_admin :
    Sample.conn.committed.carts
      = [{ ID := 7, UserID := 3, StoreID := some 9, CreatedAt := 0, UpdatedAt := 0 }] ∧
    Router.deleteCarts (.claims (.valid 3) ["customer"]) Sample.cartEnv Sample.conn (.valid 7)
      = (.json 403 (.error "you do not have permission to access this resource"),
          Sample.conn) ∧
    Router.deleteCarts (.claims (.valid 4) ["admin"]) Sample.cartEnv Sample.conn (.valid 7)
      = (.json 403 (.error "you do not have permission to access this resource"),
          Sample.conn) ∧
    (Router.deleteCarts (.claims (.valid 3) ["customer", "admin"]) Sample.cartEnv Sample.conn
        (.valid 7)).1 = .json 200 (.message "تم حذف السلة بنجاح") ∧
    (Router.deleteCarts (.claims (.valid 3) ["customer", "admin"]) Sample.cartEnv Sample.conn
        (.valid 7)).2.committed.carts = [] := by
  decide

/-! ### C25: who can update an order -/

/-- On a `PUT`, `StoreOwnerOnlyMiddleware` calls the next handler for every
caller whose id is a UUID: the store is looked up only for a `POST`. -/
theorem StoreOwnerOnlyMiddleware_put (failGetStore : Bool) (c : Conn F) (userID : UUID)
    (userRole : Option (List String)) (store_id : OptFormUUID) :
    StoreOwnerOnlyMiddleware failGetStore c { userID := .valid userID, userRole := userRole }
      .PUT store_id = none := by
  simp [StoreOwnerOnlyMiddleware]

/-- Every caller with a valid token whose `id` claim is a UUID reaches
`UpdateOrderHandler` on `PUT orders/{id}`, whatever stores the caller owns and
whatever roles the token carries. -/
theorem Router.putOrders_reaches [Zero F] [LE F] [∀ a b : F, Decidable (a ≤ b)]
    (userID : UUID) (user_role : List String) (failGetStore failGet failUpdate : Bool)
    (now : Time) (c : Conn F) (store_id : OptFormUUID) (r : UpdateOrderForm F) :
    Router.putOrders (.claims (.valid userID) user_role) failGetStore failGet failUpdate now c
        store_id r
      = UpdateOrderHandler failGet failUpdate now c r := by
  simp [Router.putOrders, AuthMiddleware, FormUUID.inContext, StoreOwnerOnlyMiddleware]

/-- C25 (refuted): on the sample store after the checkout, order 100 is pending
at store 9, which is owned by user 1.  User 4, who owns no store and whose
token carries the role "customer" only, sends `PUT orders/100` with status
"cancelled": `StoreOwnerOnlyMiddleware` lets the request through, since it
checks the store only for a `POST`; `UpdateOrderHandler` answers 200 and the
stored status is "cancelled". -/
theorem Router.putOrders_any_caller :
    Sample.orderedConn.committed.stores = [{ ID := 9, OwnerID := 1 }] ∧
    Sample.orderedConn.committed.orders.map (fun o => (o.ID, o.StoreID, o.Status))
      = [(100, 9, "pending")] ∧
    (Router.putOrders (.claims (.valid 4) ["customer"]) false false false 6 Sample.orderedConn
        .empty Sample.cancelForm).1.status? = some 200 ∧
    (Router.putOrders (.claims (.valid 4) ["customer"]) false false false 6 Sample.orderedConn
        .empty Sample.cancelForm).2.committed.orders.map (fun o => (o.ID, o.StoreID, o.Status))
      = [(100, 9, "cancelled")] := by
  decide

/-! ### C28: the caller of a checkout -/

/-- Once `AuthMiddleware` lets a request through, `POST orders` is
`CreateOrderFromCartHandler` on the form. -/
theorem Router.postOrders_authenticated [Zero F] [Add F] [Sub F] [Mul F] [IntCast F] [LE F]
    [∀ a b : F, Decidable (a ≤ b)] {cred : Credentials} {ctx : Context}
    (h : (AuthMiddleware cred : Except (Reply F) Context) = .ok ctx) (env : Env) (c : Conn F)
    (r : CheckoutForm F) :
    Router.postOrders cred env c r = CreateOrderFromCartHandler env c r := by
  unfold Router.postOrders
  rw [h]

/-- C28 (checkout ignores the caller's identity).  Two `POST orders` requests
with the same form, served on the same tables under the same faults, by two
callers that `AuthMiddleware` both lets through, get the same reply and leave
the same tables.  When the reply is a 201 for a stored cart, the order's user
and store are the cart's user and store, whoever the caller is. -/
theorem Router.postOrders_caller [Zero F] [Add F] [Sub F] [Mul F] [IntCast F] [LE F]
    [∀ a b : F, Decidable (a ≤ b)] (env : Env) (c : Conn F) (r : CheckoutForm F)
    (cred1 cred2 : Credentials) (ctx1 ctx2 : Context)
    (h1 : (AuthMiddleware cred1 : Except (Reply F) Context) = .ok ctx1)
    (h2 : (AuthMiddleware cred2 : Except (Reply F) Context) = .ok ctx2) :
    Router.postOrders cred1 env c r = Router.postOrders cred2 env c r ∧
    ∀ (cartID : UUID) (cart : Cart) (message : String) (order : Order F)
      (items : List CartItem),
      r.cart_id = .valid cartID →
      c.committed.carts.find? (fun row => row.ID == cartID) = some cart →
      (Router.postOrders cred1 env c r).1 = .json 201 (.orderCreated message order items) →
      order.UserID = cart.UserID ∧ cart.StoreID = some order.StoreID := by
  rw [Router.postOrders_authenticated h1, Router.postOrders_authenticated h2]
  refine ⟨rfl, ?_⟩
  intro cartID cart message order items hid hfind h
  obtain ⟨cid, header, its, hprep, herr, _, hbody⟩ := CreateOrderFromCartHandler_created h
  simp only [Payload.orderCreated.injEq] at hbody
  obtain ⟨_, horder, _⟩ := hbody
  obtain ⟨hcid, _, _, cart1, hcart1, _, _, hstore, howner, _⟩ :=
    CreateOrderFromCartHandler.prepare_ok hprep
  rw [hid] at hcid
  simp only [FormUUID.valid.injEq] at hcid
  subst hcid
  have hfound := CartDB.Get_db_found hcart1
  rw [hfind] at hfound
  simp only [Option.some.injEq] at hfound
  subst hfound
  obtain ⟨⟨total, hst⟩, _⟩ := OrderDB.CreateFromCart_header env c header cartID its herr
  have hu : order.UserID = header.UserID := by rw [horder, hst]; rfl
  have hs : order.StoreID = header.StoreID := by rw [horder, hst]; rfl
  exact ⟨by rw [hu, howner], by rw [hstore, hs]⟩

/-- C28, on the sample store: cart 7 belongs to user 3 and is bound to store 9.
The checkout of cart 7 sent by user 4 gets the same outcome as the one sent by
user 3: a 201 with an order of user 3 at store 9. -/
theorem Router.postOrders_caller_witness :
    Router.postOrders (.claims (.valid 4) ["customer"]) Sample.env Sample.conn
        (Sample.addressForm 7)
      = Router.postOrders (.claims (.valid 3) ["customer"]) Sample.env Sample.conn
        (Sample.addressForm 7) ∧
    (Router.postOrders (.claims (.valid 4) ["customer"]) Sample.env Sample.conn
        (Sample.addressForm 7)).1
      = .json 201 (.orderCreated "تم إنشاء الطلب بنجاح"
          { Sample.order with ID := 100, TotalPrice := 330, CreatedAt := 5, UpdatedAt := 5 }
          Sample.items) ∧
    ({ Sample.order with ID := 100, TotalPrice := 330, CreatedAt := 5, UpdatedAt := 5 }
        : Order Int).UserID = 3 ∧
    (some 9 : Option UUID)
      = some ({ Sample.order with ID := 100, TotalPrice := 330, CreatedAt := 5, UpdatedAt := 5 }
        : Order Int).StoreID :=
  have h := Router.postOrders_caller Sample.env Sample.conn (Sample.addressForm 7)
    (.claims (.valid 4) ["customer"]) (.claims (.valid 3) ["customer"])
    { userID := .valid 4, userRole := some ["customer"] }
    { userID := .valid 3, userRole := some ["customer"] } (by decide) (by decide)
  have h201 : (Router.postOrders (.claims (.valid 4) ["customer"]) Sample.env Sample.conn
      (Sample.addressForm 7)).1
      = .json 201 (.orderCreated "تم إنشاء الطلب بنجاح"
          { Sample.order with ID := 100, TotalPrice := 330, CreatedAt := 5, UpdatedAt := 5 }
          Sample.items) := by decide
  ⟨h.1, h201,
    (h.2 7 { ID := 7, UserID := 3, StoreID := some 9, CreatedAt := 0, UpdatedAt := 0 } _ _ _
      rfl (by decide) h201).1,
    (h.2 7 { ID := 7, UserID := 3, StoreID := some 9, CreatedAt := 0, UpdatedAt := 0 } _ _ _
      rfl (by decide) h201).2⟩

/-! ### C29: what an order update writes -/

/-- The connection after `OrderDB.Update` through the pool: the rows of `orders`
with the id of the argument carry its status, delivery data and the time of
the update; nothing else is written. -/
theorem OrderDB.Update_db {fail : Bool} {now : Time} {c c1 : Conn F} {order : Order F}
    (h : (OrderDB.Update .db fail now c order).2 = .ok c1) :
    c1 = { c with committed := { c.committed with
            orders := c.committed.orders.map fun row =>
              if row.ID == order.ID then
                { row with
                  Status := order.Status
                  DeliveryAddress := order.DeliveryAddress
                  DeliveryLatitude := order.DeliveryLatitude
                  DeliveryLongitude := order.DeliveryLongitude
                  DeliveryNotes := order.DeliveryNotes
                  UpdatedAt := now }
              else row } } := by
  unfold OrderDB.Update at h
  cases fail with
  | true => simp at h
  | false =>
    simp only [Bool.false_eq_true, if_false, Conn.exec, Except.ok.injEq] at h
    exact h.symm

/-- An order that passes `ValidateOrder` has one of the five statuses. -/
theorem ValidateOrder_valid_status [Zero F] [LE F] [∀ a b : F, Decidable (a ≤ b)]
    {order : Order F} (h : (ValidateOrder validator.New order).Valid = true) :
    validator.In order.Status ["pending", "processing", "shipped", "delivered", "cancelled"]
      = true := by
  unfold ValidateOrder at h
  obtain ⟨_, h⟩ := validator.Validator.Check_valid h
  obtain ⟨hin, _⟩ := validator.Validator.Check_valid h
  exact hin

/-- The outcome of `UpdateOrderHandler`: nothing is written, or `OrderDB.Update`
wrote an order that passed `ValidateOrder`. -/
theorem UpdateOrderHandler_writes [Zero F] [LE F] [∀ a b : F, Decidable (a ≤ b)]
    (failGet failUpdate : Bool) (now : Time) (c : Conn F) (r : UpdateOrderForm F) :
    (UpdateOrderHandler failGet failUpdate now c r).2 = c ∨
    ∃ (order : Order F) (c1 : Conn F), (ValidateOrder validator.New order).Valid = true ∧
      (OrderDB.Update .db failUpdate now c order).2 = .ok c1 ∧
      (UpdateOrderHandler failGet failUpdate now c r).2 = c1 := by
  unfold UpdateOrderHandler
  split
  · exact .inl rfl
  · split
    · exact .inl rfl
    · rename_i order0 _
      dsimp only
      split
      · exact .inl rfl
      · rename_i hv
        split
        · exact .inl rfl
        · rename_i order1 c1 hupd
          right
          exact ⟨r.applied order0, c1, by simpa using hv, by rw [hupd], rfl⟩

/-- C29 (order update frame).  `OrderDB.Update`, when it succeeds, leaves as many
orders as before, in the same positions; every order keeps its id, user, store,
total price and creation time, and an order whose id is not the argument's is
unchanged altogether; the order items and all other tables are unchanged.
`UpdateOrderHandler` writes only through `OrderDB.Update` and only an order
that passed `ValidateOrder`: when every stored status is one of pending,
processing, shipped, delivered, cancelled before the request, so it is after
it, whatever the request carries. -/
theorem OrderDB.Update_frame [Zero F] [LE F] [∀ a b : F, Decidable (a ≤ b)]
    (failGet failUpdate : Bool) (now : Time) (c : Conn F) (order : Order F)
    (r : UpdateOrderForm F) :
    (∀ c1, (OrderDB.Update .db failUpdate now c order).2 = .ok c1 →
      List.Forall₂
        (fun before after : Order F =>
          after.ID = before.ID ∧ after.UserID = before.UserID ∧
          after.StoreID = before.StoreID ∧ after.TotalPrice = before.TotalPrice ∧
          after.CreatedAt = before.CreatedAt ∧ (before.ID ≠ order.ID → after = before))
        c.committed.orders c1.committed.orders ∧
      c1.committed.order_items = c.committed.order_items ∧
      c1.committed.users = c.committed.users ∧ c1.committed.products = c.committed.products ∧
      c1.committed.carts = c.committed.carts ∧
      c1.committed.cart_items = c.committed.cart_items ∧
      c1.committed.stores = c.committed.stores ∧ c1.tx = c.tx) ∧
    ((∀ row ∈ c.committed.orders,
        validator.In row.Status ["pending", "processing", "shipped", "delivered", "cancelled"]
          = true) →
      (UpdateOrderHandler failGet failUpdate now c r).2.committed.order_items
        = c.committed.order_items ∧
      ∀ row ∈ (UpdateOrderHandler failGet failUpdate now c r).2.committed.orders,
        validator.In row.Status ["pending", "processing", "shipped", "delivered", "cancelled"]
          = true) := by
  constructor
  · intro c1 h
    rw [OrderDB.Update_db h]
    refine ⟨?_, rfl, rfl, rfl, rfl, rfl, rfl, rfl⟩
    rw [List.forall₂_map_right_iff]
    apply List.forall₂_same.mpr
    intro row _
    by_cases hid : row.ID = order.ID
    · simp [hid]
    · simp [hid]
  · intro hstatus
    rcases UpdateOrderHandler_writes failGet failUpdate now c r with
      h | ⟨order1, c1, hv, h, hc1⟩
    · rw [h]
      exact ⟨rfl, hstatus⟩
    · rw [hc1, OrderDB.Update_db h]
      refine ⟨rfl, ?_⟩
      intro row hrow
      obtain ⟨row0, hrow0, rfl⟩ := List.mem_map.mp hrow
      have hv1 := ValidateOrder_valid_status hv
      by_cases hid : row0.ID = order1.ID
      · have : (row0.ID == order1.ID) = true := by simpa using hid
        simp only [this, if_true]
        exact hv1
      · have : (row0.ID == order1.ID) = false := by simpa using hid
        simp only [this, Bool.false_eq_true, if_false]
        exact hstatus row0 hrow0

/-! ### C30: availability on a product update -/

/-- The image step of a product update keeps the id and the availability. -/
theorem UpdateProductForm.setImage_ok {r : UpdateProductForm F} {p p2 : Product F}
    (h : r.setImage p = .ok p2) : p2.ID = p.ID ∧ p2.IsAvailable = p.IsAvailable := by
  unfold UpdateProductForm.setImage at h
  split at h
  · cases h; exact ⟨rfl, rfl⟩
  · split at h
    · cases h; exact ⟨rfl, rfl⟩
    · cases h
    · cases h
    · cases h; exact ⟨rfl, rfl⟩

/-- The product a product update validates has the id of the loaded one, and is
available exactly when the `is_available` field is empty or "true". -/
theorem UpdateProductForm.applied_ok [Zero F] [LT F] [∀ a b : F, Decidable (a < b)]
    {r : UpdateProductForm F} {p p2 : Product F} (h : r.applied p = .ok p2) :
    p2.ID = p.ID ∧ p2.IsAvailable = (r.is_available == "" || r.is_available == "true") := by
  unfold UpdateProductForm.applied at h
  dsimp only at h
  split at h
  · cases h
  · rename_i p3 hprice
    split at h
    · cases h
    · rename_i p4 hdiscount
      split at h
      · cases h
      · rename_i p5 hstock
        obtain ⟨hid, hav⟩ := UpdateProductForm.setImage_ok h
        have h3 : p3.ID = p.ID := by
          unfold UpdateProductForm.setPrice at hprice
          split at hprice
          · cases hprice; split <;> split <;> rfl
          · cases hprice
          · split at hprice
            · cases hprice
            · cases hprice; split <;> split <;> rfl
        have h4 : p4.ID = p3.ID := by
          unfold UpdateProductForm.setDiscount at hdiscount
          split at hdiscount
          · cases hdiscount; rfl
          · cases hdiscount
          · split at hdiscount
            · cases hdiscount
            · cases hdiscount; rfl
        have h5 : p5.ID = p4.ID := by
          unfold UpdateProductForm.setStock at hstock
          split at hstock
          · cases hstock; rfl
          · cases hstock
          · split at hstock
            · cases hstock
            · cases hstock; rfl
        constructor
        · rw [hid]
          unfold UpdateProductForm.setAvailable
          split
          · exact h5.trans (h4.trans h3)
          · exact h5.trans (h4.trans h3)
        · rw [hav]
          unfold UpdateProductForm.setAvailable
          by_cases he : r.is_available = ""
          · simp [he]
          · simp [he]

/-- What a 200 of `UpdateProductHandler` tells: the product in the reply is the
one validated, stamped with the time of the update; it went through
`ProductDB.Update`, which left the connection of the reply. -/
theorem UpdateProductHandler_updated [Zero F] [LE F] [LT F] [∀ a b : F, Decidable (a ≤ b)]
    [∀ a b : F, Decidable (a < b)] {failGet failUpdate : Bool} {now : Time} {c : Conn F}
    {r : UpdateProductForm F} {message : String} {product : Product F}
    (h : (UpdateProductHandler failGet failUpdate now c r).1
      = .json 200 (.productUpdated message product)) :
    ∃ (id : UUID) (row p2 : Product F) (c1 : Conn F), r.id = .valid id ∧
      c.committed.product? id = some row ∧ p2.ID = row.ID ∧
      p2.IsAvailable = (r.is_available == "" || r.is_available == "true") ∧
      product = { p2 with UpdatedAt := now } ∧
      ProductDB.Update .db failUpdate now c p2 = .ok c1 ∧
      (UpdateProductHandler failGet failUpdate now c r).2 = c1 := by
  revert h
  unfold UpdateProductHandler
  split
  · intro h; simp [badRequestResponse, errorResponse] at h
  · rename_i id hid
    split
    · intro h
      exfalso
      revert h
      unfold handleRetrievalError
      split <;> simp [errorResponse, serverErrorResponse]
    · rename_i p0 hget
      dsimp only
      split
      · rename_i reply happ
        intro h
        exfalso
        dsimp only at h
        subst h
        revert happ
        unfold UpdateProductForm.applied
        dsimp only
        split
        · rename_i hprice
          intro h
          cases h
          unfold UpdateProductForm.setPrice at hprice
          split at hprice
          · cases hprice
          · simp [badRequestResponse, errorResponse] at hprice
          · split at hprice
            · simp [badRequestResponse, errorResponse] at hprice
            · cases hprice
        · split
          · rename_i hdiscount
            intro h
            cases h
            unfold UpdateProductForm.setDiscount at hdiscount
            split at hdiscount
            · cases hdiscount
            · simp [badRequestResponse, errorResponse] at hdiscount
            · split at hdiscount
              · simp [badRequestResponse, errorResponse] at hdiscount
              · cases hdiscount
          · split
            · rename_i hstock
              intro h
              cases h
              unfold UpdateProductForm.setStock at hstock
              split at hstock
              · cases hstock
              · simp [badRequestResponse, errorResponse] at hstock
              · split at hstock
                · simp [badRequestResponse, errorResponse] at hstock
                · cases hstock
            · unfold UpdateProductForm.setImage
              split
              · intro h; cases h
              · split
                · intro h; cases h
                · simp [errorResponse]
                · simp [errorResponse]
                · intro h; cases h
      · rename_i p2 happ
        split
        · intro h; simp [failedValidationResponse] at h
        · split
          · intro h; simp [serverErrorResponse, errorResponse] at h
          · rename_i c1 hupd
            intro h
            simp only [Reply.json.injEq, Payload.productUpdated.injEq, true_and] at h
            obtain ⟨row, hrow, hp0⟩ := ProductDB.Get_db hget
            obtain ⟨hid2, hav⟩ := UpdateProductForm.applied_ok happ
            refine ⟨id, row, p2, c1, hid, hrow, ?_, hav, h.2.symm, hupd, rfl⟩
            rw [hid2, hp0]

/-- C30 (availability reset on product update).  When `UpdateProductHandler`
answers 200, the request having passed validation and the write having been
answered, the product of the reply and the stored product of that id are
available exactly when the `is_available` field is empty or is "true",
whatever the availability stored before: an omitted field makes the product
available, and only a field with another value than "true" makes it
unavailable. -/
theorem UpdateProductHandler_availability [Zero F] [LE F] [LT F]
    [∀ a b : F, Decidable (a ≤ b)] [∀ a b : F, Decidable (a < b)]
    (failGet failUpdate : Bool) (now : Time) (c : Conn F) (r : UpdateProductForm F)
    (id : UUID) (message : String) (product : Product F) (hid : r.id = .valid id)
    (h : (UpdateProductHandler failGet failUpdate now c r).1
      = .json 200 (.productUpdated message product)) :
    product.IsAvailable = (r.is_available == "" || r.is_available == "true") ∧
    ∃ before after : Product F, c.committed.product? id = some before ∧
      (UpdateProductHandler failGet failUpdate now c r).2.committed.product? id = some after ∧
      after.IsAvailable = (r.is_available == "" || r.is_available == "true") := by
  obtain ⟨id2, row, p2, c1, hid2, hrow, hpid, hav, hprod, hupd, hconn⟩ :=
    UpdateProductHandler_updated h
  rw [hid] at hid2
  simp only [FormUUID.valid.injEq] at hid2
  subst hid2
  refine ⟨by rw [hprod]; exact hav, row, ?_⟩
  have hrid : row.ID = id := by
    unfold Tables.product? at hrow
    simpa using List.find?_some hrow
  rw [hconn]
  unfold ProductDB.Update at hupd
  cases failUpdate with
  | true => simp at hupd
  | false =>
    simp only [Bool.false_eq_true, if_false, Conn.exec, Except.ok.injEq] at hupd
    subst hupd
    unfold Tables.product? at hrow ⊢
    dsimp only
    rw [Tables.find?_update]
    · rw [hpid, hrid]
      simp only [if_true, hrow, Option.map_some']
      exact ⟨_, trivial, rfl, hav⟩
    · intro _; rfl

/-- C30, on the sample store with every product marked unavailable: renaming
product 2 with no `is_available` field is answered with 200, and product 2 is
stored as available afterwards. -/
theorem UpdateProductHandler_availability_witness :
    Sample.pausedConn.committed.product? 2
      = some { ID := 2, StoreID := 9, Name := "cup", Description := none, Price := 50
               Discount := 0, Image := none, StockQuantity := 10, IsAvailable := false
               CreatedAt := 0, UpdatedAt := 0 } ∧
    (UpdateProductHandler false false 6 Sample.pausedConn Sample.renameForm).1
      = .json 200 (.productUpdated "تم تحديث المنتج بنجاح"
          { ID := 2, StoreID := 9, Name := "mug", Description := none, Price := 50
            Discount := 0, Image := none, StockQuantity := 10, IsAvailable := true
            CreatedAt := 0, UpdatedAt := 6 }) ∧
    ∃ before after : Product Int, Sample.pausedConn.committed.product? 2 = some before ∧
      (UpdateProductHandler false false 6 Sample.pausedConn
        Sample.renameForm).2.committed.product? 2 = some after ∧
      after.IsAvailable = (Sample.renameForm.is_available == "" ||
        Sample.renameForm.is_available == "true") :=
  ⟨by decide, by decide,
    (UpdateProductHandler_availability false false 6 Sample.pausedConn Sample.renameForm 2
      "تم تحديث المنتج بنجاح"
      { ID := 2, StoreID := 9, Name := "mug", Description := none, Price := 50
        Discount := 0, Image := none, StockQuantity := 10, IsAvailable := true
        CreatedAt := 0, UpdatedAt := 6 } rfl (by decide)).2⟩

/-! ### C27: the header against the lines -/

/-- The line amounts of the first loop, added up, are the amounts
`price_at_order * quantity` of the order lines of the second loop, added up in
the same order: both loops read the same stored products. -/
theorem Tables.foldl_amounts [Add F] [Sub F] [Mul F] [IntCast F] (t : Tables F)
    (orderID : UUID) (items : List CartItem) (amounts : List F) (lines : List (OrderItem F))
    (acc : F) (ha : List.Forall₂ (fun item line => t.LineAmount item line) items amounts)
    (hl : List.Forall₂ (fun item line => t.OrderLine orderID item line) items lines) :
    amounts.foldl (fun a b => a + b) acc
      = lines.foldl (fun a line => a + line.PriceAtOrder * (line.Quantity : F)) acc := by
  induction ha generalizing lines acc with
  | nil =>
    cases hl
    rfl
  | cons hhead _ ih =>
    cases hl with
    | cons hline hrest =>
      obtain ⟨p, hp, hamount⟩ := hhead
      obtain ⟨_, _, hq, p2, hp2, hprice⟩ := hline
      rw [hp] at hp2
      simp only [Option.some.injEq] at hp2
      subst hp2
      simp only [List.foldl_cons]
      rw [hamount, hprice, hq]
      exact ih _ _ hrest

/-- Every order line of a list of cart items belongs to the order and repeats
the quantity of one of the items, its price being `price - discount` of that
item's stored product. -/
theorem Tables.OrderLine_lines [Sub F] (t : Tables F) (orderID : UUID) (items : List CartItem)
    (lines : List (OrderItem F))
    (hl : List.Forall₂ (fun item line => t.OrderLine orderID item line) items lines) :
    ∀ line ∈ lines, line.OrderID = orderID ∧
      ∃ item ∈ items, line.Quantity = item.Quantity ∧
        ∃ p, t.product? item.ProductID = some p ∧ line.PriceAtOrder = p.Price - p.Discount := by
  induction hl with
  | nil =>
    intro line hline
    cases hline
  | cons hhead _ ih =>
    intro line hline
    rw [List.mem_cons] at hline
    rcases hline with rfl | hline
    · obtain ⟨hid, _, hq, hp⟩ := hhead
      exact ⟨hid, _, List.mem_cons_self _ _, hq, hp⟩
    · obtain ⟨hid, item, hitem, hrest⟩ := ih line hline
      exact ⟨hid, item, List.mem_cons_of_mem _ hitem, hrest⟩

/-- What a checkout that reports no error persists: the order of the result,
with the id handed out, appended to `orders`; one order line per cart item
appended to `order_items`; and the total of the order is the amounts
`price_at_order * quantity` of these lines added up from zero in their order. -/
theorem OrderDB.CreateFromCart_amounts [Zero F] [Add F] [Sub F] [Mul F] [IntCast F]
    (env : Env) (c : Conn F) (order : Order F) (cartID : UUID) (cartItems : List CartItem)
    (h : (OrderDB.CreateFromCart env c order cartID cartItems).err = none) :
    ∃ lines : List (OrderItem F),
      (OrderDB.CreateFromCart env c order cartID cartItems).conn.committed.order_items
        = c.committed.order_items ++ lines ∧
      List.Forall₂ (fun item line => c.committed.OrderLine env.orderID item line)
        cartItems lines ∧
      (OrderDB.CreateFromCart env c order cartID cartItems).order.ID = env.orderID ∧
      (OrderDB.CreateFromCart env c order cartID cartItems).order.TotalPrice
        = lines.foldl (fun a line => a + line.PriceAtOrder * (line.Quantity : F)) 0 := by
  obtain ⟨total, c2, c3, t3, hval, hloop, hclear, ht3, hord, hconn⟩ :=
    OrderDB.CreateFromCart_ok env c order cartID cartItems h
  obtain ⟨amounts, ha, ht⟩ := OrderDB.CreateFromCart.validate_ok env c cartItems 0 0 total hval
  obtain ⟨t2, lines, h2, _, _, _, _, _, hoi, hall⟩ :=
    OrderDB.CreateFromCart.createItems_ok env env.orderID cartItems 0 _ c2 _ rfl hloop
  obtain ⟨_, h3⟩ := OrderDB.CreateFromCart.clearItems_ok env cartItems 0 c2 c3 t2 h2 hclear
  rw [ht3] at h3
  simp only [Option.some.injEq] at h3
  refine ⟨lines, ?_, hall, ?_, ?_⟩
  · rw [hconn, h3]
    exact hoi
  · rw [hord]
    rfl
  · rw [hord]
    show total = _
    rw [ht]
    exact Tables.foldl_amounts c.committed env.orderID cartItems amounts lines 0 ha hall

/-- C27 (header matches lines).  When `CreateFromCart` reports no error, no
order item stored before carrying the id handed out for the new order: the
total price of the persisted order is the sum, taken from zero in table order,
of `price_at_order * quantity` over the persisted order items of that order.
(The total comes from the first read of each product and `price_at_order` from
the second; both reads go through the pool and see the same committed row.) -/
theorem OrderDB.CreateFromCart_header_matches_lines [Zero F] [Add F] [Sub F] [Mul F]
    [IntCast F] (env : Env) (c : Conn F) (order : Order F) (cartID : UUID)
    (cartItems : List CartItem)
    (h : (OrderDB.CreateFromCart env c order cartID cartItems).err = none)
    (hfresh : ∀ line ∈ c.committed.order_items, line.OrderID ≠ env.orderID) :
    (OrderDB.CreateFromCart env c order cartID cartItems).conn.committed.orders
      = c.committed.orders ++ [(OrderDB.CreateFromCart env c order cartID cartItems).order] ∧
    (OrderDB.CreateFromCart env c order cartID cartItems).order.TotalPrice
      = ((OrderDB.CreateFromCart env c order cartID cartItems).conn.committed.order_items.filter
          fun line =>
            line.OrderID == (OrderDB.CreateFromCart env c order cartID cartItems).order.ID).foldl
        (fun a line => a + line.PriceAtOrder * (line.Quantity : F)) 0 := by
  obtain ⟨lines, hoi, hall, hid, htotal⟩ :=
    OrderDB.CreateFromCart_amounts env c order cartID cartItems h
  refine ⟨(OrderDB.CreateFromCart_header env c order cartID cartItems h).2, ?_⟩
  rw [htotal, hoi, hid, List.filter_append]
  have hold : c.committed.order_items.filter (fun line => line.OrderID == env.orderID) = [] := by
    rw [List.filter_eq_nil_iff]
    intro line hline
    simpa using hfresh line hline
  have hnew : lines.filter (fun line => line.OrderID == env.orderID) = lines := by
    rw [List.filter_eq_self]
    intro line hline
    simpa using (Tables.OrderLine_lines c.committed env.orderID cartItems lines hall line hline).1
  rw [hold, hnew, List.nil_append]

/-- C27, on the sample cart: the checkout succeeds, the order items table was
empty, and the total 330 is 90 * 2 + 50 * 3, added up over the two persisted
lines of order 100. -/
theorem OrderDB.CreateFromCart_header_matches_lines_witness :
    (OrderDB.CreateFromCart Sample.env Sample.conn Sample.order 7 Sample.items).order.TotalPrice
      = 330 ∧
    (OrderDB.CreateFromCart Sample.env Sample.conn Sample.order 7
        Sample.items).conn.committed.order_items.map
        (fun line => (line.OrderID, line.PriceAtOrder, line.Quantity))
      = [(100, 90, 2), (100, 50, 3)] ∧
    (OrderDB.CreateFromCart Sample.env Sample.conn Sample.order 7 Sample.items).order.TotalPrice
      = ((OrderDB.CreateFromCart Sample.env Sample.conn Sample.order 7
          Sample.items).conn.committed.order_items.filter
          fun line => line.OrderID
            == (OrderDB.CreateFromCart Sample.env Sample.conn Sample.order 7
              Sample.items).order.ID).foldl
        (fun a line => a + line.PriceAtOrder * (line.Quantity : Int)) 0 :=
  ⟨by decide, by decide,
    (OrderDB.CreateFromCart_header_matches_lines Sample.env Sample.conn Sample.order 7
      Sample.items (by decide) (fun _ hline => nomatch hline)).2⟩

/-! ### C26: non-negative amounts -/

/-- A product that passes `ValidateProduct` has a non-negative discount that
does not exceed its price. -/
theorem ValidateProduct_valid [Zero F] [LE F] [∀ a b : F, Decidable (a ≤ b)]
    {product : Product F} (h : (ValidateProduct validator.New product).Valid = true) :
    (0 : F) ≤ product.Price ∧ (0 : F) ≤ product.Discount ∧
      product.Discount ≤ product.Price := by
  unfold ValidateProduct at h
  obtain ⟨_, h⟩ := validator.Validator.Check_valid h
  obtain ⟨h6, h⟩ := validator.Validator.Check_valid h
  obtain ⟨h5, h⟩ := validator.Validator.Check_valid h
  obtain ⟨h4, _⟩ := validator.Validator.Check_valid h
  simp only [decide_eq_true_eq, ge_iff_le] at h4 h5 h6
  exact ⟨h4, h5, h6⟩

/-- Amounts `price * quantity` of lines with non-negative prices and positive
quantities, added to a non-negative start, stay non-negative, where addition
and the product with a positive integer keep numbers non-negative. -/
theorem OrderItem.foldl_nonneg [Zero F] [Add F] [Mul F] [IntCast F] [LE F]
    (hmul : ∀ (a : F) (q : Int), 0 ≤ a → 0 < q → 0 ≤ a * (q : F))
    (hadd : ∀ a b : F, 0 ≤ a → 0 ≤ b → 0 ≤ a + b)
    (lines : List (OrderItem F)) (acc : F) (hacc : 0 ≤ acc)
    (hl : ∀ line ∈ lines, 0 < line.Quantity ∧ 0 ≤ line.PriceAtOrder) :
    0 ≤ lines.foldl (fun a line => a + line.PriceAtOrder * (line.Quantity : F)) acc := by
  induction lines generalizing acc with
  | nil => exact hacc
  | cons line rest ih =>
    simp only [List.foldl_cons]
    have hline := hl line (List.mem_cons_self _ _)
    exact ih _ (hadd _ _ hacc (hmul _ _ hline.2 hline.1))
      (fun l hmem => hl l (List.mem_cons_of_mem _ hmem))

/-- The order `≤` of `Float64` is the Boolean comparison. -/
theorem Float64.le_iff (a b : Float64) : a ≤ b ↔ Float64.le a b = true := Iff.rfl

/-- Zero of `Float64` is the finite number 0. -/
theorem Float64.zero_eq : (0 : Float64) = .finite 0 := rfl

/-- Over `Float64`, `a - b` is non-negative when `0 ≤ b ≤ a` and `b` is not
`+Inf`. -/
theorem Float64.sub_nonneg (a b : Float64) (hb : 0 ≤ b) (hab : b ≤ a) (hfin : b ≠ .posInf) :
    0 ≤ a - b := by
  rw [Float64.le_iff, Float64.zero_eq] at *
  show Float64.le (.finite 0) (a.add b.neg) = true
  cases a <;> cases b <;>
    simp_all [Float64.le, Float64.add, Float64.neg]

/-- Over `Float64`, the product of a non-negative number with a positive
integer is non-negative. -/
theorem Float64.mul_nonneg (a : Float64) (q : Int) (ha : 0 ≤ a) (hq : 0 < q) :
    0 ≤ a * (q : Float64) := by
  rw [Float64.le_iff, Float64.zero_eq] at *
  show Float64.le (.finite 0) (a.mul (.finite q)) = true
  cases a with
  | finite val =>
    simp only [Float64.le, Float64.mul, decide_eq_true_eq] at ha ⊢
    exact Int.mul_nonneg ha (by omega)
  | posInf =>
    have hne : q ≠ 0 := by omega
    simp [Float64.le, Float64.mul, Float64.scaleInf, hne, hq]
  | negInf => simp [Float64.le] at ha
  | NaN => simp [Float64.le] at ha

/-- Over `Float64`, the sum of two non-negative numbers is non-negative. -/
theorem Float64.add_nonneg (a b : Float64) (ha : 0 ≤ a) (hb : 0 ≤ b) : 0 ≤ a + b := by
  rw [Float64.le_iff, Float64.zero_eq] at *
  show Float64.le (.finite 0) (a.add b) = true
  cases a <;> cases b <;> simp_all [Float64.le, Float64.add]
  omega

/-- C26 as stated fails over `float64`.  A product whose price and discount are
both `+Inf` passes `ValidateProduct`, since `+Inf <= +Inf`, and the cart item
passes `ValidateCartItem`; the checkout of cart 7 is answered with status 201
and has persisted an order item with `price_at_order` NaN, which is
`+Inf - +Inf`, and an order with total NaN; `NaN >= 0` is false. -/
theorem CreateOrderFromCartHandler_nonneg_counterexample :
    (∀ p ∈ (Sample.floatConn .posInf .posInf).committed.products,
      (ValidateProduct validator.New p).Valid = true) ∧
    (∀ item ∈ (Sample.floatConn .posInf .posInf).committed.cart_items,
      (ValidateCartItem validator.New item).Valid = true) ∧
    (CreateOrderFromCartHandler Sample.env (Sample.floatConn .posInf .posInf)
      Sample.floatForm).1.isCreated = true ∧
    (CreateOrderFromCartHandler Sample.env (Sample.floatConn .posInf .posInf)
        Sample.floatForm).2.committed.order_items
      = [{ ID := 200, OrderID := 100, ProductID := 1, Quantity := 2, PriceAtOrder := .NaN
           CreatedAt := 5 }] ∧
    (CreateOrderFromCartHandler Sample.env (Sample.floatConn .posInf .posInf)
        Sample.floatForm).2.committed.orders.map (fun order => order.TotalPrice)
      = [Float64.NaN] ∧
    ¬ (0 : Float64) ≤ Float64.NaN := by
  decide

/-- C26, amended (non-negative order amounts).  Over numbers with a value `inf`
where zero is non-negative, `a - b` is non-negative when `0 ≤ b ≤ a` and `b` is
not `inf`, and sums and products with a positive integer of non-negative
numbers are non-negative, as is the case of `float64` with `+Inf` for `inf`:
when every stored product passes `ValidateProduct` and has a discount other
than `inf`, and every stored cart item passes `ValidateCartItem`, a checkout
answered with 201 has persisted the order of the reply with a non-negative
total, and every order item it persisted has a positive quantity and a
non-negative `price_at_order`. -/
theorem CreateOrderFromCartHandler_nonneg [Zero F] [Add F] [Sub F] [Mul F] [IntCast F] [LE F]
    [∀ a b : F, Decidable (a ≤ b)] (env : Env) (c : Conn F) (r : CheckoutForm F)
    (message : String) (order : Order F) (items : List CartItem) (inf : F)
    (hzero : (0 : F) ≤ 0) (hsub : ∀ a b : F, 0 ≤ b → b ≤ a → b ≠ inf → 0 ≤ a - b)
    (hmul : ∀ (a : F) (q : Int), 0 ≤ a → 0 < q → 0 ≤ a * (q : F))
    (hadd : ∀ a b : F, 0 ≤ a → 0 ≤ b → 0 ≤ a + b)
    (hproducts : ∀ p ∈ c.committed.products, (ValidateProduct validator.New p).Valid = true)
    (hfinite : ∀ p ∈ c.committed.products, p.Discount ≠ inf)
    (hitems : ∀ item ∈ c.committed.cart_items,
      (ValidateCartItem validator.New item).Valid = true)
    (h : (CreateOrderFromCartHandler env c r).1
      = .json 201 (.orderCreated message order items)) :
    (CreateOrderFromCartHandler env c r).2.committed.orders = c.committed.orders ++ [order] ∧
    0 ≤ order.TotalPrice ∧
    ∃ lines : List (OrderItem F),
      (CreateOrderFromCartHandler env c r).2.committed.order_items
        = c.committed.order_items ++ lines ∧
      ∀ line ∈ lines, 0 < line.Quantity ∧ 0 ≤ line.PriceAtOrder := by
  obtain ⟨cid, header, its, hprep, herr, hconn, hbody⟩ := CreateOrderFromCartHandler_created h
  simp only [Payload.orderCreated.injEq] at hbody
  obtain ⟨_, horder, _⟩ := hbody
  obtain ⟨_, _, _, cart, _, hlist, _⟩ := CreateOrderFromCartHandler.prepare_ok hprep
  have hits := CartItemDB.ListByCart_db hlist
  obtain ⟨lines, hoi, hall, _, htotal⟩ :=
    OrderDB.CreateFromCart_amounts env c header cid its herr
  have hlines : ∀ line ∈ lines, 0 < line.Quantity ∧ 0 ≤ line.PriceAtOrder := by
    intro line hline
    obtain ⟨_, item, hitem, hq, p, hp, hprice⟩ :=
      Tables.OrderLine_lines c.committed env.orderID its lines hall line hline
    rw [hits] at hitem
    have hstored := hitems item (List.mem_of_mem_filter hitem)
    have hpos := ((ValidateCartItem_valid item).mp hstored).2.2
    have hmem := List.mem_of_find?_eq_some hp
    have hpv := ValidateProduct_valid (hproducts p hmem)
    exact ⟨by rw [hq]; exact hpos,
      by rw [hprice]; exact hsub _ _ hpv.2.1 hpv.2.2 (hfinite p hmem)⟩
  refine ⟨?_, ?_, lines, by rw [hconn, hoi], hlines⟩
  · rw [hconn, horder]
    exact (OrderDB.CreateFromCart_header env c header cid its herr).2
  · rw [horder, htotal]
    exact OrderItem.foldl_nonneg hmul hadd lines 0 hzero hlines

/-- C26 amended, over `Float64` with `+Inf` for `inf`: the laws hold of every
value, the infinities and NaN included; on the store whose product costs 100
with discount 10, the product and the cart item are valid, the checkout of
cart 7 is answered with 201, and the order persisted has total 180 and one line
of quantity 2 at price 90. -/
theorem CreateOrderFromCartHandler_nonneg_witness :
    (CreateOrderFromCartHandler Sample.env (Sample.floatConn (.finite 100) (.finite 10))
        Sample.floatForm).2.committed.orders
      = (Sample.floatConn (.finite 100) (.finite 10)).committed.orders ++
        [{ ID := 100, UserID := 3, StoreID := 9, TotalPrice := .finite 180, Status := "pending"
           DeliveryAddress := "home", DeliveryLatitude := none, DeliveryLongitude := none
           DeliveryNotes := none, CreatedAt := 5, UpdatedAt := 5 }] ∧
    (0 : Float64) ≤ Float64.finite 180 ∧
    ∃ lines : List (OrderItem Float64),
      (CreateOrderFromCartHandler Sample.env (Sample.floatConn (.finite 100) (.finite 10))
          Sample.floatForm).2.committed.order_items
        = (Sample.floatConn (.finite 100) (.finite 10)).committed.order_items ++ lines ∧
      ∀ line ∈ lines, 0 < line.Quantity ∧ 0 ≤ line.PriceAtOrder :=
  CreateOrderFromCartHandler_nonneg Sample.env (Sample.floatConn (.finite 100) (.finite 10))
    Sample.floatForm "تم إنشاء الطلب بنجاح"
    { ID := 100, UserID := 3, StoreID := 9, TotalPrice := .finite 180, Status := "pending"
      DeliveryAddress := "home", DeliveryLatitude := none, DeliveryLongitude := none
      DeliveryNotes := none, CreatedAt := 5, UpdatedAt := 5 }
    [{ ID := 11, CartID := 7, ProductID := 1, Quantity := 2, CreatedAt := 0, UpdatedAt := 0 }]
    Float64.posInf (by decide) Float64.sub_nonneg Float64.mul_nonneg Float64.add_nonneg
    (by decide) (by decide) (by decide) (by decide)

/-! ### C22: carts per user -/

/-- C22 as stated fails.  After user 3 added product 1, which created cart 7
bound to store 9, the state is reachable; the create-cart request of user 3
with `store_id` 8 is answered with 201, and the state it leaves, reachable too,
holds two carts of user 3. -/
theorem CreateCartHandler_one_cart_counterexample :
    CartReachable Sample.oneItemConn ∧
    Sample.oneItemConn.committed.carts.map (fun cart => (cart.ID, cart.UserID, cart.StoreID))
      = [(7, 3, some 9)] ∧
    (CreateCartHandler (CartEnv.calm 8 12 6) Sample.oneItemConn Sample.secondCartForm).1
      = .json 201 (.cartCreated "تم إنشاء السلة بنجاح"
          { ID := 8, UserID := 3, StoreID := some 8, CreatedAt := 6, UpdatedAt := 6 }) ∧
    CartReachable
      (CreateCartHandler (CartEnv.calm 8 12 6) Sample.oneItemConn Sample.secondCartForm).2 ∧
    (CreateCartHandler (CartEnv.calm 8 12 6) Sample.oneItemConn
        Sample.secondCartForm).2.committed.carts.map
        (fun cart => (cart.ID, cart.UserID, cart.StoreID))
      = [(7, 3, some 9), (8, 3, some 8)] :=
  ⟨Sample.oneItemConn_reachable, by decide, by decide,
    .step Sample.oneItemConn_reachable
      (.createCart (CartEnv.calm 8 12 6) Sample.oneItemConn Sample.secondCartForm
        ⟨by decide, by decide⟩),
    by decide⟩

/-- A user lookup through the pool that is answered returns the first stored
cart of the user, if there is one. -/
theorem CartDB.GetByUser_db {fail : Bool} {c : Conn F} {userID : UUID} {found : Option Cart}
    (h : CartDB.GetByUser .db fail c userID = .ok found) :
    found = c.committed.carts.find? fun row => row.UserID == userID := by
  unfold CartDB.GetByUser at h
  cases fail with
  | true => simp at h
  | false =>
    simp only [Bool.false_eq_true, if_false, Conn.rows, Except.ok.injEq] at h
    exact h.symm

/-- Appending a cart of a user without cart keeps one cart per user. -/
theorem Tables.OneCartPerUser.append {t : Tables F} (h : t.OneCartPerUser) (cart : Cart)
    (hnone : t.carts.find? (fun row => row.UserID == cart.UserID) = none) :
    ({ t with carts := t.carts ++ [cart] } : Tables F).OneCartPerUser := by
  unfold Tables.OneCartPerUser
  refine List.pairwise_append.mpr ⟨h, List.pairwise_singleton _ _, ?_⟩
  intro a ha b hb
  simp only [List.mem_singleton] at hb
  subst hb
  have := List.find?_eq_none.mp hnone a ha
  simpa using this

/-- The cart resolution of add-item keeps one cart per user: it creates a cart
only for a user without cart, and binding a store keeps the owners. -/
theorem AddCartItemHandler.resolveCart_owners {env : CartEnv} {c c1 : Conn F}
    {userID cartID : UUID} {product : Product F} {field : OptFormUUID}
    (h : AddCartItemHandler.resolveCart env c userID product field = .ok (cartID, c1))
    (hone : c.committed.OneCartPerUser) : c1.committed.OneCartPerUser := by
  have hbind : ∀ (cart : Cart) (c2 : Conn F),
      AddCartItemHandler.bind env c cart product = .ok c2 → c2.committed.OneCartPerUser := by
    intro cart c2 hb
    rcases AddCartItemHandler.bind_ok hb with ⟨_, hc2⟩ | ⟨_, hc2⟩
    · rw [hc2]; exact hone
    · rw [hc2]
      unfold Tables.OneCartPerUser
      rw [List.pairwise_map]
      refine List.Pairwise.imp ?_ hone
      intro a b hab
      have ha : (if (a.ID == cart.ID) = true then
          { a with StoreID := some product.StoreID, UpdatedAt := env.cartBoundAt }
          else a).UserID = a.UserID := by split <;> rfl
      have hb2 : (if (b.ID == cart.ID) = true then
          { b with StoreID := some product.StoreID, UpdatedAt := env.cartBoundAt }
          else b).UserID = b.UserID := by split <;> rfl
      rw [ha, hb2]
      exact hab
  unfold AddCartItemHandler.resolveCart at h
  split at h
  · simp at h
  · split at h
    · simp at h
    · split at h
      · simp at h
      · split at h
        · simp at h
        · rename_i c2 hb
          simp only [Except.ok.injEq, Prod.mk.injEq] at h
          rw [← h.2]
          exact hbind _ _ hb
  · split at h
    · simp at h
    · rename_i hget
      have hnone := CartDB.GetByUser_db hget
      split at h
      · simp at h
      · rename_i cart c2 hins
        simp only [Except.ok.injEq, Prod.mk.injEq] at h
        rw [← h.2]
        unfold CartDB.Insert at hins
        cases hf : env.failCartInsert with
        | true => rw [hf] at hins; simp at hins
        | false =>
          rw [hf] at hins
          simp only [Bool.false_eq_true, if_false, Conn.exec, Prod.mk.injEq,
            Except.ok.injEq] at hins
          rw [← hins.2]
          exact hone.append _ hnone.symm
    · split at h
      · simp at h
      · rename_i c2 hb
        simp only [Except.ok.injEq, Prod.mk.injEq] at h
        rw [← h.2]
        exact hbind _ _ hb

/-- Add-item keeps one cart per user. -/
theorem AddCartItemHandler_owners (env : CartEnv) (c : Conn F) (r : AddCartItemForm)
    (hone : c.committed.OneCartPerUser) :
    (AddCartItemHandler env c r).2.committed.OneCartPerUser := by
  unfold AddCartItemHandler
  split
  · exact hone
  · split
    · exact hone
    · rename_i cartID c1 hres
      have h1 := AddCartItemHandler.resolveCart_owners hres hone
      rename_i userID productID quantity product _ _
      rcases AddCartItemHandler.addItem_cases env c1 cartID productID quantity with
        ⟨h2, _⟩ | ⟨_, item, _, _, _, h2⟩
      · rw [h2]; exact h1
      · rw [h2]; exact h1

/-- A create-cart request keeps one cart per user when a `store_id` it carries
is the store of the cart found for the user: it stores a cart only for a user
without cart. -/
theorem CreateCartHandler_owners (env : CartEnv) (c : Conn F) (r : CreateCartForm)
    (same : ∀ userID storeID cart, r.user = .valid userID → r.store_id = .valid storeID →
      c.committed.carts.find? (fun row => row.UserID == userID) = some cart →
      cart.StoreID = some storeID)
    (hone : c.committed.OneCartPerUser) :
    (CreateCartHandler env c r).2.committed.OneCartPerUser := by
  unfold CreateCartHandler
  split
  · exact hone
  · exact hone
  · rename_i userID huser
    split
    · exact hone
    · dsimp only
      split
      · exact hone
      · rename_i existing hget
        have hfound := CartDB.GetByUser_db hget
        split
        · exact hone
        · rename_i hcond
          split
          · exact hone
          · rename_i cart c1 hins
            unfold CartDB.Insert at hins
            cases hf : env.failCartInsert with
            | true => rw [hf] at hins; simp at hins
            | false =>
              rw [hf] at hins
              simp only [Bool.false_eq_true, if_false, Conn.exec, Prod.mk.injEq,
                Except.ok.injEq] at hins
              rw [← hins.2]
              refine hone.append _ ?_
              cases existing with
              | none => exact hfound.symm
              | some cart0 =>
                exfalso
                apply hcond
                cases hs : r.store_id with
                | invalid => simp
                | empty => simp
                | valid storeID =>
                  have := same userID storeID cart0 huser hs hfound.symm
                  simp [this]

/-- A create-cart request of a user who has a cart is refused when it carries
no `store_id`, or the `store_id` the cart found for the user is bound to:
nothing is written, whatever the faults. -/
theorem CreateCartHandler_refused (env : CartEnv) (c : Conn F) (r : CreateCartForm)
    (userID : UUID) (cart : Cart) (huser : r.user = .valid userID)
    (hcart : c.committed.carts.find? (fun row => row.UserID == userID) = some cart)
    (hstore : r.store_id = .empty ∨ ∃ storeID, r.store_id = .valid storeID ∧
      cart.StoreID = some storeID) :
    (CreateCartHandler env c r).1.isCreated = false ∧ (CreateCartHandler env c r).2 = c := by
  unfold CreateCartHandler
  rw [huser]
  dsimp only
  cases hf : env.failCartGetByUser with
  | true =>
    rcases hstore with hs | ⟨storeID, hs, _⟩ <;>
      · rw [hs]
        simp [CartDB.GetByUser, serverErrorResponse, errorResponse, Reply.isCreated]
  | false =>
    have hget : CartDB.GetByUser .db false c userID = .ok (some cart) := by
      simp [CartDB.GetByUser, Conn.rows, hcart]
    rcases hstore with hs | ⟨storeID, hs, hbound⟩
    · rw [hs]
      simp [hget, badRequestResponse, errorResponse, Reply.isCreated]
    · rw [hs]
      simp [hget, hbound, badRequestResponse, errorResponse, Reply.isCreated]

/-- A create-cart request of a user who has a cart is accepted when it carries a
`store_id` other than the one the cart found for the user is bound to, the
storage calls being answered: a further cart of the user is appended. -/
theorem CreateCartHandler_accepted (env : CartEnv) (c : Conn F) (r : CreateCartForm)
    (userID storeID : UUID) (cart : Cart) (huser : r.user = .valid userID)
    (hcart : c.committed.carts.find? (fun row => row.UserID == userID) = some cart)
    (hstore : r.store_id = .valid storeID) (hother : cart.StoreID ≠ some storeID)
    (hread : env.failCartGetByUser = false) (hwrite : env.failCartInsert = false) :
    (CreateCartHandler env c r).1.isCreated = true ∧
    (CreateCartHandler env c r).2.committed.carts
      = c.committed.carts ++
        [{ ID := env.cartID, UserID := userID, StoreID := some storeID
           CreatedAt := env.cartCreatedAt, UpdatedAt := env.cartUpdatedAt }] := by
  have hget : CartDB.GetByUser .db false c userID = .ok (some cart) := by
    simp [CartDB.GetByUser, Conn.rows, hcart]
  unfold CreateCartHandler
  rw [huser]
  dsimp only
  rw [hstore, hread, hget]
  simp [hother, CartDB.Insert, hwrite, Conn.exec, Reply.isCreated, Cart.draft]

/-- One request of `OneCartStep` keeps one cart per user. -/
theorem OneCartStep.owners {c c2 : Conn F} (h : OneCartStep c c2)
    (hone : c.committed.OneCartPerUser) : c2.committed.OneCartPerUser := by
  cases h with
  | createCart env c r same => exact CreateCartHandler_owners env c r same hone
  | addItem env c r => exact AddCartItemHandler_owners env c r hone

/-- In every state reached by the requests of `OneCartStep`, served one after
the other, no two carts share the user. -/
theorem OneCartReachable.one_cart {c : Conn F} (h : OneCartReachable c) :
    c.committed.OneCartPerUser := by
  induction h with
  | init c carts =>
    unfold Tables.OneCartPerUser
    rw [carts]
    exact List.Pairwise.nil
  | step _ next ih => exact next.owners ih

/-- C22, amended (one cart per user).  With requests served one after the
other: in every state reached from a state without carts by add-item requests
and create-cart requests, leaving out only the create-cart requests of a user
who has a cart that name a store that cart is not bound to, each user has at
most one cart.  A create-cart request of a user who has a cart is refused, with
nothing written, when it carries no `store_id` or the `store_id` of that cart;
when it carries another `store_id` and the storage calls are answered, it is
answered with 201 and a further cart of the user is stored. -/
theorem CreateCartHandler_one_cart (c : Conn F) (reached : OneCartReachable c) :
    c.committed.OneCartPerUser ∧
    (∀ (env : CartEnv) (r : CreateCartForm) (userID : UUID) (cart : Cart),
      r.user = .valid userID →
      c.committed.carts.find? (fun row => row.UserID == userID) = some cart →
      (r.store_id = .empty ∨ ∃ storeID, r.store_id = .valid storeID ∧
        cart.StoreID = some storeID) →
      (CreateCartHandler env c r).1.isCreated = false ∧ (CreateCartHandler env c r).2 = c) ∧
    (∀ (env : CartEnv) (r : CreateCartForm) (userID storeID : UUID) (cart : Cart),
      r.user = .valid userID →
      c.committed.carts.find? (fun row => row.UserID == userID) = some cart →
      r.store_id = .valid storeID → cart.StoreID ≠ some storeID →
      env.failCartGetByUser = false → env.failCartInsert = false →
      (CreateCartHandler env c r).1.isCreated = true ∧
      (CreateCartHandler env c r).2.committed.carts
        = c.committed.carts ++
          [{ ID := env.cartID, UserID := userID, StoreID := some storeID
             CreatedAt := env.cartCreatedAt, UpdatedAt := env.cartUpdatedAt }]) :=
  ⟨reached.one_cart,
    fun env r userID cart huser hcart hstore =>
      CreateCartHandler_refused env c r userID cart huser hcart hstore,
    fun env r userID storeID cart huser hcart hstore hother hread hwrite =>
      CreateCartHandler_accepted env c r userID storeID cart huser hcart hstore hother hread
        hwrite⟩

/-- C22 amended, on the sample store: user 3 creates a cart for store 9, stored
as cart 7, and adds product 1 to it; the state so reached holds one cart per
user; a create-cart request of user 3 without `store_id`, or with the cart's
store 9, is refused with nothing written; with store 8 it is accepted and a
second cart of user 3 is stored. -/
theorem CreateCartHandler_one_cart_witness :
    Sample.storeCartConn.committed.carts
      = [{ ID := 7, UserID := 3, StoreID := some 9, CreatedAt := 5, UpdatedAt := 5 }] ∧
    Sample.storeCartConn.committed.OneCartPerUser ∧
    ((CreateCartHandler (CartEnv.calm 8 12 6) Sample.storeCartConn
        { user := .valid 3, store_id := .empty }).1.isCreated = false ∧
      (CreateCartHandler (CartEnv.calm 8 12 6) Sample.storeCartConn
        { user := .valid 3, store_id := .empty }).2 = Sample.storeCartConn) ∧
    ((CreateCartHandler (CartEnv.calm 8 12 6) Sample.storeCartConn
        { user := .valid 3, store_id := .valid 9 }).1.isCreated = false ∧
      (CreateCartHandler (CartEnv.calm 8 12 6) Sample.storeCartConn
        { user := .valid 3, store_id := .valid 9 }).2 = Sample.storeCartConn) ∧
    ((CreateCartHandler (CartEnv.calm 8 12 6) Sample.storeCartConn
        Sample.secondCartForm).1.isCreated = true ∧
      (CreateCartHandler (CartEnv.calm 8 12 6) Sample.storeCartConn
        Sample.secondCartForm).2.committed.carts
        = Sample.storeCartConn.committed.carts ++
          [{ ID := 8, UserID := 3, StoreID := some 8, CreatedAt := 6, UpdatedAt := 6 }]) :=
  have h := CreateCartHandler_one_cart Sample.storeCartConn
    (.step
      (.step (.init Sample.cartlessConn rfl)
        (.createCart Sample.cartEnv Sample.cartlessConn
          { user := .valid 3, store_id := .valid 9 } (fun _ _ _ _ _ found => nomatch found)))
      (.addItem (CartEnv.calm 8 11 6) _ Sample.addForm))
  ⟨by decide, h.1,
    h.2.1 (CartEnv.calm 8 12 6) { user := .valid 3, store_id := .empty } 3
      { ID := 7, UserID := 3, StoreID := some 9, CreatedAt := 5, UpdatedAt := 5 } rfl
      (by decide) (.inl rfl),
    h.2.1 (CartEnv.calm 8 12 6) { user := .valid 3, store_id := .valid 9 } 3
      { ID := 7, UserID := 3, StoreID := some 9, CreatedAt := 5, UpdatedAt := 5 } rfl
      (by decide) (.inr ⟨9, rfl, rfl⟩),
    h.2.2 (CartEnv.calm 8 12 6) Sample.secondCartForm 3 8
      { ID := 7, UserID := 3, StoreID := some 9, CreatedAt := 5, UpdatedAt := 5 } rfl
      (by decide) rfl (by decide) rfl rfl⟩

/-! ### C23: what a rejected request has written -/

/-- C23 as stated fails for add-to-cart.  User 3 has no cart and asks for zero
units of product 1: the request is answered with 422 for the quantity, and cart
7, bound to store 9, has been created.  User 3 has cart 7 without store and
sends the same request: it is answered with 422, and cart 7 has been bound to
store 9. -/
theorem AddCartItemHandler_rejected_counterexample :
    Sample.cartlessConn.committed.carts = [] ∧
    (AddCartItemHandler Sample.cartEnv Sample.cartlessConn Sample.zeroForm).1
      = .json 422 (.fieldErrors [("quantity", "يجب أن تكون الكمية أكبر من 0")]) ∧
    (AddCartItemHandler Sample.cartEnv Sample.cartlessConn Sample.zeroForm).2.committed.carts
      = [{ ID := 7, UserID := 3, StoreID := some 9, CreatedAt := 5, UpdatedAt := 5 }] ∧
    Sample.unboundConn.committed.carts
      = [{ ID := 7, UserID := 3, StoreID := none, CreatedAt := 5, UpdatedAt := 5 }] ∧
    (AddCartItemHandler (CartEnv.calm 8 12 6) Sample.unboundConn Sample.zeroForm).1
      = .json 422 (.fieldErrors [("quantity", "يجب أن تكون الكمية أكبر من 0")]) ∧
    (AddCartItemHandler (CartEnv.calm 8 12 6) Sample.unboundConn Sample.zeroForm).2.committed.carts
      = [{ ID := 7, UserID := 3, StoreID := some 9, CreatedAt := 5, UpdatedAt := 6 }] := by
  decide

/-- A checkout that is not answered with 201 leaves the committed tables as
they were. -/
theorem CreateOrderFromCartHandler_rejected [Zero F] [Add F] [Sub F] [Mul F] [IntCast F]
    [LE F] [∀ a b : F, Decidable (a ≤ b)] (env : Env) (c : Conn F) (r : CheckoutForm F)
    (h : (CreateOrderFromCartHandler env c r).1.isCreated = false) :
    (CreateOrderFromCartHandler env c r).2.committed = c.committed := by
  revert h
  unfold CreateOrderFromCartHandler
  split
  · intro _; rfl
  · rename_i cartID order items _
    unfold CreateOrderFromCartHandler.finish
    dsimp only
    split
    · rename_i err herr
      intro _
      rcases OrderDB.CreateFromCart_ok_or_unchanged env c order cartID items with h1 | h1
      · rw [h1] at herr
        cases herr
      · exact h1
    · intro h
      simp [Reply.isCreated] at h

/-- An add-item request that is not answered with 201 has written to no table
but `carts`. -/
theorem AddCartItemHandler_rejected (env : CartEnv) (c : Conn F) (r : AddCartItemForm)
    (h : (AddCartItemHandler env c r).1.isCreated = false) :
    ∃ carts : List Cart,
      (AddCartItemHandler env c r).2 = { c with committed := { c.committed with carts := carts } }
      := by
  revert h
  unfold AddCartItemHandler
  split
  · intro _; exact ⟨_, rfl⟩
  · rename_i userID productID quantity product _
    split
    · intro _; exact ⟨_, rfl⟩
    · rename_i cartID c1 hres
      have hc1 : ∃ carts : List Cart,
          c1 = { c with committed := { c.committed with carts := carts } } := by
        rcases AddCartItemHandler.resolveCart_ok hres with ⟨cart, _, _, hb⟩ | ⟨_, cart, _, _, h1⟩
        · rcases AddCartItemHandler.bind_ok hb with ⟨_, h1⟩ | ⟨_, h1⟩
          · exact ⟨_, h1⟩
          · exact ⟨_, h1⟩
        · exact ⟨_, h1⟩
      rcases AddCartItemHandler.addItem_cases env c1 cartID productID quantity with
        ⟨h2, _⟩ | ⟨_, item, _, _, hreply, _⟩
      · intro _
        rw [h2]
        exact hc1
      · intro h
        rw [hreply] at h
        simp [Reply.isCreated] at h

/-- An add-item request that targets a stored cart bound to a store and is not
answered with 201 has written nothing. -/
theorem AddCartItemHandler_rejected_bound (env : CartEnv) (c : Conn F) (r : AddCartItemForm)
    (cart : Cart) (storeID : UUID) (ht : r.Targets c.committed cart)
    (hbound : cart.StoreID = some storeID)
    (h : (AddCartItemHandler env c r).1.isCreated = false) :
    (AddCartItemHandler env c r).2 = c := by
  revert h
  unfold AddCartItemHandler
  split
  · intro _; rfl
  · rename_i userID productID quantity product hparse
    obtain ⟨huser, _⟩ := AddCartItemHandler.parse_ok hparse
    split
    · intro _; rfl
    · rename_i cartID c1 hres
      obtain ⟨_, hb⟩ := AddCartItemHandler.resolveCart_target hres huser ht
      have hc1 : c1 = c := by
        rcases AddCartItemHandler.bind_ok hb with ⟨_, h1⟩ | ⟨hnone, _⟩
        · exact h1
        · rw [hbound] at hnone
          cases hnone
      rcases AddCartItemHandler.addItem_cases env c1 cartID productID quantity with
        ⟨h2, _⟩ | ⟨_, item, _, _, hreply, _⟩
      · intro _
        rw [h2, hc1]
      · intro h
        rw [hreply] at h
        simp [Reply.isCreated] at h

/-- C23, amended (validate before mutating).  Whatever the faults: an
update-quantity request that is not answered with 200 and a checkout request
that is not answered with 201 leave every stored record as it was; an
add-to-cart request that is not answered with 201 has written to no table but
`carts`, so it has inserted no cart item; and when it targets a stored cart
that is bound to a store (as in every store-mismatch rejection) it has written
nothing at all. -/
theorem AddCartItemHandler_rejected_writes [Zero F] [Add F] [Sub F] [Mul F] [IntCast F]
    [LE F] [∀ a b : F, Decidable (a ≤ b)] (c : Conn F) :
    (∀ (env : CartEnv) (r : UpdateCartItemForm),
      (UpdateCartItemHandler env c r).1.isUpdated = false →
      (UpdateCartItemHandler env c r).2 = c) ∧
    (∀ (env : Env) (r : CheckoutForm F),
      (CreateOrderFromCartHandler env c r).1.isCreated = false →
      (CreateOrderFromCartHandler env c r).2.committed = c.committed) ∧
    (∀ (env : CartEnv) (r : AddCartItemForm),
      (AddCartItemHandler env c r).1.isCreated = false →
      ∃ carts : List Cart,
        (AddCartItemHandler env c r).2
          = { c with committed := { c.committed with carts := carts } }) ∧
    (∀ (env : CartEnv) (r : AddCartItemForm) (cart : Cart) (storeID : UUID),
      r.Targets c.committed cart → cart.StoreID = some storeID →
      (AddCartItemHandler env c r).1.isCreated = false →
      (AddCartItemHandler env c r).2 = c) :=
  ⟨fun env r h => UpdateCartItemHandler_rejected env c r h,
    fun env r h => CreateOrderFromCartHandler_rejected env c r h,
    fun env r h => AddCartItemHandler_rejected env c r h,
    fun env r cart storeID ht hbound h =>
      AddCartItemHandler_rejected_bound env c r cart storeID ht hbound h⟩

/-- C23 amended, on the sample store: the add-item request that repeats
product 1 for cart 7, which is bound to store 9, is refused and nothing is
written; the update of item 11 to quantity 0 is refused and nothing is
written; the checkout of the missing cart 8 is refused and nothing is
written. -/
theorem AddCartItemHandler_rejected_writes_witness :
    (AddCartItemHandler (CartEnv.calm 8 12 6) Sample.oneItemConn Sample.addForm).2
      = Sample.oneItemConn ∧
    (UpdateCartItemHandler Sample.cartEnv Sample.conn
        { id := .valid 11, quantity := .number 0 }).2 = Sample.conn ∧
    (CreateOrderFromCartHandler Sample.env Sample.conn (Sample.addressForm 8)).2.committed
      = Sample.conn.committed :=
  ⟨(AddCartItemHandler_rejected_writes Sample.oneItemConn).2.2.2 (CartEnv.calm 8 12 6)
      Sample.addForm { ID := 7, UserID := 3, StoreID := some 9, CreatedAt := 5, UpdatedAt := 5 }
      9 (.inr ⟨rfl, 3, rfl, by decide⟩) rfl (by decide),
    (AddCartItemHandler_rejected_writes Sample.conn).1 Sample.cartEnv
      { id := .valid 11, quantity := .number 0 } (by decide),
    (AddCartItemHandler_rejected_writes Sample.conn).2.1 Sample.env (Sample.addressForm 8)
      (by decide)⟩

/-! ### Requests served while a handler runs -/

/-- With the three reads on one connection, `prepareAcross` is `prepare`. -/
theorem CreateOrderFromCartHandler.prepareAcross_same [Zero F] [LE F]
    [∀ a b : F, Decidable (a ≤ b)] (env : Env) (c : Conn F) (r : CheckoutForm F) :
    CreateOrderFromCartHandler.prepareAcross env c c c r
      = CreateOrderFromCartHandler.prepare env c r := rfl

/-- With no request served between its statements, the checkout handler across
connections is the checkout handler. -/
theorem CreateOrderFromCartHandler.across_undisturbed [Zero F] [Add F] [Sub F] [Mul F] [IntCast F]
    [LE F] [∀ a b : F, Decidable (a ≤ b)] (env : Env) (c : Conn F) (r : CheckoutForm F) :
    CreateOrderFromCartHandler.across env c c c c r = CreateOrderFromCartHandler env c r := rfl

/-- With the lookup and the write on one connection, `resolveCartAcross` is
`resolveCart`. -/
theorem AddCartItemHandler.resolveCartAcross_same (env : CartEnv) (c : Conn F) (userID : UUID)
    (product : Product F) (cart_id : OptFormUUID) :
    AddCartItemHandler.resolveCartAcross env c c userID product cart_id
      = AddCartItemHandler.resolveCart env c userID product cart_id := rfl

/-- With the listing and the insertion on one connection, `addItemAcross` is
`addItem`. -/
theorem AddCartItemHandler.addItemAcross_same (env : CartEnv) (c : Conn F)
    (cartID productID : UUID) (quantity : Int) :
    AddCartItemHandler.addItemAcross env c c cartID productID quantity
      = AddCartItemHandler.addItem env c cartID productID quantity := rfl

/-- With no request served between its statements, the add-item handler across
connections is the add-item handler. -/
theorem AddCartItemHandler.across_same (env : CartEnv) (c : Conn F) (r : AddCartItemForm) :
    AddCartItemHandler.across env c c r = AddCartItemHandler env c r := by
  unfold AddCartItemHandler.across AddCartItemHandler AddCartItemHandler.resolveAcross
  cases AddCartItemHandler.parse env c r with
  | error reply => rfl
  | ok p =>
    obtain ⟨userID, productID, quantity, product⟩ := p
    dsimp only
    rw [AddCartItemHandler.resolveCartAcross_same]
    cases AddCartItemHandler.resolveCart env c userID product r.cart_id with
    | error reply => rfl
    | ok q => rfl

/-- When the second request is refused before it looks up a cart and so writes
nothing, the overlapped schedule is the first request served alone. -/
theorem AddCartItemHandler.overlapped_alone (env1 env2 : CartEnv) (c : Conn F)
    (r1 r2 : AddCartItemForm) (reply : Reply F)
    (h : AddCartItemHandler.parse env2 c r2 = .error reply) :
    AddCartItemHandler.overlapped env1 env2 c r1 r2
      = ((AddCartItemHandler env1 c r1).1, reply, (AddCartItemHandler env1 c r1).2) := by
  rw [← AddCartItemHandler.across_same]
  unfold AddCartItemHandler.overlapped AddCartItemHandler.across
  have h2 : ∀ cw, AddCartItemHandler.resolveAcross env2 c cw r2 = .error reply := by
    intro cw
    unfold AddCartItemHandler.resolveAcross
    rw [h]
  simp only [h2]
  cases AddCartItemHandler.resolveAcross env1 c c r1 with
  | error reply1 => rfl
  | ok q => rfl

/-! ### C7, C12, C18, C19: the claims as stated, on requests that overlap -/

/-- C12 as stated fails when another request is served while the checkout runs.
After user 3 created cart 7 without store, the state is reachable.  The
checkout handler loads cart 7, which has no store (line 47); an add-item
request of user 3 for product 1 is then served, which binds cart 7 to store 9
and stores item 12 in it, a reachable state in which every cart with an item
has a store; the handler then lists the items of cart 7 (line 52), finds
item 12, passes the empty-cart check and dereferences the store of the cart it
loaded (line 81), which panics. -/
theorem CreateOrderFromCartHandler_store_bound_counterexample :
    CartReachable Sample.unboundConn ∧
    CartReachable (AddCartItemHandler (CartEnv.calm 8 12 6) Sample.unboundConn Sample.addForm).2 ∧
    (AddCartItemHandler (CartEnv.calm 8 12 6) Sample.unboundConn
      Sample.addForm).2.committed.StoreBound ∧
    CartDB.Get .db false Sample.unboundConn 7
      = .ok { ID := 7, UserID := 3, StoreID := none, CreatedAt := 5, UpdatedAt := 5 } ∧
    CartItemDB.ListByCart .db false
        (AddCartItemHandler (CartEnv.calm 8 12 6) Sample.unboundConn Sample.addForm).2 7
      = .ok [{ ID := 12, CartID := 7, ProductID := 1, Quantity := 2, CreatedAt := 6
               UpdatedAt := 6 }] ∧
    (CreateOrderFromCartHandler.across Sample.env Sample.unboundConn
        (AddCartItemHandler (CartEnv.calm 8 12 6) Sample.unboundConn Sample.addForm).2
        (AddCartItemHandler (CartEnv.calm 8 12 6) Sample.unboundConn Sample.addForm).2
        (AddCartItemHandler (CartEnv.calm 8 12 6) Sample.unboundConn Sample.addForm).2
        (Sample.addressForm 7)).1 = .panic :=
  have reached : CartReachable
      (AddCartItemHandler (CartEnv.calm 8 12 6) Sample.unboundConn Sample.addForm).2 :=
    .step Sample.unboundConn_reachable
      (.addItem (CartEnv.calm 8 12 6) Sample.unboundConn Sample.addForm
        ⟨by decide, by decide⟩)
  ⟨Sample.unboundConn_reachable, reached, (CartReachable.invariants reached).2.2.storeBound,
    by decide, by decide, by decide⟩

/-- C18 as stated fails when two add-item requests overlap.  On the reachable
state after user 3 added product 1 to cart 7, two requests of user 3 for
product 2 both find cart 7 and both list its items (line 118) before either
inserts (line 143): each finds only item 11, both are answered with 201, and
cart 7 then holds two items of product 2. -/
theorem AddCartItemHandler_no_duplicate_lines_counterexample :
    CartReachable Sample.oneItemConn ∧
    (AddCartItemHandler.overlapped (CartEnv.calm 8 12 6) (CartEnv.calm 9 13 7)
        Sample.oneItemConn Sample.cupForm Sample.cupForm).1.isCreated = true ∧
    (AddCartItemHandler.overlapped (CartEnv.calm 8 12 6) (CartEnv.calm 9 13 7)
        Sample.oneItemConn Sample.cupForm Sample.cupForm).2.1.isCreated = true ∧
    (AddCartItemHandler.overlapped (CartEnv.calm 8 12 6) (CartEnv.calm 9 13 7)
        Sample.oneItemConn Sample.cupForm Sample.cupForm).2.2.committed.cart_items
      = [{ ID := 11, CartID := 7, ProductID := 1, Quantity := 2, CreatedAt := 5, UpdatedAt := 5 },
         { ID := 12, CartID := 7, ProductID := 2, Quantity := 1, CreatedAt := 6, UpdatedAt := 6 },
         { ID := 13, CartID := 7, ProductID := 2, Quantity := 1, CreatedAt := 7,
           UpdatedAt := 7 }] ∧
    ¬ (AddCartItemHandler.overlapped (CartEnv.calm 8 12 6) (CartEnv.calm 9 13 7)
        Sample.oneItemConn Sample.cupForm Sample.cupForm).2.2.committed.NoDuplicateLines :=
  ⟨Sample.oneItemConn_reachable, by decide, by decide, by decide, by
    unfold Tables.NoDuplicateLines
    decide⟩

/-- C19 as stated fails when two add-item requests overlap.  On the reachable
state after user 3 created cart 7 without store, a request for product 1 of
store 9 and a request for product 3 of store 8 both find cart 7 without store
(line 85) before either binds it: the first binds it to store 9, the second
to store 8 (line 108, an unconditional update), both items are inserted with
201, and cart 7 is then bound to store 8 while it holds product 1 of store 9. -/
theorem AddCartItemHandler_single_store_counterexample :
    CartReachable Sample.unboundConn ∧
    (AddCartItemHandler.overlapped (CartEnv.calm 8 12 6) (CartEnv.calm 9 13 7)
        Sample.unboundConn Sample.addForm Sample.otherStoreForm).1.isCreated = true ∧
    (AddCartItemHandler.overlapped (CartEnv.calm 8 12 6) (CartEnv.calm 9 13 7)
        Sample.unboundConn Sample.addForm Sample.otherStoreForm).2.1.isCreated = true ∧
    (AddCartItemHandler.overlapped (CartEnv.calm 8 12 6) (CartEnv.calm 9 13 7)
        Sample.unboundConn Sample.addForm Sample.otherStoreForm).2.2.committed.carts
      = [{ ID := 7, UserID := 3, StoreID := some 8, CreatedAt := 5, UpdatedAt := 7 }] ∧
    (AddCartItemHandler.overlapped (CartEnv.calm 8 12 6) (CartEnv.calm 9 13 7)
        Sample.unboundConn Sample.addForm Sample.otherStoreForm).2.2.committed.cart_items
      = [{ ID := 12, CartID := 7, ProductID := 1, Quantity := 2, CreatedAt := 6, UpdatedAt := 6 },
         { ID := 13, CartID := 7, ProductID := 3, Quantity := 1, CreatedAt := 7,
           UpdatedAt := 7 }] ∧
    ((AddCartItemHandler.overlapped (CartEnv.calm 8 12 6) (CartEnv.calm 9 13 7)
        Sample.unboundConn Sample.addForm Sample.otherStoreForm).2.2.committed.product? 1).map
        (fun p => p.StoreID) = some 9 ∧
    ¬ (AddCartItemHandler.overlapped (CartEnv.calm 8 12 6) (CartEnv.calm 9 13 7)
        Sample.unboundConn Sample.addForm Sample.otherStoreForm).2.2.committed.SingleStore :=
  ⟨Sample.unboundConn_reachable, by decide, by decide, by decide, by decide, by decide, by
    intro h
    obtain ⟨p, hp, hs⟩ := h { ID := 7, UserID := 3, StoreID := some 8, CreatedAt := 5, UpdatedAt := 7 }
      (by decide)
      { ID := 12, CartID := 7, ProductID := 1, Quantity := 2, CreatedAt := 6, UpdatedAt := 6 }
      (by decide) rfl
    have hp1 : (AddCartItemHandler.overlapped (CartEnv.calm 8 12 6) (CartEnv.calm 9 13 7)
        Sample.unboundConn Sample.addForm Sample.otherStoreForm).2.2.committed.product? 1
        = some { ID := 1, StoreID := 9, Name := "tea", Description := none, Price := 100
                 Discount := 10, Image := some "tea.png", StockQuantity := 10
                 IsAvailable := true, CreatedAt := 0, UpdatedAt := 0 } := by decide
    rw [hp1] at hp
    simp only [Option.some.injEq] at hp
    rw [← hp] at hs
    exact absurd hs (by decide)⟩

/-- Two add-item requests of a user without cart that overlap both find no cart
(line 85) before either inserts one (line 96), and two carts of the user are
stored: one cart per user needs the requests served one after the other. -/
theorem AddCartItemHandler.overlapped_two_carts :
    (AddCartItemHandler.overlapped (CartEnv.calm 8 12 6) (CartEnv.calm 9 13 7)
        Sample.cartlessConn Sample.addForm Sample.cupForm).2.2.committed.carts
      = [{ ID := 8, UserID := 3, StoreID := some 9, CreatedAt := 6, UpdatedAt := 6 },
         { ID := 9, UserID := 3, StoreID := some 9, CreatedAt := 7, UpdatedAt := 7 }] := by
  decide

end Vendor
